import Mathlib

/-!
Verification development for the Nova bootstrap compiler front end
(src/bootstrap/src: span.rs, token.rs, error.rs, lexer.rs, parser.rs).

The Rust sources are shallowly embedded: each Lean definition mirrors one
Rust item and is named after it.  Byte positions are modelled as Nat; the
Rust code stores them as u32, which is exact for any source smaller than
4 GiB (the documented source-size limit), so no modular truncation is
applied.  Rust Result values become Except; Rust panics (todo! stubs and
the expect on an empty token stream) become a distinguished panicStub
error constructor so that panic behaviour is observable.
-/

namespace Nova

/-- Span (span.rs): half-open byte interval with 32-bit fields in Rust.
Fields are modelled as Nat (exact below the 4 GiB source limit).
Rust Span::new asserts start <= stop; every construction site in the
lexer and parser satisfies it. -/
structure Span where
  start : Nat
  stop : Nat
deriving DecidableEq, Repr

/-- Span::merge from span.rs: minimum of starts, maximum of ends. -/
def Span.merge (a b : Span) : Span :=
  let s := if a.start < b.start then a.start else b.start
  let e := if a.stop > b.stop then a.stop else b.stop
  { start := s, stop := e }

/-- Span::len from span.rs: saturating subtraction (Nat subtraction). -/
def Span.len (a : Span) : Nat := a.stop - a.start

/-- Span::contains from span.rs. -/
def Span.containsOff (a : Span) (o : Nat) : Bool := a.start ≤ o && o < a.stop

/-- TokenKind (token.rs): closed 1-byte enumeration. -/
inductive TokenKind where
  | IntLit | FloatLit | StringLit | CharLit
  | Ident
  | As | Async | Await | Break | Const | Continue | Else | Enum
  | False | Fn | For | If | Impl | In | Let | Loop | Match | Mod
  | Mut | Pub | Return | SelfLower | SelfUpper | Static | Struct
  | Trait | True | Type | Unsafe | Use | Where | While
  | Plus | Minus | Star | Slash | Percent | Caret | Amp | Pipe
  | Tilde | Bang | Eq | Lt | Gt | At | Dot | Comma | Semi | Colon
  | Hash | Dollar | Question | Underscore
  | DotDot | DotDotEq | ColonColon | Arrow | FatArrow
  | PlusEq | MinusEq | StarEq | SlashEq | PercentEq | CaretEq
  | AmpEq | PipeEq | EqEq | BangEq | LtEq | GtEq | AmpAmp
  | PipePipe | LtLt | GtGt | LtLtEq | GtGtEq
  | LParen | RParen | LBracket | RBracket | LBrace | RBrace
  | Eof | Error
deriving DecidableEq, Repr

namespace TokenKind

/-- Discriminant values assigned in token.rs (repr(u8)). -/
def tag : TokenKind → Nat
  | IntLit => 0 | FloatLit => 1 | StringLit => 2 | CharLit => 3
  | Ident => 4
  | As => 10 | Async => 11 | Await => 12 | Break => 13 | Const => 14
  | Continue => 15 | Else => 16 | Enum => 17 | .False => 18 | Fn => 19
  | For => 20 | If => 21 | Impl => 22 | In => 23 | Let => 24
  | Loop => 25 | Match => 26 | Mod => 27 | Mut => 28 | Pub => 29
  | Return => 30 | SelfLower => 31 | SelfUpper => 32 | Static => 33
  | Struct => 34 | Trait => 35 | .True => 36 | .Type => 37
  | Unsafe => 38 | Use => 39 | Where => 40 | While => 41
  | Plus => 50 | Minus => 51 | Star => 52 | Slash => 53
  | Percent => 54 | Caret => 55 | Amp => 56 | Pipe => 57
  | Tilde => 58 | Bang => 59 | Eq => 60 | Lt => 61 | Gt => 62
  | At => 63 | Dot => 64 | Comma => 65 | Semi => 66 | Colon => 67
  | Hash => 68 | Dollar => 69 | Question => 70 | Underscore => 71
  | DotDot => 80 | DotDotEq => 81 | ColonColon => 82 | Arrow => 83
  | FatArrow => 84 | PlusEq => 85 | MinusEq => 86 | StarEq => 87
  | SlashEq => 88 | PercentEq => 89 | CaretEq => 90 | AmpEq => 91
  | PipeEq => 92 | EqEq => 93 | BangEq => 94 | LtEq => 95
  | GtEq => 96 | AmpAmp => 97 | PipePipe => 98 | LtLt => 99
  | GtGt => 100 | LtLtEq => 101 | GtGtEq => 102
  | LParen => 110 | RParen => 111 | LBracket => 112
  | RBracket => 113 | LBrace => 114 | RBrace => 115
  | Eof => 250 | Error => 251

/-- TokenKind::is_keyword (token.rs): discriminant range 10..=41. -/
def is_keyword (k : TokenKind) : Bool := 10 ≤ k.tag && k.tag ≤ 41

/-- TokenKind::is_literal (token.rs): discriminant range 0..=3. -/
def is_literal (k : TokenKind) : Bool := k.tag ≤ 3

/-- TokenKind::is_operator (token.rs): discriminant range 50..=102. -/
def is_operator (k : TokenKind) : Bool := 50 ≤ k.tag && k.tag ≤ 102

/-- TokenKind::is_delimiter (token.rs): discriminant range 110..=115. -/
def is_delimiter (k : TokenKind) : Bool := 110 ≤ k.tag && k.tag ≤ 115

/-- TokenKind::precedence (token.rs lines 281-333): binary-operator
precedence tiers as written in the source (higher binds tighter),
returning none for non-binary-operator kinds. -/
def precedence : TokenKind → Option Nat
  | Eq | PlusEq | MinusEq | StarEq | SlashEq | PercentEq
  | AmpEq | PipeEq | CaretEq | LtLtEq | GtGtEq => some 1
  | PipePipe => some 2
  | AmpAmp => some 3
  | EqEq | BangEq | Lt | Gt | LtEq | GtEq => some 4
  | Pipe => some 5
  | Caret => some 6
  | Amp => some 7
  | LtLt | GtGt => some 8
  | Plus | Minus => some 9
  | Star | Slash | Percent => some 10
  | DotDot | DotDotEq => some 11
  | _ => none

/-- TokenKind::from_keyword (token.rs lines 336-372). -/
def from_keyword (s : String) : Option TokenKind :=
  match s with
  | "as" => some As
  | "async" => some Async
  | "await" => some Await
  | "break" => some Break
  | "const" => some Const
  | "continue" => some Continue
  | "else" => some Else
  | "enum" => some Enum
  | "false" => some .False
  | "fn" => some Fn
  | "for" => some For
  | "if" => some If
  | "impl" => some Impl
  | "in" => some In
  | "let" => some Let
  | "loop" => some Loop
  | "match" => some Match
  | "mod" => some Mod
  | "mut" => some Mut
  | "pub" => some Pub
  | "return" => some Return
  | "self" => some SelfLower
  | "Self" => some SelfUpper
  | "static" => some Static
  | "struct" => some Struct
  | "trait" => some Trait
  | "true" => some .True
  | "type" => some .Type
  | "unsafe" => some Unsafe
  | "use" => some Use
  | "where" => some Where
  | "while" => some While
  | _ => none

/-- TokenKind::as_str (token.rs lines 376-479). -/
def as_str : TokenKind → String
  | IntLit => "<int>" | FloatLit => "<float>" | StringLit => "<string>"
  | CharLit => "<char>" | Ident => "<ident>"
  | As => "as" | Async => "async" | Await => "await" | Break => "break"
  | Const => "const" | Continue => "continue" | Else => "else"
  | Enum => "enum" | .False => "false" | Fn => "fn" | For => "for"
  | If => "if" | Impl => "impl" | In => "in" | Let => "let"
  | Loop => "loop" | Match => "match" | Mod => "mod" | Mut => "mut"
  | Pub => "pub" | Return => "return" | SelfLower => "self"
  | SelfUpper => "Self" | Static => "static" | Struct => "struct"
  | Trait => "trait" | .True => "true" | .Type => "type"
  | Unsafe => "unsafe" | Use => "use" | Where => "where"
  | While => "while"
  | Plus => "+" | Minus => "-" | Star => "*" | Slash => "/"
  | Percent => "%" | Caret => "^" | Amp => "&" | Pipe => "|"
  | Tilde => "~" | Bang => "!" | Eq => "=" | Lt => "<" | Gt => ">"
  | At => "@" | Dot => "." | Comma => "," | Semi => ";" | Colon => ":"
  | Hash => "#" | Dollar => "$" | Question => "?" | Underscore => "_"
  | DotDot => ".." | DotDotEq => "..=" | ColonColon => "::"
  | Arrow => "->" | FatArrow => "=>"
  | PlusEq => "+=" | MinusEq => "-=" | StarEq => "*=" | SlashEq => "/="
  | PercentEq => "%=" | CaretEq => "^=" | AmpEq => "&=" | PipeEq => "|="
  | EqEq => "==" | BangEq => "!=" | LtEq => "<=" | GtEq => ">="
  | AmpAmp => "&&" | PipePipe => "||" | LtLt => "<<" | GtGt => ">>"
  | LtLtEq => "<<=" | GtGtEq => ">>="
  | LParen => "(" | RParen => ")" | LBracket => "[" | RBracket => "]"
  | LBrace => "\x7b" | RBrace => "\x7d"
  | Eof => "<eof>" | Error => "<error>"

/-- Every TokenKind constructor, for finite enumeration. -/
def allKinds : List TokenKind :=
  [IntLit, FloatLit, StringLit, CharLit, Ident,
   As, Async, Await, Break, Const, Continue, Else, Enum, .False, Fn,
   For, If, Impl, In, Let, Loop, Match, Mod, Mut, Pub, Return,
   SelfLower, SelfUpper, Static, Struct, Trait, .True, .Type, Unsafe,
   Use, Where, While,
   Plus, Minus, Star, Slash, Percent, Caret, Amp, Pipe, Tilde, Bang,
   Eq, Lt, Gt, At, Dot, Comma, Semi, Colon, Hash, Dollar, Question,
   Underscore,
   DotDot, DotDotEq, ColonColon, Arrow, FatArrow, PlusEq, MinusEq,
   StarEq, SlashEq, PercentEq, CaretEq, AmpEq, PipeEq, EqEq, BangEq,
   LtEq, GtEq, AmpAmp, PipePipe, LtLt, GtGt, LtLtEq, GtGtEq,
   LParen, RParen, LBracket, RBracket, LBrace, RBrace, Eof, Error]

end TokenKind

/-- Token (token.rs): a kind and a span, nothing else. -/
structure Token where
  kind : TokenKind
  span : Span
deriving DecidableEq, Repr

/-- Token::new (token.rs). -/
def Token.new (kind : TokenKind) (span : Span) : Token :=
  { kind := kind, span := span }

/-- Token::eof (token.rs lines 565-569): an Eof token with the empty
span at the given position. -/
def Token.eof (pos : Nat) : Token :=
  Token.new TokenKind.Eof { start := pos, stop := pos }

/-- Token::error (token.rs). -/
def Token.error (span : Span) : Token := Token.new TokenKind.Error span

/-- NovaError as required by the lexer and parser sources.  The enum
declared in error.rs (lines 8-60) contains only the first eleven
variants below; parser.rs additionally constructs NestingTooDeep
(lines 273, 360) and InvalidLiteral (lines 146, 156), so those two
variants are included here so the parser embedding can be written.
Their absence from error.rs is the subject of claim C3. -/
inductive NovaError where
  | InvalidCharacter (char : Char) (span : Span)
  | UnterminatedString (span : Span)
  | InvalidEscape (char : Char) (span : Span)
  | InvalidNumber (span : Span)
  | UnexpectedToken (expected : String) (found : TokenKind) (span : Span)
  | UnexpectedEof (expected : String) (span : Span)
  | TypeMismatch (expected : String) (found : String) (span : Span)
  | UndefinedVariable (name : String) (span : Span)
  | UndefinedType (name : String) (span : Span)
  | UndefinedFunction (name : String) (span : Span)
  | Custom (message : String) (span : Span)
  | NestingTooDeep (depth : Nat) (max : Nat) (span : Span)
  | InvalidLiteral (kind : String) (span : Span)
deriving DecidableEq, Repr

/-- Descriptor of one variant of the NovaError enum as it is literally
declared in error.rs: its name and whether it carries a span field. -/
structure ErrVariant where
  name : String
  hasSpan : Bool
deriving DecidableEq, Repr

/-- The variant list of the NovaError enum exactly as declared in
error.rs lines 8-60. -/
def errorRsVariants : List ErrVariant :=
  [{ name := "InvalidCharacter", hasSpan := true },
   { name := "UnterminatedString", hasSpan := true },
   { name := "InvalidEscape", hasSpan := true },
   { name := "InvalidNumber", hasSpan := true },
   { name := "UnexpectedToken", hasSpan := true },
   { name := "UnexpectedEof", hasSpan := true },
   { name := "TypeMismatch", hasSpan := true },
   { name := "UndefinedVariable", hasSpan := true },
   { name := "UndefinedType", hasSpan := true },
   { name := "UndefinedFunction", hasSpan := true },
   { name := "Custom", hasSpan := true }]

/-!
Lexer (lexer.rs).  Source text is a list of characters; byte positions
advance by the UTF-8 size of each character, matching the byte offsets
of the Rust CharIndices iterator.
-/

/-- UTF-8 byte size of a character (char::len_utf8 in Rust). -/
def csize (c : Char) : Nat := c.utf8Size

/-- Total UTF-8 byte length of a character list (str::len in Rust). -/
def utf8Len : List Char → Nat
  | [] => 0
  | c :: rs => csize c + utf8Len rs

/-- Advance over characters while p holds: the while-peek-advance loops
of the lexer.  Returns the byte position after the consumed characters
and the remaining characters. -/
def takeW (p : Char → Bool) (cur : Nat) : List Char → Nat × List Char
  | [] => (cur, [])
  | c :: rs => if p c then takeW p (cur + csize c) rs else (cur, c :: rs)

/-- Like takeW, but also returns the consumed characters, used where
lexer.rs re-reads the consumed slice out of the source string. -/
def takeWText (p : Char → Bool) (cur : Nat) : List Char → Nat × List Char × List Char
  | [] => (cur, [], [])
  | c :: rs =>
    if p c then
      match takeWText p (cur + csize c) rs with
      | (cur2, text, rest) => (cur2, c :: text, rest)
    else (cur, [], c :: rs)

/-- Line-comment loop inside Lexer::skip_whitespace_and_comments
(lexer.rs lines 294-304): advance until a newline, which is left for
the outer loop to consume as whitespace. -/
def skipLine (cur : Nat) : List Char → Nat × List Char
  | [] => (cur, [])
  | c :: rs => if c = '\n' then (cur, c :: rs) else skipLine (cur + csize c) rs

/-- Block-comment loop inside Lexer::skip_whitespace_and_comments
(lexer.rs lines 305-323): depth rises at each nested opener and falls
at each closer; an unterminated comment stops at end of input.  The
loop tracks depth but imposes no limit on it. -/
def skipBlock : Nat → Nat → List Char → Nat × List Char
  | 0, cur, l => (cur, l)
  | _ + 1, cur, [] => (cur, [])
  | d + 1, cur, '*' :: '/' :: rs => skipBlock d (cur + 2) rs
  | d + 1, cur, '/' :: '*' :: rs => skipBlock (d + 2) (cur + 2) rs
  | d + 1, cur, c :: rs => skipBlock (d + 1) (cur + csize c) rs

/-- Lexer::skip_whitespace_and_comments (lexer.rs lines 283-331).
Fueled: every iteration consumes at least one character, so the fuel
chosen at the call site (length + 1) always suffices; on exhaustion the
state is returned unchanged (unreachable with that fuel). -/
def skipWs : Nat → Nat → List Char → Nat × List Char
  | 0, cur, l => (cur, l)
  | f + 1, cur, l =>
    match l with
    | [] => (cur, [])
    | c :: rs =>
      if c = ' ' || c = '\t' || c = '\n' || c = '\r' then
        skipWs f (cur + 1) rs
      else if c = '/' then
        match rs with
        | '/' :: rs2 =>
          match skipLine (cur + 2) rs2 with
          | (cur2, l2) => skipWs f cur2 l2
        | '*' :: rs2 =>
          match skipBlock 1 (cur + 2) rs2 with
          | (cur2, l2) => skipWs f cur2 l2
        | _ => (cur, c :: rs)
      else (cur, c :: rs)

/-- Lexer::lex_string (lexer.rs lines 334-356): scan to the closing
quote, skipping one character after each backslash; unterminated
strings report UnterminatedString over the span scanned so far. -/
def lex_string (start : Nat) (cur : Nat) (l : List Char) :
    Except NovaError (TokenKind × Nat × List Char) :=
  match l with
  | [] => Except.error (NovaError.UnterminatedString { start := start, stop := cur })
  | c :: rs =>
    if c = '"' then Except.ok (TokenKind.StringLit, cur + 1, rs)
    else if c = '\\' then
      match rs with
      | [] => Except.error (NovaError.UnterminatedString { start := start, stop := cur + 1 })
      | e :: rs2 => lex_string start (cur + 1 + csize e) rs2
    else lex_string start (cur + csize c) rs

/-- Closing-quote check at the end of Lexer::lex_char
(lexer.rs lines 384-392). -/
def lex_char_close (start cur : Nat) (l : List Char) :
    Except NovaError (TokenKind × Nat × List Char) :=
  match l with
  | '\'' :: rs => Except.ok (TokenKind.CharLit, cur + 1, rs)
  | _ => Except.error (NovaError.UnterminatedString { start := start, stop := cur })

/-- Lexer::lex_char (lexer.rs lines 359-393). -/
def lex_char (start cur : Nat) (l : List Char) :
    Except NovaError (TokenKind × Nat × List Char) :=
  match l with
  | [] => Except.error (NovaError.UnterminatedString { start := start, stop := cur })
  | c :: rs =>
    if c = '\\' then
      match rs with
      | [] => Except.error (NovaError.UnterminatedString { start := start, stop := cur + 1 })
      | e :: rs2 => lex_char_close start (cur + 1 + csize e) rs2
    else if c = '\'' then
      Except.error (NovaError.InvalidCharacter '\'' { start := start, stop := cur + 1 })
    else lex_char_close start (cur + csize c) rs

/-- Rust char::is_ascii_hexdigit. -/
def isHexDigitB (c : Char) : Bool :=
  c.isDigit || ('a' ≤ c && c ≤ 'f') || ('A' ≤ c && c ≤ 'F')

/-- Digit-or-underscore classes used by the number loops. -/
def isDigitUnd (c : Char) : Bool := c.isDigit || c = '_'

def isHexUnd (c : Char) : Bool := isHexDigitB c || c = '_'

def isBinUnd (c : Char) : Bool := c = '0' || c = '1' || c = '_'

def isOctUnd (c : Char) : Bool := ('0' ≤ c && c ≤ '7') || c = '_'

/-- Rust char::is_ascii_alphanumeric plus underscore: identifier
continuation characters. -/
def isIdentCont (c : Char) : Bool := c.isAlphanum || c = '_'

/-- Exponent part of Lexer::lex_number (lexer.rs lines 468-482):
if the next character is e or E the literal becomes a float and an
optional sign plus digit-or-underscore run is consumed. -/
def lex_exponent (cur : Nat) (l : List Char) : Bool × Nat × List Char :=
  match l with
  | [] => (false, cur, [])
  | c :: rs =>
    if c = 'e' || c = 'E' then
      match rs with
      | s :: rs2 =>
        if s = '+' || s = '-' then
          match takeW isDigitUnd (cur + 2) rs2 with
          | (cur2, l2) => (true, cur2, l2)
        else
          match takeW isDigitUnd (cur + 1) rs with
          | (cur2, l2) => (true, cur2, l2)
      | [] => (true, cur + 1, [])
    else (false, cur, c :: rs)

/-- Fraction part of Lexer::lex_number (lexer.rs lines 452-466): a dot
followed immediately by a digit extends the literal as a float;
otherwise the dot is left in place for the range operator. -/
def lex_fraction (cur1 : Nat) (l1 : List Char) : Bool × Nat × List Char :=
  match l1 with
  | '.' :: d :: rs2 =>
    if d.isDigit then
      match takeW isDigitUnd (cur1 + 1) (d :: rs2) with
      | (cur2, l2) => (true, cur2, l2)
    else (false, cur1, '.' :: d :: rs2)
  | l1 => (false, cur1, l1)

/-- Decimal part of Lexer::lex_number (lexer.rs lines 439-482): digit
run, optional fraction whose dot requires a digit immediately after it
(the range-operator disambiguation), then the optional exponent. -/
def lex_number_body (cur : Nat) (l : List Char) : TokenKind × Nat × List Char :=
  match takeW isDigitUnd cur l with
  | (cur1, l1) =>
    match lex_fraction cur1 l1 with
    | (isf, curf, lf) =>
      match lex_exponent curf lf with
      | (ise, cure, le) =>
        if isf || ise then (TokenKind.FloatLit, cure, le)
        else (TokenKind.IntLit, cure, le)

/-- Lexer::lex_number (lexer.rs lines 396-489).  c0 is the already
consumed first digit; the Rust check of the source byte at start is
exactly the test c0 = zero. -/
def lex_number (c0 : Char) (cur : Nat) (l : List Char) : TokenKind × Nat × List Char :=
  if c0 = '0' then
    match l with
    | c :: rs =>
      if c = 'x' || c = 'X' then
        match takeW isHexUnd (cur + 1) rs with
        | (cur2, l2) => (TokenKind.IntLit, cur2, l2)
      else if c = 'b' || c = 'B' then
        match takeW isBinUnd (cur + 1) rs with
        | (cur2, l2) => (TokenKind.IntLit, cur2, l2)
      else if c = 'o' || c = 'O' then
        match takeW isOctUnd (cur + 1) rs with
        | (cur2, l2) => (TokenKind.IntLit, cur2, l2)
      else lex_number_body cur (c :: rs)
    | [] => lex_number_body cur []
  else lex_number_body cur l

/-- Lexer::lex_identifier (lexer.rs lines 492-504).  The Rust code
slices the source from start to current and looks the text up in the
keyword table; that slice equals the already consumed first character
followed by the identifier characters consumed here. -/
def lex_identifier (c0 : Char) (cur : Nat) (l : List Char) : TokenKind × Nat × List Char :=
  match takeWText isIdentCont cur l with
  | (cur2, text, rest) =>
    ((TokenKind.from_keyword (String.mk (c0 :: text))).getD TokenKind.Ident, cur2, rest)

/-- Lexer::match_char (lexer.rs lines 268-280). -/
def match_char (cur : Nat) (l : List Char) (expected : Char)
    (if_match otherwise : TokenKind) : TokenKind × Nat × List Char :=
  match l with
  | c :: rs =>
    if c = expected then (if_match, cur + csize expected, rs)
    else (otherwise, cur, c :: rs)
  | [] => (otherwise, cur, [])

/-- Lexer::lex_token (lexer.rs lines 96-244): c0 is the character just
consumed, start its byte offset, cur the offset after it. -/
def lex_token (c0 : Char) (start cur : Nat) (l : List Char) :
    Except NovaError (TokenKind × Nat × List Char) :=
  match c0 with
  | '(' => Except.ok (TokenKind.LParen, cur, l)
  | ')' => Except.ok (TokenKind.RParen, cur, l)
  | '[' => Except.ok (TokenKind.LBracket, cur, l)
  | ']' => Except.ok (TokenKind.RBracket, cur, l)
  | '\x7b' => Except.ok (TokenKind.LBrace, cur, l)
  | '\x7d' => Except.ok (TokenKind.RBrace, cur, l)
  | ',' => Except.ok (TokenKind.Comma, cur, l)
  | ';' => Except.ok (TokenKind.Semi, cur, l)
  | '~' => Except.ok (TokenKind.Tilde, cur, l)
  | '@' => Except.ok (TokenKind.At, cur, l)
  | '?' => Except.ok (TokenKind.Question, cur, l)
  | '#' => Except.ok (TokenKind.Hash, cur, l)
  | '$' => Except.ok (TokenKind.Dollar, cur, l)
  | '+' => Except.ok (match_char cur l '=' TokenKind.PlusEq TokenKind.Plus)
  | '-' =>
    match l with
    | '>' :: rs => Except.ok (TokenKind.Arrow, cur + 1, rs)
    | '=' :: rs => Except.ok (TokenKind.MinusEq, cur + 1, rs)
    | _ => Except.ok (TokenKind.Minus, cur, l)
  | '*' => Except.ok (match_char cur l '=' TokenKind.StarEq TokenKind.Star)
  | '/' => Except.ok (match_char cur l '=' TokenKind.SlashEq TokenKind.Slash)
  | '%' => Except.ok (match_char cur l '=' TokenKind.PercentEq TokenKind.Percent)
  | '^' => Except.ok (match_char cur l '=' TokenKind.CaretEq TokenKind.Caret)
  | '&' =>
    match l with
    | '&' :: rs => Except.ok (TokenKind.AmpAmp, cur + 1, rs)
    | '=' :: rs => Except.ok (TokenKind.AmpEq, cur + 1, rs)
    | _ => Except.ok (TokenKind.Amp, cur, l)
  | '|' =>
    match l with
    | '|' :: rs => Except.ok (TokenKind.PipePipe, cur + 1, rs)
    | '=' :: rs => Except.ok (TokenKind.PipeEq, cur + 1, rs)
    | _ => Except.ok (TokenKind.Pipe, cur, l)
  | '!' => Except.ok (match_char cur l '=' TokenKind.BangEq TokenKind.Bang)
  | '=' =>
    match l with
    | '=' :: rs => Except.ok (TokenKind.EqEq, cur + 1, rs)
    | '>' :: rs => Except.ok (TokenKind.FatArrow, cur + 1, rs)
    | _ => Except.ok (TokenKind.Eq, cur, l)
  | '<' =>
    match l with
    | '=' :: rs => Except.ok (TokenKind.LtEq, cur + 1, rs)
    | '<' :: '=' :: rs => Except.ok (TokenKind.LtLtEq, cur + 2, rs)
    | '<' :: rs => Except.ok (TokenKind.LtLt, cur + 1, rs)
    | _ => Except.ok (TokenKind.Lt, cur, l)
  | '>' =>
    match l with
    | '=' :: rs => Except.ok (TokenKind.GtEq, cur + 1, rs)
    | '>' :: '=' :: rs => Except.ok (TokenKind.GtGtEq, cur + 2, rs)
    | '>' :: rs => Except.ok (TokenKind.GtGt, cur + 1, rs)
    | _ => Except.ok (TokenKind.Gt, cur, l)
  | ':' => Except.ok (match_char cur l ':' TokenKind.ColonColon TokenKind.Colon)
  | '.' =>
    match l with
    | '.' :: '=' :: rs => Except.ok (TokenKind.DotDotEq, cur + 2, rs)
    | '.' :: rs => Except.ok (TokenKind.DotDot, cur + 1, rs)
    | _ => Except.ok (TokenKind.Dot, cur, l)
  | '"' => lex_string start cur l
  | '\'' => lex_char start cur l
  | c =>
    if c.isDigit then Except.ok (lex_number c cur l)
    else if c.isAlpha || c = '_' then Except.ok (lex_identifier c cur l)
    else Except.error (NovaError.InvalidCharacter c { start := start, stop := cur })

/-- Failure type of the embedded lexer: either a NovaError from
lexer.rs or fuel exhaustion of the embedding (never reached with the
fuel chosen in lexChars). -/
inductive LexErr where
  | nova : NovaError → LexErr
  | fuelOut : LexErr
deriving DecidableEq, Repr

/-- Lexer::lex_all (lexer.rs lines 73-93), fueled on the number of
tokens still to be produced; an ok result always comes from a genuine
run to the end of the input. -/
def lex_all : Nat → Nat → List Char → Except LexErr (List Token)
  | 0, _, _ => Except.error LexErr.fuelOut
  | f + 1, cur, l =>
    match skipWs (l.length + 1) cur l with
    | (start, l1) =>
    match l1 with
    | [] => Except.ok [Token.eof start]
    | c :: rs =>
      match lex_token c start (start + csize c) rs with
      | Except.error e => Except.error (LexErr.nova e)
      | Except.ok (k, cur2, rest) =>
        match lex_all f cur2 rest with
        | Except.error e => Except.error e
        | Except.ok toks =>
          Except.ok (Token.new k { start := start, stop := cur2 } :: toks)

/-- nova::lexer::lex over a character list; length + 1 units of fuel
always suffice because every produced token consumes at least one
character. -/
def lexChars (l : List Char) : Except LexErr (List Token) :=
  lex_all (l.length + 1) 0 l

/-- nova::lexer::lex (lexer.rs lines 49-52). -/
def lex (s : String) : Except LexErr (List Token) := lexChars s.toList

/-!
AST (ast.rs).  Rust structs become single-constructor inductives inside
one mutual block (the node types are mutually recursive); field order
and names follow ast.rs.  The Rust Type node is named Ty here because
Type is reserved in Lean.
-/

/-- Ident (ast.rs lines 400-404). -/
structure Ident where
  name : String
  span : Span
deriving DecidableEq, Repr

/-- Literal (ast.rs lines 277-284).  The float payload keeps the
cleaned lexeme text instead of an f64 value: claims never inspect
float values, and floating point is outside the embedding. -/
inductive Literal where
  | int : Int → Literal
  | float : List Char → Literal
  | string : String → Literal
  | bool : Bool → Literal
  | char : Char → Literal
deriving DecidableEq, Repr

/-- BinOp (ast.rs lines 287-308). -/
inductive BinOp where
  | Add | Sub | Mul | Div | Rem | And | Or | BitAnd | BitOr | BitXor
  | Shl | Shr | Eq | Ne | Lt | Le | Gt | Ge | Assign
deriving DecidableEq, Repr

/-- UnaryOp (ast.rs lines 311-316). -/
inductive UnaryOp where
  | Neg | Not | BitNot
deriving DecidableEq, Repr

set_option maxHeartbeats 0 in
mutual

inductive Item where
  | Function (f : Function) : Item
  | Struct (s : StructDef) : Item
  | Enum (e : EnumDef) : Item
  | Impl (i : ImplBlock) : Item
  | Trait (t : TraitDef) : Item
  | Use (u : UseStmt) : Item
  | TypeAlias (t : TypeAlias) : Item

inductive Function where
  | mk (name : Ident) (generics : List GenericParam) (params : List Param)
      (return_type : Option Ty) (where_clause : Option WhereClause)
      (body : Block) (span : Span) : Function

inductive Param where
  | mk (pattern : Pattern) (ty : Ty) (span : Span) : Param

inductive StructDef where
  | mk (name : Ident) (generics : List GenericParam) (fields : List Field)
      (span : Span) : StructDef

inductive Field where
  | mk (name : Ident) (ty : Ty) (span : Span) : Field

inductive EnumDef where
  | mk (name : Ident) (generics : List GenericParam) (variants : List Variant)
      (span : Span) : EnumDef

inductive Variant where
  | mk (name : Ident) (fields : VariantFields) (span : Span) : Variant

inductive VariantFields where
  | Unit : VariantFields
  | Tuple (types : List Ty) : VariantFields
  | Struct (fields : List Field) : VariantFields

inductive ImplBlock where
  | mk (generics : List GenericParam) (trait_ : Option Ty) (self_type : Ty)
      (items : List ImplItem) (span : Span) : ImplBlock

inductive ImplItem where
  | Function (f : Function) : ImplItem

inductive TraitDef where
  | mk (name : Ident) (generics : List GenericParam) (bounds : List Ty)
      (items : List TraitItem) (span : Span) : TraitDef

inductive TraitItem where
  | Function (f : TraitFunction) : TraitItem

inductive TraitFunction where
  | mk (name : Ident) (generics : List GenericParam) (params : List Param)
      (return_type : Option Ty) (default_body : Option Block)
      (span : Span) : TraitFunction

inductive UseStmt where
  | mk (path : Path) (span : Span) : UseStmt

inductive TypeAlias where
  | mk (name : Ident) (generics : List GenericParam) (ty : Ty)
      (span : Span) : TypeAlias

inductive GenericParam where
  | mk (name : Ident) (bounds : List Ty) (span : Span) : GenericParam

inductive WhereClause where
  | mk (predicates : List WherePredicate) (span : Span) : WhereClause

inductive WherePredicate where
  | mk (ty : Ty) (bounds : List Ty) (span : Span) : WherePredicate

inductive Block where
  | mk (stmts : List Stmt) (span : Span) : Block

inductive Stmt where
  | Let (s : LetStmt) : Stmt
  | Expr (s : ExprStmt) : Stmt
  | Item (i : Item) : Stmt

inductive LetStmt where
  | mk (pattern : Pattern) (ty : Option Ty) (value : Option Expr)
      (span : Span) : LetStmt

inductive ExprStmt where
  | mk (expr : Expr) (has_semi : Bool) (span : Span) : ExprStmt

inductive Expr where
  | mk (kind : ExprKind) (span : Span) : Expr

inductive ExprKind where
  | Literal (l : Literal) : ExprKind
  | Path (p : Path) : ExprKind
  | Binary (lhs : Expr) (op : BinOp) (rhs : Expr) : ExprKind
  | Unary (op : UnaryOp) (e : Expr) : ExprKind
  | Call (f : Expr) (args : List Expr) : ExprKind
  | Field (e : Expr) (name : Ident) : ExprKind
  | Index (e : Expr) (idx : Expr) : ExprKind
  | StructLit (p : Path) (fields : List FieldInit) : ExprKind
  | Array (elems : List Expr) : ExprKind
  | Tuple (elems : List Expr) : ExprKind
  | If (cond : Expr) (then_block : Block) (else_expr : Option Expr) : ExprKind
  | Match (scrutinee : Expr) (arms : List MatchArm) : ExprKind
  | While (cond : Expr) (body : Block) : ExprKind
  | For (pat : Pattern) (iter : Expr) (body : Block) : ExprKind
  | Loop (body : Block) : ExprKind
  | Block (b : Block) : ExprKind
  | Closure (params : List Param) (ret : Option Ty) (body : Expr) : ExprKind
  | Return (value : Option Expr) : ExprKind
  | Break (value : Option Expr) : ExprKind
  | Continue : ExprKind
  | Range (lo : Option Expr) (hi : Option Expr) (inclusive : Bool) : ExprKind
  | Ref (mutable : Bool) (e : Expr) : ExprKind
  | Deref (e : Expr) : ExprKind
  | Await (e : Expr) : ExprKind
  | Try (e : Expr) : ExprKind

inductive FieldInit where
  | mk (name : Ident) (value : Expr) (span : Span) : FieldInit

inductive MatchArm where
  | mk (pattern : Pattern) (guard : Option Expr) (body : Expr)
      (span : Span) : MatchArm

inductive Pattern where
  | mk (kind : PatternKind) (span : Span) : Pattern

inductive PatternKind where
  | Wildcard : PatternKind
  | Ident (i : Ident) (mutable : Bool) : PatternKind
  | Literal (l : Literal) : PatternKind
  | Tuple (pats : List Pattern) : PatternKind
  | Struct (p : Path) (fields : List FieldPattern) : PatternKind
  | TupleStruct (p : Path) (pats : List Pattern) : PatternKind
  | Or (pats : List Pattern) : PatternKind
  | Ref (mutable : Bool) (pat : Pattern) : PatternKind
  | Range (lo : Option Pattern) (hi : Option Pattern) (inclusive : Bool) : PatternKind

inductive FieldPattern where
  | mk (name : Ident) (pattern : Option Pattern) (span : Span) : FieldPattern

inductive Ty where
  | mk (kind : TyKind) (span : Span) : Ty

inductive TyKind where
  | Path (p : Path) : TyKind
  | Tuple (types : List Ty) : TyKind
  | Array (elem : Ty) (size : Expr) : TyKind
  | Slice (elem : Ty) : TyKind
  | Reference (mutable : Bool) (inner : Ty) : TyKind
  | Fn (params : List Ty) (ret : Option Ty) : TyKind
  | Never : TyKind
  | Infer : TyKind

inductive Path where
  | mk (segments : List PathSegment) (span : Span) : Path

inductive PathSegment where
  | mk (ident : Ident) (generics : List Ty) (span : Span) : PathSegment

end

/-- Program (ast.rs lines 13-16). -/
structure Program where
  items : List Item

/-- Span accessor of Expr, mirroring the Rust span field. -/
def Expr.span : Expr → Span
  | Expr.mk _ s => s

def Expr.kind : Expr → ExprKind
  | Expr.mk k _ => k

def Block.span : Block → Span
  | Block.mk _ s => s

def Pattern.span : Pattern → Span
  | Pattern.mk _ s => s

def Ty.span : Ty → Span
  | Ty.mk _ s => s

def Path.span : Path → Span
  | Path.mk _ s => s

def PathSegment.span : PathSegment → Span
  | PathSegment.mk _ _ s => s

def WherePredicate.span : WherePredicate → Span
  | WherePredicate.mk _ _ s => s

/-!
Literal materialization (parser.rs lines 113-174).
-/

/-- Byte-offset slicing of a character list: the Rust source slice
source[a..b] (always on character boundaries at every call site). -/
def sliceBytesAux : List Char → Nat → Nat → Nat → List Char
  | [], _, _, _ => []
  | c :: rs, pos, a, b =>
    if pos < a then sliceBytesAux rs (pos + csize c) a b
    else if pos < b then c :: sliceBytesAux rs (pos + csize c) a b
    else []

def sliceBytes (src : List Char) (a b : Nat) : List Char :=
  sliceBytesAux src 0 a b

/-- Parser::text (parser.rs lines 117-119). -/
def textOf (src : List Char) (span : Span) : List Char :=
  sliceBytes src span.start span.stop

/-- Rust char::to_digit. -/
def to_digit (radix : Nat) (c : Char) : Option Nat :=
  let v :=
    if c.isDigit then some (c.toNat - 48)
    else if 'a' ≤ c && c ≤ 'z' then some (c.toNat - 87)
    else if 'A' ≤ c && c ≤ 'Z' then some (c.toNat - 55)
    else none
  match v with
  | some d => if d < radix then some d else none
  | none => none

/-- Digit-accumulation loop of i64::from_str_radix. -/
def digitsVal (radix : Nat) : List Char → Nat → Option Nat
  | [], acc => some acc
  | c :: rs, acc =>
    match to_digit radix c with
    | some d => digitsVal radix rs (acc * radix + d)
    | none => none

/-- i64::from_str_radix: optional sign, non-empty digit run, failure on
any out-of-range digit or on overflow of the i64 range. -/
def from_str_radix (radix : Nat) (l : List Char) : Option Int :=
  match l with
  | '+' :: rs =>
    if rs = [] then none
    else
      match digitsVal radix rs 0 with
      | some v => if v ≤ 2 ^ 63 - 1 then some (Int.ofNat v) else none
      | none => none
  | '-' :: rs =>
    if rs = [] then none
    else
      match digitsVal radix rs 0 with
      | some v => if v ≤ 2 ^ 63 then some (-(Int.ofNat v)) else none
      | none => none
  | rs =>
    if rs = [] then none
    else
      match digitsVal radix rs 0 with
      | some v => if v ≤ 2 ^ 63 - 1 then some (Int.ofNat v) else none
      | none => none

/-- Parser::parse_int (parser.rs lines 129-150): base-prefix detection,
underscore removal, then i64::from_str_radix; conversion failure yields
InvalidLiteral with kind integer. -/
def parse_int (src : List Char) (span : Span) : Except NovaError Int :=
  let text := textOf src span
  match
    (if text.take 2 = ['0', 'x'] || text.take 2 = ['0', 'X'] then (16, text.drop 2)
     else if text.take 2 = ['0', 'b'] || text.take 2 = ['0', 'B'] then (2, text.drop 2)
     else if text.take 2 = ['0', 'o'] || text.take 2 = ['0', 'O'] then (8, text.drop 2)
     else ((10 : Nat), text)) with
  | (radix, digits) =>
    match from_str_radix radix (digits.filter (fun c => c ≠ '_')) with
    | some v => Except.ok v
    | none => Except.error (NovaError.InvalidLiteral "integer" span)

/-- Acceptance of Rust f64 from_str on the cleaned lexemes the lexer
can produce: a digit run, an optional fraction, and an optional
exponent that must contain at least one digit after its optional sign.
The numeric value is not modelled (floating point); a successful parse
keeps the cleaned text. -/
def floatParseOk (l : List Char) : Bool :=
  let hasInt := l.takeWhile Char.isDigit ≠ []
  let p1 := l.dropWhile Char.isDigit
  let p2 :=
    match p1 with
    | '.' :: rs => rs.dropWhile Char.isDigit
    | _ => p1
  let expOk :=
    match p2 with
    | [] => true
    | c :: rs =>
      if c = 'e' || c = 'E' then
        let rs2 :=
          match rs with
          | s :: tl => if s = '+' || s = '-' then tl else s :: tl
          | [] => []
        rs2 ≠ [] && rs2.all Char.isDigit
      else false
  hasInt && expOk

/-- Parser::parse_float (parser.rs lines 153-160): underscore removal,
then f64 parsing; failure yields InvalidLiteral with kind float. -/
def parse_float (src : List Char) (span : Span) : Except NovaError Literal :=
  let clean := (textOf src span).filter (fun c => c ≠ '_')
  if floatParseOk clean then Except.ok (Literal.float clean)
  else Except.error (NovaError.InvalidLiteral "float" span)

/-- Rust str::replace: leftmost non-overlapping replacement.  An empty
pattern leaves the input unchanged (never called that way here).  The
fuel starts at the input length, which always suffices because every
step consumes at least one character. -/
def replaceAllF : Nat → List Char → List Char → List Char → List Char
  | 0, _, _, s => s
  | fu + 1, pat, rep, s =>
    match s with
    | [] => []
    | c :: rs =>
      match pat with
      | [] => c :: rs
      | p :: ps =>
        if (p :: ps).isPrefixOf (c :: rs) then
          rep ++ replaceAllF fu pat rep (rs.drop ps.length)
        else c :: replaceAllF fu pat rep rs

def replaceAll (pat rep s : List Char) : List Char :=
  replaceAllF s.length pat rep s

/-- Parser::parse_string (parser.rs lines 163-174): strip the quotes,
then apply the five str::replace calls in the order written in the
source.  Sequential global replacement is not a left-to-right decode of
escapes; claim C6 exhibits the difference. -/
def parse_string (src : List Char) (span : Span) : String :=
  let text := textOf src span
  let inner := (text.drop 1).dropLast
  let s1 := replaceAll ['\\', 'n'] ['\n'] inner
  let s2 := replaceAll ['\\', 't'] ['\t'] s1
  let s3 := replaceAll ['\\', 'r'] ['\r'] s2
  let s4 := replaceAll ['\\', '\\'] ['\\'] s3
  let s5 := replaceAll ['\\', '"'] ['"'] s4
  String.mk s5

/-!
Parser plumbing (parser.rs lines 59-109 and 1293-1330).  Parser state
is threaded explicitly; a Rust panic is a distinguished error value so
that it can be observed, and errors keep the state at the moment of the
early return, which makes the depth counters observable on error exits.
-/

/-- MAX_EXPR_DEPTH (parser.rs line 65). -/
def MAX_EXPR_DEPTH : Nat := 64

/-- MAX_BLOCK_DEPTH (parser.rs line 69). -/
def MAX_BLOCK_DEPTH : Nat := 64

/-- Parser state (parser.rs lines 87-98). -/
structure PState where
  source : List Char
  tokens : List Token
  current : Nat
  expr_depth : Nat
  block_depth : Nat
deriving DecidableEq, Repr

/-- Failure channel of the embedded parser: a NovaError, a Rust panic
(todo! stub or expect failure), or fuel exhaustion of the embedding. -/
inductive PErr where
  | nova : NovaError → PErr
  | panicStub : String → PErr
  | fuelOut : PErr
deriving DecidableEq, Repr

/-- The parser monad: state plus early-return errors, keeping the state
on the error path exactly as Rust early returns do. -/
def PM (α : Type) : Type := PState → Except PErr α × PState

def PM.pureM {α : Type} (a : α) : PM α := fun s => (Except.ok a, s)

def PM.bindM {α β : Type} (m : PM α) (k : α → PM β) : PM β := fun s =>
  match m s with
  | (Except.ok a, s1) => k a s1
  | (Except.error e, s1) => (Except.error e, s1)

instance : Monad PM where
  pure := PM.pureM
  bind := PM.bindM

def throwN {α : Type} (e : NovaError) : PM α :=
  fun s => (Except.error (PErr.nova e), s)

def throwPanic {α : Type} (msg : String) : PM α :=
  fun s => (Except.error (PErr.panicStub msg), s)

def throwFuel {α : Type} : PM α :=
  fun s => (Except.error PErr.fuelOut, s)

def getS : PM PState := fun s => (Except.ok s, s)

def modifyS (f : PState → PState) : PM Unit := fun s => (Except.ok (), f s)

/-- Lift a Rust Result into the parser monad (the ? operator on a
non-monadic helper such as parse_int). -/
def liftE {α : Type} (r : Except NovaError α) : PM α := fun s =>
  match r with
  | Except.ok a => (Except.ok a, s)
  | Except.error e => (Except.error (PErr.nova e), s)

/-- Run m, then apply fin to the state regardless of success or error:
the Rust pattern of decrementing a depth counter after capturing the
result. -/
def andFinally {α : Type} (m : PM α) (fin : PState → PState) : PM α := fun s =>
  match m s with
  | (r, s1) => (r, fin s1)

/-- Parser::peek (parser.rs lines 1297-1301): falls back to the last
token past the end; panics (expect) if the token stream is empty. -/
def peekP : PM Token := fun s =>
  match s.tokens.get? s.current with
  | some t => (Except.ok t, s)
  | none =>
    match s.tokens.getLast? with
    | some t => (Except.ok t, s)
    | none => (Except.error (PErr.panicStub "Token stream is empty"), s)

/-- Parser::is_at_end (parser.rs lines 1327-1329). -/
def is_at_endP : PM Bool := do
  let t ← peekP
  pure (t.kind == TokenKind.Eof)

/-- Parser::advance (parser.rs lines 1303-1309). -/
def advanceP : PM Token := do
  let t ← peekP
  let e ← is_at_endP
  if e then pure t
  else do
    modifyS (fun s => { s with current := s.current + 1 })
    pure t

/-- Parser::check (parser.rs lines 1311-1313). -/
def checkP (k : TokenKind) : PM Bool := do
  let t ← peekP
  pure (t.kind == k)

/-- Parser::expect (parser.rs lines 1315-1325); the expected text is
the Display string of the kind. -/
def expectP (k : TokenKind) : PM Token := do
  let c ← checkP k
  if c then advanceP
  else do
    let t ← peekP
    throwN (NovaError.UnexpectedToken (TokenKind.as_str k) t.kind t.span)

/-- Parser::parse_ident (parser.rs lines 679-692). -/
def parse_ident : PM Ident := do
  let t ← peekP
  if t.kind == TokenKind.Ident then do
    let tok ← advanceP
    let st ← getS
    pure (Ident.mk (String.mk (textOf st.source tok.span)) tok.span)
  else throwN (NovaError.UnexpectedToken "identifier" t.kind t.span)

/-- Parser::parse_pattern (parser.rs lines 817-896): identifier, mut
identifier, literal and underscore patterns, with a silent wildcard
fallback for any other token. -/
def parse_pattern : PM Pattern := do
  let t ← peekP
  match t.kind with
  | TokenKind.Ident => do
    let tok ← advanceP
    let st ← getS
    let name := String.mk (textOf st.source tok.span)
    pure (Pattern.mk (PatternKind.Ident (Ident.mk name tok.span) false) tok.span)
  | TokenKind.Mut => do
    let _ ← advanceP
    let t2 ← peekP
    if t2.kind == TokenKind.Ident then do
      let tok ← advanceP
      let st ← getS
      let name := String.mk (textOf st.source tok.span)
      pure (Pattern.mk (PatternKind.Ident (Ident.mk name tok.span) true)
        (t.span.merge tok.span))
    else throwN (NovaError.UnexpectedToken "identifier" t2.kind t2.span)
  | TokenKind.IntLit => do
    let tok ← advanceP
    let st ← getS
    let v ← liftE (parse_int st.source tok.span)
    pure (Pattern.mk (PatternKind.Literal (Literal.int v)) tok.span)
  | TokenKind.StringLit => do
    let tok ← advanceP
    let st ← getS
    pure (Pattern.mk
      (PatternKind.Literal (Literal.string (parse_string st.source tok.span))) tok.span)
  | TokenKind.True => do
    let tok ← advanceP
    pure (Pattern.mk (PatternKind.Literal (Literal.bool true)) tok.span)
  | TokenKind.False => do
    let tok ← advanceP
    pure (Pattern.mk (PatternKind.Literal (Literal.bool false)) tok.span)
  | TokenKind.Underscore => do
    let tok ← advanceP
    pure (Pattern.mk PatternKind.Wildcard tok.span)
  | _ => do
    let tok ← advanceP
    pure (Pattern.mk PatternKind.Wildcard tok.span)

/-- Binary-operator table of Parser::parse_expr_bp (parser.rs lines
378-399): operator with left and right binding power.  Compound
assignment kinds are absent, exactly as in the source. -/
def binOpOf : TokenKind → Option (BinOp × Nat × Nat)
  | TokenKind.Plus => some (BinOp.Add, 10, 11)
  | TokenKind.Minus => some (BinOp.Sub, 10, 11)
  | TokenKind.Star => some (BinOp.Mul, 12, 13)
  | TokenKind.Slash => some (BinOp.Div, 12, 13)
  | TokenKind.Percent => some (BinOp.Rem, 12, 13)
  | TokenKind.AmpAmp => some (BinOp.And, 4, 5)
  | TokenKind.PipePipe => some (BinOp.Or, 2, 3)
  | TokenKind.Amp => some (BinOp.BitAnd, 6, 7)
  | TokenKind.Pipe => some (BinOp.BitOr, 4, 5)
  | TokenKind.Caret => some (BinOp.BitXor, 5, 6)
  | TokenKind.LtLt => some (BinOp.Shl, 9, 10)
  | TokenKind.GtGt => some (BinOp.Shr, 9, 10)
  | TokenKind.EqEq => some (BinOp.Eq, 7, 8)
  | TokenKind.BangEq => some (BinOp.Ne, 7, 8)
  | TokenKind.Lt => some (BinOp.Lt, 8, 9)
  | TokenKind.LtEq => some (BinOp.Le, 8, 9)
  | TokenKind.Gt => some (BinOp.Gt, 8, 9)
  | TokenKind.GtEq => some (BinOp.Ge, 8, 9)
  | TokenKind.Eq => some (BinOp.Assign, 1, 0)
  | _ => none

/-!
The recursive-descent parser (parser.rs lines 176-1291).  The mutually
recursive functions share one fuel argument: each function peels one
unit at entry and passes the remainder to callees, so any terminating
Rust run is reproduced by a large enough fuel; exhaustion surfaces as
the fuelOut error.  Each while loop of the source is modelled by a
companion _loop function that carries the accumulated list.
-/

mutual

/-- Parser::parse_item (parser.rs lines 192-207). -/
def parse_item : Nat → PM Item
  | 0 => throwFuel
  | f + 1 => do
    let t ← peekP
    match t.kind with
    | TokenKind.Fn => do
      let x ← parse_function f
      pure (Item.Function x)
    | TokenKind.Struct => do
      let x ← parse_struct f
      pure (Item.Struct x)
    | TokenKind.Enum => do
      let x ← parse_enum f
      pure (Item.Enum x)
    | TokenKind.Impl => do
      let x ← parse_impl f
      pure (Item.Impl x)
    | TokenKind.Trait => do
      let x ← parse_trait f
      pure (Item.Trait x)
    | TokenKind.Use => do
      let x ← parse_use f
      pure (Item.Use x)
    | TokenKind.Type => do
      let x ← parse_type_alias f
      pure (Item.TypeAlias x)
    | _ => throwN (NovaError.UnexpectedToken "item" t.kind t.span)

/-- Parser::parse_function (parser.rs lines 210-245). -/
def parse_function : Nat → PM Function
  | 0 => throwFuel
  | f + 1 => do
    let ft ← expectP TokenKind.Fn
    let name ← parse_ident
    let generics ← parse_generics f
    let _ ← expectP TokenKind.LParen
    let params ← parse_params_loop f []
    let _ ← expectP TokenKind.RParen
    let ar ← checkP TokenKind.Arrow
    let return_type ←
      if ar then do
        let _ ← advanceP
        let t ← parse_type f
        pure (some t)
      else pure none
    let wh ← checkP TokenKind.Where
    let where_clause ←
      if wh then do
        let w ← parse_where_clause f
        pure (some w)
      else pure none
    let body ← parse_block f
    pure (Function.mk name generics params return_type where_clause body
      (ft.span.merge body.span))

/-- Loop of Parser::parse_params (parser.rs lines 248-264). -/
def parse_params_loop : Nat → List Param → PM (List Param)
  | 0, _ => throwFuel
  | f + 1, acc => do
    let c ← checkP TokenKind.RParen
    let e ← is_at_endP
    if !c && !e then do
      let pattern ← parse_pattern
      let _ ← expectP TokenKind.Colon
      let ty ← parse_type f
      let p := Param.mk pattern ty (pattern.span.merge ty.span)
      let c2 ← checkP TokenKind.RParen
      if !c2 then do
        let _ ← expectP TokenKind.Comma
        parse_params_loop f (acc ++ [p])
      else parse_params_loop f (acc ++ [p])
    else pure acc

/-- Parser::parse_block (parser.rs lines 267-294): block depth is
incremented on entry; the limit error decrements it, the success path
decrements it after the closing brace, and error exits in between
return without decrementing. -/
def parse_block : Nat → PM Block
  | 0 => throwFuel
  | f + 1 => do
    modifyS (fun s => { s with block_depth := s.block_depth + 1 })
    let st ← getS
    if st.block_depth > MAX_BLOCK_DEPTH then do
      let t ← peekP
      modifyS (fun s => { s with block_depth := s.block_depth - 1 })
      let st2 ← getS
      throwN (NovaError.NestingTooDeep st2.block_depth MAX_BLOCK_DEPTH t.span)
    else do
      let lb ← expectP TokenKind.LBrace
      let stmts ← parse_block_stmts f []
      let rb ← expectP TokenKind.RBrace
      modifyS (fun s => { s with block_depth := s.block_depth - 1 })
      pure (Block.mk stmts (lb.span.merge rb.span))

/-- Statement loop of Parser::parse_block (parser.rs lines 283-285). -/
def parse_block_stmts : Nat → List Stmt → PM (List Stmt)
  | 0, _ => throwFuel
  | f + 1, acc => do
    let c ← checkP TokenKind.RBrace
    let e ← is_at_endP
    if !c && !e then do
      let s ← parse_stmt f
      parse_block_stmts f (acc ++ [s])
    else pure acc

/-- Parser::parse_stmt (parser.rs lines 297-317). -/
def parse_stmt : Nat → PM Stmt
  | 0 => throwFuel
  | f + 1 => do
    let t ← peekP
    match t.kind with
    | TokenKind.Let => do
      let s ← parse_let_stmt f
      pure (Stmt.Let s)
    | TokenKind.Fn => do
      let i ← parse_item f
      pure (Stmt.Item i)
    | TokenKind.Struct => do
      let i ← parse_item f
      pure (Stmt.Item i)
    | TokenKind.Enum => do
      let i ← parse_item f
      pure (Stmt.Item i)
    | _ => do
      let expr ← parse_expr f
      let has_semi ← checkP TokenKind.Semi
      if has_semi then do
        let _ ← advanceP
        pure (Stmt.Expr (ExprStmt.mk expr true expr.span))
      else pure (Stmt.Expr (ExprStmt.mk expr false expr.span))

/-- Parser::parse_let_stmt (parser.rs lines 320-347). -/
def parse_let_stmt : Nat → PM LetStmt
  | 0 => throwFuel
  | f + 1 => do
    let lt ← expectP TokenKind.Let
    let pattern ← parse_pattern
    let cc ← checkP TokenKind.Colon
    let ty ←
      if cc then do
        let _ ← advanceP
        let t ← parse_type f
        pure (some t)
      else pure none
    let ce ← checkP TokenKind.Eq
    let value ←
      if ce then do
        let _ ← advanceP
        let v ← parse_expr f
        pure (some v)
      else pure none
    let semi ← expectP TokenKind.Semi
    pure (LetStmt.mk pattern ty value (lt.span.merge semi.span))

/-- Parser::parse_expr (parser.rs lines 354-369): expression depth is
incremented on entry and decremented on every exit, including the error
result of the inner parse_expr_bp call. -/
def parse_expr : Nat → PM Expr
  | 0 => throwFuel
  | f + 1 => do
    modifyS (fun s => { s with expr_depth := s.expr_depth + 1 })
    let st ← getS
    if st.expr_depth > MAX_EXPR_DEPTH then do
      let t ← peekP
      modifyS (fun s => { s with expr_depth := s.expr_depth - 1 })
      let st2 ← getS
      throwN (NovaError.NestingTooDeep st2.expr_depth MAX_EXPR_DEPTH t.span)
    else
      andFinally (parse_expr_bp f 0)
        (fun s => { s with expr_depth := s.expr_depth - 1 })

/-- Parser::parse_expr_bp (parser.rs lines 372-375): prefix, then the
infix-postfix loop. -/
def parse_expr_bp : Nat → Nat → PM Expr
  | 0, _ => throwFuel
  | f + 1, min_bp => do
    let lhs ← parsePrefix f
    parse_expr_bp_loop f min_bp lhs

/-- Infix-postfix loop of Parser::parse_expr_bp (parser.rs lines
376-462). -/
def parse_expr_bp_loop : Nat → Nat → Expr → PM Expr
  | 0, _, _ => throwFuel
  | f + 1, min_bp, lhs => do
    let t ← peekP
    match binOpOf t.kind with
    | some (op, l_bp, r_bp) =>
      if l_bp < min_bp then pure lhs
      else do
        let _ ← advanceP
        let rhs ← parse_expr_bp f r_bp
        parse_expr_bp_loop f min_bp
          (Expr.mk (ExprKind.Binary lhs op rhs) (lhs.span.merge rhs.span))
    | none =>
      match t.kind with
      | TokenKind.LParen => do
        let _ ← advanceP
        let args ← parse_args_loop f []
        let rp ← expectP TokenKind.RParen
        parse_expr_bp_loop f min_bp
          (Expr.mk (ExprKind.Call lhs args) (lhs.span.merge rp.span))
      | TokenKind.LBracket => do
        let _ ← advanceP
        let idx ← parse_expr f
        let rb ← expectP TokenKind.RBracket
        parse_expr_bp_loop f min_bp
          (Expr.mk (ExprKind.Index lhs idx) (lhs.span.merge rb.span))
      | TokenKind.Dot => do
        let _ ← advanceP
        let field ← parse_ident
        parse_expr_bp_loop f min_bp
          (Expr.mk (ExprKind.Field lhs field) (lhs.span.merge field.span))
      | TokenKind.Question => do
        let q ← advanceP
        parse_expr_bp_loop f min_bp
          (Expr.mk (ExprKind.Try lhs) (lhs.span.merge q.span))
      | _ => pure lhs

/-- Parser::parse_prefix (parser.rs lines 468-512): unary minus, not,
reference and dereference at binding power 14, otherwise primary. -/
def parsePrefix : Nat → PM Expr
  | 0 => throwFuel
  | f + 1 => do
    let t ← peekP
    match t.kind with
    | TokenKind.Minus => do
      let s ← advanceP
      let e ← parse_expr_bp f 14
      pure (Expr.mk (ExprKind.Unary UnaryOp.Neg e) (s.span.merge e.span))
    | TokenKind.Bang => do
      let s ← advanceP
      let e ← parse_expr_bp f 14
      pure (Expr.mk (ExprKind.Unary UnaryOp.Not e) (s.span.merge e.span))
    | TokenKind.Amp => do
      let s ← advanceP
      let m ← checkP TokenKind.Mut
      if m then do
        let _ ← advanceP
        let e ← parse_expr_bp f 14
        pure (Expr.mk (ExprKind.Ref true e) (s.span.merge e.span))
      else do
        let e ← parse_expr_bp f 14
        pure (Expr.mk (ExprKind.Ref false e) (s.span.merge e.span))
    | TokenKind.Star => do
      let s ← advanceP
      let e ← parse_expr_bp f 14
      pure (Expr.mk (ExprKind.Deref e) (s.span.merge e.span))
    | _ => parse_primary f

/-- Parser::parse_primary (parser.rs lines 515-672). -/
def parse_primary : Nat → PM Expr
  | 0 => throwFuel
  | f + 1 => do
    let t ← peekP
    match t.kind with
    | TokenKind.IntLit => do
      let _ ← advanceP
      let st ← getS
      let v ← liftE (parse_int st.source t.span)
      pure (Expr.mk (ExprKind.Literal (Literal.int v)) t.span)
    | TokenKind.FloatLit => do
      let _ ← advanceP
      let st ← getS
      let v ← liftE (parse_float st.source t.span)
      pure (Expr.mk (ExprKind.Literal v) t.span)
    | TokenKind.StringLit => do
      let _ ← advanceP
      let st ← getS
      pure (Expr.mk
        (ExprKind.Literal (Literal.string (parse_string st.source t.span))) t.span)
    | TokenKind.True => do
      let _ ← advanceP
      pure (Expr.mk (ExprKind.Literal (Literal.bool true)) t.span)
    | TokenKind.False => do
      let _ ← advanceP
      pure (Expr.mk (ExprKind.Literal (Literal.bool false)) t.span)
    | TokenKind.Ident => do
      let p ← parse_path f
      pure (Expr.mk (ExprKind.Path p) p.span)
    | TokenKind.LParen => do
      let lp ← advanceP
      let c ← checkP TokenKind.RParen
      if c then do
        let rp ← advanceP
        pure (Expr.mk (ExprKind.Tuple []) (lp.span.merge rp.span))
      else do
        let e1 ← parse_expr f
        let c2 ← checkP TokenKind.Comma
        if c2 then do
          let elems ← parse_tuple_rest f [e1]
          let rp ← expectP TokenKind.RParen
          pure (Expr.mk (ExprKind.Tuple elems) (lp.span.merge rp.span))
        else do
          let _ ← expectP TokenKind.RParen
          pure e1
    | TokenKind.LBracket => do
      let lb ← advanceP
      let elems ← parse_array_elems f []
      let rb ← expectP TokenKind.RBracket
      pure (Expr.mk (ExprKind.Array elems) (lb.span.merge rb.span))
    | TokenKind.LBrace => do
      let b ← parse_block f
      pure (Expr.mk (ExprKind.Block b) b.span)
    | TokenKind.If => parse_if_expr f
    | TokenKind.Match => parse_match_expr f
    | TokenKind.While => parse_while_expr f
    | TokenKind.For => parse_for_expr f
    | TokenKind.Return => do
      let s ← advanceP
      let cs ← checkP TokenKind.Semi
      let cb ← checkP TokenKind.RBrace
      if !cs && !cb then do
        let v ← parse_expr f
        pure (Expr.mk (ExprKind.Return (some v)) (s.span.merge v.span))
      else pure (Expr.mk (ExprKind.Return none) s.span)
    | TokenKind.Break => do
      let s ← advanceP
      let cs ← checkP TokenKind.Semi
      let cb ← checkP TokenKind.RBrace
      if !cs && !cb then do
        let v ← parse_expr f
        pure (Expr.mk (ExprKind.Break (some v)) (s.span.merge v.span))
      else pure (Expr.mk (ExprKind.Break none) s.span)
    | TokenKind.Continue => do
      let s ← advanceP
      pure (Expr.mk ExprKind.Continue s.span)
    | _ => throwN (NovaError.UnexpectedToken "expression" t.kind t.span)

/-- Comma loop of the tuple case of Parser::parse_primary (parser.rs
lines 579-586). -/
def parse_tuple_rest : Nat → List Expr → PM (List Expr)
  | 0, _ => throwFuel
  | f + 1, acc => do
    let c ← checkP TokenKind.Comma
    if c then do
      let _ ← advanceP
      let cr ← checkP TokenKind.RParen
      if cr then pure acc
      else do
        let e ← parse_expr f
        parse_tuple_rest f (acc ++ [e])
    else pure acc

/-- Element loop of the array case of Parser::parse_primary (parser.rs
lines 601-607). -/
def parse_array_elems : Nat → List Expr → PM (List Expr)
  | 0, _ => throwFuel
  | f + 1, acc => do
    let c ← checkP TokenKind.RBracket
    let e ← is_at_endP
    if !c && !e then do
      let x ← parse_expr f
      let c2 ← checkP TokenKind.RBracket
      if !c2 then do
        let _ ← expectP TokenKind.Comma
        parse_array_elems f (acc ++ [x])
      else parse_array_elems f (acc ++ [x])
    else pure acc

/-- Parser::parse_path (parser.rs lines 695-732): start span is the
span of the token at entry. -/
def parse_path : Nat → PM Path
  | 0 => throwFuel
  | f + 1 => do
    let t ← peekP
    parse_path_loop f [] t.span

/-- Segment loop of Parser::parse_path (parser.rs lines 699-725),
including the turbofish lookahead at tokens[current + 1]. -/
def parse_path_loop : Nat → List PathSegment → Span → PM Path
  | 0, _, _ => throwFuel
  | f + 1, acc, start => do
    let ident ← parse_ident
    let c ← checkP TokenKind.ColonColon
    let generics ←
      if c then do
        let st ← getS
        match st.tokens.get? (st.current + 1) with
        | some nt =>
          if nt.kind == TokenKind.Lt then do
            let _ ← advanceP
            parse_generic_args f
          else pure []
        | none => pure []
      else pure []
    let seg := PathSegment.mk ident generics ident.span
    let c2 ← checkP TokenKind.ColonColon
    if c2 then do
      let _ ← advanceP
      parse_path_loop f (acc ++ [seg]) start
    else do
      let segs := acc ++ [seg]
      let endSpan := ((segs.getLast?).map PathSegment.span).getD start
      pure (Path.mk segs (start.merge endSpan))

/-- Parser::parse_type (parser.rs lines 735-814). -/
def parse_type : Nat → PM Ty
  | 0 => throwFuel
  | f + 1 => do
    let t ← peekP
    match t.kind with
    | TokenKind.LParen => do
      let _ ← advanceP
      let c ← checkP TokenKind.RParen
      if c then do
        let rp ← advanceP
        pure (Ty.mk (TyKind.Tuple []) (t.span.merge rp.span))
      else do
        let t1 ← parse_type f
        let types ← parse_type_tuple_rest f [t1]
        let rp ← expectP TokenKind.RParen
        pure (Ty.mk (TyKind.Tuple types) (t.span.merge rp.span))
    | TokenKind.LBracket => do
      let _ ← advanceP
      let elem ← parse_type f
      let cs ← checkP TokenKind.Semi
      if cs then do
        let _ ← advanceP
        let size ← parse_expr f
        let rb ← expectP TokenKind.RBracket
        pure (Ty.mk (TyKind.Array elem size) (t.span.merge rb.span))
      else do
        let rb ← expectP TokenKind.RBracket
        pure (Ty.mk (TyKind.Slice elem) (t.span.merge rb.span))
    | TokenKind.Amp => do
      let _ ← advanceP
      let m ← checkP TokenKind.Mut
      if m then do
        let _ ← advanceP
        let inner ← parse_type f
        pure (Ty.mk (TyKind.Reference true inner) (t.span.merge inner.span))
      else do
        let inner ← parse_type f
        pure (Ty.mk (TyKind.Reference false inner) (t.span.merge inner.span))
    | TokenKind.Bang => do
      let b ← advanceP
      pure (Ty.mk TyKind.Never b.span)
    | TokenKind.Ident => do
      let p ← parse_path f
      pure (Ty.mk (TyKind.Path p) p.span)
    | _ => throwN (NovaError.UnexpectedToken "type" t.kind t.span)

/-- Comma loop of the tuple case of Parser::parse_type (parser.rs lines
749-755). -/
def parse_type_tuple_rest : Nat → List Ty → PM (List Ty)
  | 0, _ => throwFuel
  | f + 1, acc => do
    let c ← checkP TokenKind.Comma
    if c then do
      let _ ← advanceP
      let cr ← checkP TokenKind.RParen
      if cr then pure acc
      else do
        let ty ← parse_type f
        parse_type_tuple_rest f (acc ++ [ty])
    else pure acc

/-- Parser::parse_generics (parser.rs lines 905-952). -/
def parse_generics : Nat → PM (List GenericParam)
  | 0 => throwFuel
  | f + 1 => do
    let c ← checkP TokenKind.Lt
    if !c then pure []
    else do
      let _ ← advanceP
      let params ← parse_generics_loop f []
      let _ ← expectP TokenKind.Gt
      pure params

/-- Parameter loop of Parser::parse_generics (parser.rs lines
913-948). -/
def parse_generics_loop : Nat → List GenericParam → PM (List GenericParam)
  | 0, _ => throwFuel
  | f + 1, acc => do
    let c ← checkP TokenKind.Gt
    let e ← is_at_endP
    if !c && !e then do
      let name ← parse_ident
      let cb ← checkP TokenKind.Colon
      let bounds ←
        if cb then do
          let _ ← advanceP
          let b1 ← parse_type f
          parse_bounds_rest f [b1]
        else pure []
      let span :=
        match bounds.getLast? with
        | none => name.span
        | some b => name.span.merge b.span
      let gp := GenericParam.mk name bounds span
      let cc ← checkP TokenKind.Comma
      if cc then do
        let _ ← advanceP
        parse_generics_loop f (acc ++ [gp])
      else do
        let cg ← checkP TokenKind.Gt
        if !cg then do
          let t ← peekP
          throwN (NovaError.UnexpectedToken "comma or \x27>\x27" t.kind t.span)
        else parse_generics_loop f (acc ++ [gp])
    else pure acc

/-- Plus-separated bound loop shared by parse_generics, parse_generic
bounds and parse_where_clause (parser.rs lines 922-925 and 996-999). -/
def parse_bounds_rest : Nat → List Ty → PM (List Ty)
  | 0, _ => throwFuel
  | f + 1, acc => do
    let c ← checkP TokenKind.Plus
    if c then do
      let _ ← advanceP
      let b ← parse_type f
      parse_bounds_rest f (acc ++ [b])
    else pure acc

/-- Parser::parse_generic_args (parser.rs lines 957-981). -/
def parse_generic_args : Nat → PM (List Ty)
  | 0 => throwFuel
  | f + 1 => do
    let c ← checkP TokenKind.Lt
    if !c then pure []
    else do
      let _ ← advanceP
      let args ← parse_generic_args_loop f []
      let _ ← expectP TokenKind.Gt
      pure args

/-- Argument loop of Parser::parse_generic_args (parser.rs lines
965-977). -/
def parse_generic_args_loop : Nat → List Ty → PM (List Ty)
  | 0, _ => throwFuel
  | f + 1, acc => do
    let c ← checkP TokenKind.Gt
    let e ← is_at_endP
    if !c && !e then do
      let a ← parse_type f
      let cc ← checkP TokenKind.Comma
      if cc then do
        let _ ← advanceP
        parse_generic_args_loop f (acc ++ [a])
      else do
        let cg ← checkP TokenKind.Gt
        if !cg then do
          let t ← peekP
          throwN (NovaError.UnexpectedToken "comma or \x27>\x27" t.kind t.span)
        else parse_generic_args_loop f (acc ++ [a])
    else pure acc

/-- Parser::parse_where_clause (parser.rs lines 986-1020). -/
def parse_where_clause : Nat → PM WhereClause
  | 0 => throwFuel
  | f + 1 => do
    let w ← expectP TokenKind.Where
    let preds ← parse_where_loop f []
    let endSpan := ((preds.getLast?).map WherePredicate.span).getD w.span
    pure (WhereClause.mk preds (w.span.merge endSpan))

/-- Predicate loop of Parser::parse_where_clause (parser.rs lines
990-1013). -/
def parse_where_loop : Nat → List WherePredicate → PM (List WherePredicate)
  | 0, _ => throwFuel
  | f + 1, acc => do
    let ty ← parse_type f
    let _ ← expectP TokenKind.Colon
    let b1 ← parse_type f
    let bounds ← parse_bounds_rest f [b1]
    let lastSpan := ((bounds.getLast?).map Ty.span).getD b1.span
    let pred := WherePredicate.mk ty bounds (ty.span.merge lastSpan)
    let c ← checkP TokenKind.Comma
    if c then do
      let _ ← advanceP
      parse_where_loop f (acc ++ [pred])
    else pure (acc ++ [pred])

/-- Parser::parse_struct (parser.rs lines 1025-1065). -/
def parse_struct : Nat → PM StructDef
  | 0 => throwFuel
  | f + 1 => do
    let s ← expectP TokenKind.Struct
    let name ← parse_ident
    let generics ← parse_generics f
    let _ ← expectP TokenKind.LBrace
    let fields ← parse_fields_loop f []
    let rb ← expectP TokenKind.RBrace
    pure (StructDef.mk name generics fields (s.span.merge rb.span))

/-- Field loop of Parser::parse_struct (parser.rs lines 1034-1055 and,
textually identical, the struct-variant loop of parse_enum at lines
1099-1119). -/
def parse_fields_loop : Nat → List Field → PM (List Field)
  | 0, _ => throwFuel
  | f + 1, acc => do
    let c ← checkP TokenKind.RBrace
    let e ← is_at_endP
    if !c && !e then do
      let fname ← parse_ident
      let _ ← expectP TokenKind.Colon
      let ty ← parse_type f
      let fld := Field.mk fname ty (fname.span.merge ty.span)
      let cc ← checkP TokenKind.Comma
      if cc then do
        let _ ← advanceP
        parse_fields_loop f (acc ++ [fld])
      else do
        let cr ← checkP TokenKind.RBrace
        if !cr then do
          let t ← peekP
          throwN (NovaError.UnexpectedToken "comma or \x27\x7d\x27" t.kind t.span)
        else parse_fields_loop f (acc ++ [fld])
    else pure acc

/-- Parser::parse_enum (parser.rs lines 1070-1154). -/
def parse_enum : Nat → PM EnumDef
  | 0 => throwFuel
  | f + 1 => do
    let s ← expectP TokenKind.Enum
    let name ← parse_ident
    let generics ← parse_generics f
    let _ ← expectP TokenKind.LBrace
    let variants ← parse_enum_variants f []
    let rb ← expectP TokenKind.RBrace
    pure (EnumDef.mk name generics variants (s.span.merge rb.span))

/-- Variant loop of Parser::parse_enum (parser.rs lines 1079-1144). -/
def parse_enum_variants : Nat → List Variant → PM (List Variant)
  | 0, _ => throwFuel
  | f + 1, acc => do
    let c ← checkP TokenKind.RBrace
    let e ← is_at_endP
    if !c && !e then do
      let vname ← parse_ident
      let cp ← checkP TokenKind.LParen
      let fields ←
        if cp then do
          let _ ← advanceP
          let types ← parse_variant_tuple_types f []
          let _ ← expectP TokenKind.RParen
          pure (VariantFields.Tuple types)
        else do
          let cb ← checkP TokenKind.LBrace
          if cb then do
            let _ ← advanceP
            let flds ← parse_fields_loop f []
            let _ ← expectP TokenKind.RBrace
            pure (VariantFields.Struct flds)
          else pure VariantFields.Unit
      let vend ← peekP
      let v := Variant.mk vname fields (vname.span.merge vend.span)
      let cc ← checkP TokenKind.Comma
      if cc then do
        let _ ← advanceP
        parse_enum_variants f (acc ++ [v])
      else do
        let cr ← checkP TokenKind.RBrace
        if !cr then do
          let t ← peekP
          throwN (NovaError.UnexpectedToken "comma or \x27\x7d\x27" t.kind t.span)
        else parse_enum_variants f (acc ++ [v])
    else pure acc

/-- Tuple-variant type loop of Parser::parse_enum (parser.rs lines
1085-1092). -/
def parse_variant_tuple_types : Nat → List Ty → PM (List Ty)
  | 0, _ => throwFuel
  | f + 1, acc => do
    let c ← checkP TokenKind.RParen
    let e ← is_at_endP
    if !c && !e then do
      let ty ← parse_type f
      let c2 ← checkP TokenKind.RParen
      if !c2 then do
        let _ ← expectP TokenKind.Comma
        parse_variant_tuple_types f (acc ++ [ty])
      else parse_variant_tuple_types f (acc ++ [ty])
    else pure acc

/-- Parser::parse_impl (parser.rs lines 1156-1159): a todo! stub that
panics when reached. -/
def parse_impl : Nat → PM ImplBlock
  | 0 => throwFuel
  | _ + 1 => throwPanic "Impl parsing not yet implemented"

/-- Parser::parse_trait (parser.rs lines 1161-1164): a todo! stub that
panics when reached. -/
def parse_trait : Nat → PM TraitDef
  | 0 => throwFuel
  | _ + 1 => throwPanic "Trait parsing not yet implemented"

/-- Parser::parse_use (parser.rs lines 1166-1169): a todo! stub that
panics when reached. -/
def parse_use : Nat → PM UseStmt
  | 0 => throwFuel
  | _ + 1 => throwPanic "Use parsing not yet implemented"

/-- Parser::parse_type_alias (parser.rs lines 1171-1174): a todo! stub
that panics when reached. -/
def parse_type_alias : Nat → PM TypeAlias
  | 0 => throwFuel
  | _ + 1 => throwPanic "Type alias parsing not yet implemented"

/-- Parser::parse_if_expr (parser.rs lines 1176-1203). -/
def parse_if_expr : Nat → PM Expr
  | 0 => throwFuel
  | f + 1 => do
    let i ← expectP TokenKind.If
    let cond ← parse_expr f
    let then_block ← parse_block f
    let ce ← checkP TokenKind.Else
    if ce then do
      let _ ← advanceP
      let ci ← checkP TokenKind.If
      if ci then do
        let els ← parse_if_expr f
        pure (Expr.mk (ExprKind.If cond then_block (some els))
          (i.span.merge els.span))
      else do
        let b ← parse_block f
        let els := Expr.mk (ExprKind.Block b) b.span
        pure (Expr.mk (ExprKind.If cond then_block (some els))
          (i.span.merge els.span))
    else
      pure (Expr.mk (ExprKind.If cond then_block none)
        (i.span.merge then_block.span))

/-- Parser::parse_match_expr (parser.rs lines 1208-1256). -/
def parse_match_expr : Nat → PM Expr
  | 0 => throwFuel
  | f + 1 => do
    let m ← expectP TokenKind.Match
    let scrutinee ← parse_expr f
    let _ ← expectP TokenKind.LBrace
    let arms ← parse_match_arms f []
    let rb ← expectP TokenKind.RBrace
    pure (Expr.mk (ExprKind.Match scrutinee arms) (m.span.merge rb.span))

/-- Arm loop of Parser::parse_match_expr (parser.rs lines 1215-1248). -/
def parse_match_arms : Nat → List MatchArm → PM (List MatchArm)
  | 0, _ => throwFuel
  | f + 1, acc => do
    let c ← checkP TokenKind.RBrace
    let e ← is_at_endP
    if !c && !e then do
      let pattern ← parse_pattern
      let ci ← checkP TokenKind.If
      let guard ←
        if ci then do
          let _ ← advanceP
          let g ← parse_expr f
          pure (some g)
        else pure none
      let _ ← expectP TokenKind.FatArrow
      let body ← parse_expr f
      let arm := MatchArm.mk pattern guard body (pattern.span.merge body.span)
      let cc ← checkP TokenKind.Comma
      if cc then do
        let _ ← advanceP
        parse_match_arms f (acc ++ [arm])
      else do
        let cr ← checkP TokenKind.RBrace
        if !cr then do
          let t ← peekP
          throwN (NovaError.UnexpectedToken "comma or \x27\x7d\x27" t.kind t.span)
        else parse_match_arms f (acc ++ [arm])
    else pure acc

/-- Parser::parse_while_expr (parser.rs lines 1258-1267). -/
def parse_while_expr : Nat → PM Expr
  | 0 => throwFuel
  | f + 1 => do
    let w ← expectP TokenKind.While
    let cond ← parse_expr f
    let body ← parse_block f
    pure (Expr.mk (ExprKind.While cond body) (w.span.merge body.span))

/-- Parser::parse_for_expr (parser.rs lines 1269-1280). -/
def parse_for_expr : Nat → PM Expr
  | 0 => throwFuel
  | f + 1 => do
    let fo ← expectP TokenKind.For
    let pattern ← parse_pattern
    let _ ← expectP TokenKind.In
    let iter ← parse_expr f
    let body ← parse_block f
    pure (Expr.mk (ExprKind.For pattern iter body) (fo.span.merge body.span))

/-- Argument loop of Parser::parse_args (parser.rs lines 1282-1291). -/
def parse_args_loop : Nat → List Expr → PM (List Expr)
  | 0, _ => throwFuel
  | f + 1, acc => do
    let c ← checkP TokenKind.RParen
    let e ← is_at_endP
    if !c && !e then do
      let a ← parse_expr f
      let c2 ← checkP TokenKind.RParen
      if !c2 then do
        let _ ← expectP TokenKind.Comma
        parse_args_loop f (acc ++ [a])
      else parse_args_loop f (acc ++ [a])
    else pure acc

/-- Item loop of Parser::parse_program (parser.rs lines 184-186). -/
def parse_program_loop : Nat → List Item → PM (List Item)
  | 0, _ => throwFuel
  | f + 1, acc => do
    let e ← is_at_endP
    if !e then do
      let i ← parse_item f
      parse_program_loop f (acc ++ [i])
    else pure acc

end

/-- Parser::parse_program (parser.rs lines 181-189). -/
def parse_program (f : Nat) : PM Program := do
  let items ← parse_program_loop f []
  pure (Program.mk items)

/-- Initial parser state (Parser::new, parser.rs lines 101-109). -/
def initPState (src : List Char) (tokens : List Token) : PState :=
  { source := src, tokens := tokens, current := 0, expr_depth := 0, block_depth := 0 }

/-- nova::parser::parse (parser.rs lines 81-84), with the stated fuel. -/
def parseWith (f : Nat) (src : List Char) (tokens : List Token) :
    Except PErr Program × PState :=
  parse_program f (initPState src tokens)

/-- Full front end: lex, then parse with ample fuel (the fuel bounds
the recursion depth of the parser, which is linear in the token count).
Returns none when lexing fails, so parse is only applied to
lex-successful inputs. -/
def parseNova (s : String) : Option (Except PErr Program) :=
  match lexChars s.toList with
  | Except.ok ts => some (parseWith (ts.length * 8 + 64) s.toList ts).1
  | Except.error _ => none

/-!
Definitions supporting the claim theorems.
-/

/-- Names of the segments of a path, ignoring generics and spans. -/
def pathNames : List PathSegment → List String
  | [] => []
  | PathSegment.mk i _ _ :: rs => i.name :: pathNames rs

/-- Span-insensitive shape comparison of expressions for the
Pratt-precedence theorems: Binary nodes recursively, path expressions
by segment names, literals exactly; all other forms compare unequal.
A true result on trees built from Binary, single-segment Path and
Literal nodes implies equality of their shapes. -/
def exprShapeEq : Expr → Expr → Bool
  | Expr.mk (ExprKind.Binary l1 o1 r1) _, Expr.mk (ExprKind.Binary l2 o2 r2) _ =>
    decide (o1 = o2) && exprShapeEq l1 l2 && exprShapeEq r1 r2
  | Expr.mk (ExprKind.Path (Path.mk segs1 _)) _,
    Expr.mk (ExprKind.Path (Path.mk segs2 _)) _ =>
    decide (pathNames segs1 = pathNames segs2)
  | Expr.mk (ExprKind.Literal l1) _, Expr.mk (ExprKind.Literal l2) _ =>
    decide (l1 = l2)
  | _, _ => false

/-- Path expression with dummy spans, for expected trees (spans are
ignored by exprShapeEq). -/
def pv (n : String) : Expr :=
  Expr.mk
    (ExprKind.Path
      (Path.mk [PathSegment.mk (Ident.mk n (Span.mk 0 0)) [] (Span.mk 0 0)]
        (Span.mk 0 0)))
    (Span.mk 0 0)

/-- Binary node with a dummy span, for expected trees. -/
def mkBin (l : Expr) (op : BinOp) (r : Expr) : Expr :=
  Expr.mk (ExprKind.Binary l op r) (Span.mk 0 0)

/-- The binary-operator token kinds handled by parse_expr_bp. -/
def binOps19 : List TokenKind :=
  [TokenKind.Plus, TokenKind.Minus, TokenKind.Star, TokenKind.Slash,
   TokenKind.Percent, TokenKind.AmpAmp, TokenKind.PipePipe, TokenKind.Amp,
   TokenKind.Pipe, TokenKind.Caret, TokenKind.LtLt, TokenKind.GtGt,
   TokenKind.EqEq, TokenKind.BangEq, TokenKind.Lt, TokenKind.LtEq,
   TokenKind.Gt, TokenKind.GtEq, TokenKind.Eq]

/-- The compound-assignment operator kinds listed in the section 4.4
assignment row. -/
def compoundAssignOps : List TokenKind :=
  [TokenKind.PlusEq, TokenKind.MinusEq, TokenKind.StarEq, TokenKind.SlashEq,
   TokenKind.PercentEq, TokenKind.AmpEq, TokenKind.PipeEq, TokenKind.CaretEq,
   TokenKind.LtLtEq, TokenKind.GtGtEq]

/-- One Pratt pair test: run parse_expr on the token stream
ident a ident b ident and compare the tree with the grouping the
binding-power table dictates; left association exactly when the left
binding power of b is below the right binding power of a. -/
def checkPair (a b : TokenKind) : Bool :=
  match binOpOf a, binOpOf b with
  | some (opa, _, ra), some (opb, lb, _) =>
    let toks := [Token.new TokenKind.Ident (Span.mk 0 1),
                 Token.new a (Span.mk 5 5),
                 Token.new TokenKind.Ident (Span.mk 2 3),
                 Token.new b (Span.mk 5 5),
                 Token.new TokenKind.Ident (Span.mk 4 5),
                 Token.eof 5]
    let r := (parse_expr 32 (initPState ['x', ' ', 'y', ' ', 'z'] toks)).1
    let expected :=
      if lb < ra then mkBin (mkBin (pv "x") opa (pv "y")) opb (pv "z")
      else mkBin (pv "x") opa (mkBin (pv "y") opb (pv "z"))
    match r with
    | Except.ok e => exprShapeEq e expected
    | _ => false
  | _, _ => false

/-- A kind fails the binary-operator test when parse_expr on
ident op ident returns only the first identifier and leaves the
operator unconsumed (current still 1). -/
def checkNotBinary (op : TokenKind) : Bool :=
  let toks := [Token.new TokenKind.Ident (Span.mk 0 1),
               Token.new op (Span.mk 2 4),
               Token.new TokenKind.Ident (Span.mk 5 6),
               Token.eof 6]
  match parse_expr 32 (initPState ['a', ' ', 'x', 'x', ' ', 'b'] toks) with
  | (r, s1) =>
    (match r with
     | Except.ok e => exprShapeEq e (pv "a")
     | _ => false) && decide (s1.current = 1)

/-- Modelled from the spec: the left binding powers of the section 4.4
table, written from the table text (this is the claim side of C7, not
code). -/
def spec44_lbp : TokenKind → Option Nat
  | TokenKind.Eq | TokenKind.PlusEq | TokenKind.MinusEq | TokenKind.StarEq
  | TokenKind.SlashEq | TokenKind.PercentEq | TokenKind.AmpEq
  | TokenKind.PipeEq | TokenKind.CaretEq | TokenKind.LtLtEq
  | TokenKind.GtGtEq => some 1
  | TokenKind.PipePipe => some 2
  | TokenKind.AmpAmp => some 4
  | TokenKind.Pipe => some 4
  | TokenKind.Caret => some 5
  | TokenKind.Amp => some 6
  | TokenKind.EqEq | TokenKind.BangEq => some 7
  | TokenKind.Lt | TokenKind.LtEq | TokenKind.Gt | TokenKind.GtEq => some 8
  | TokenKind.LtLt | TokenKind.GtGt => some 9
  | TokenKind.Plus | TokenKind.Minus => some 10
  | TokenKind.Star | TokenKind.Slash | TokenKind.Percent => some 12
  | _ => none

/-- The operator kinds of the section 4.4 table. -/
def spec44ops : List TokenKind :=
  [TokenKind.Eq, TokenKind.PlusEq, TokenKind.MinusEq, TokenKind.StarEq,
   TokenKind.SlashEq, TokenKind.PercentEq, TokenKind.AmpEq, TokenKind.PipeEq,
   TokenKind.CaretEq, TokenKind.LtLtEq, TokenKind.GtGtEq,
   TokenKind.PipePipe, TokenKind.AmpAmp, TokenKind.Pipe, TokenKind.Caret,
   TokenKind.Amp, TokenKind.EqEq, TokenKind.BangEq, TokenKind.Lt,
   TokenKind.LtEq, TokenKind.Gt, TokenKind.GtEq, TokenKind.LtLt,
   TokenKind.GtGt, TokenKind.Plus, TokenKind.Minus, TokenKind.Star,
   TokenKind.Slash, TokenKind.Percent]

/-- Greater-than on optional precedence values; none never compares. -/
def optGt : Option Nat → Option Nat → Bool
  | some x, some y => decide (x > y)
  | _, _ => false

/-- The section 4.4 tier order amended to what TokenKind::precedence
implements on those operators: comparison and equality merged into a
single tier that sits below bitwise OR, XOR and AND (which keep their
relative order), logical AND strictly above logical OR and below the
merged tier. -/
def amendedTier : TokenKind → Option Nat
  | TokenKind.Eq | TokenKind.PlusEq | TokenKind.MinusEq | TokenKind.StarEq
  | TokenKind.SlashEq | TokenKind.PercentEq | TokenKind.AmpEq
  | TokenKind.PipeEq | TokenKind.CaretEq | TokenKind.LtLtEq
  | TokenKind.GtGtEq => some 1
  | TokenKind.PipePipe => some 2
  | TokenKind.AmpAmp => some 3
  | TokenKind.EqEq | TokenKind.BangEq | TokenKind.Lt | TokenKind.LtEq
  | TokenKind.Gt | TokenKind.GtEq => some 4
  | TokenKind.Pipe => some 5
  | TokenKind.Caret => some 6
  | TokenKind.Amp => some 7
  | TokenKind.LtLt | TokenKind.GtGt => some 8
  | TokenKind.Plus | TokenKind.Minus => some 9
  | TokenKind.Star | TokenKind.Slash | TokenKind.Percent => some 10
  | _ => none

/-- n copies of a string, for the adversarial inputs. -/
def repStr (n : Nat) (s : String) : String :=
  String.join (List.replicate n s)

/-- d nested block comments around x: the lexer_attack.rs deep-nesting
attack input. -/
def nestedComment (d : Nat) : List Char :=
  (List.replicate d ['/', '*']).flatten ++ [' ', 'x', ' ']
    ++ (List.replicate d ['*', '/']).flatten

/-- A parser outcome that is not a Rust panic: a panic aborts the
process, so it is not an exit path in the sense of claim C8. -/
def NonPanic {α : Type} : Except PErr α → Prop
  | Except.error (PErr.panicStub _) => False
  | _ => True

/-- A parser computation is depth-steady when, on every exit that is
not a panic, it preserves expr_depth (ok and error exits alike) and
preserves block_depth on every ok exit. -/
def Steady {α : Type} (m : PM α) : Prop :=
  ∀ s : PState,
    NonPanic (m s).1 →
    ((m s).2.expr_depth = s.expr_depth) ∧
    (∀ a : α, (m s).1 = Except.ok a → (m s).2.block_depth = s.block_depth)

/-- A parser computation is depth-fixed when it preserves both depth
counters on every exit; the depth-neutral primitives of the parser all
satisfy this. -/
def Fixed {α : Type} (m : PM α) : Prop :=
  ∀ s : PState, (m s).2.expr_depth = s.expr_depth ∧ (m s).2.block_depth = s.block_depth

/-- A token stream that is non-empty and contains none of the four
stubbed item keywords impl, trait, use and type: on such a stream the
parser can reach neither the todo stubs nor the empty-stream panic of
peek. -/
def StubFree (s : PState) : Prop :=
  s.tokens ≠ [] ∧
  (s.tokens.all fun t => !(t.kind == TokenKind.Impl || t.kind == TokenKind.Trait ||
    t.kind == TokenKind.Use || t.kind == TokenKind.Type)) = true

/-- A parser computation never panics from a stub-free state, and it
never changes the token stream. -/
def NP {α : Type} (m : PM α) : Prop :=
  ∀ s : PState, StubFree s → NonPanic (m s).1 ∧ (m s).2.tokens = s.tokens

/-- Integer literal expression with a dummy span (spans being ignored
by exprShapeEq). -/
def intLit (n : Int) : Expr :=
  Expr.mk (ExprKind.Literal (Literal.int n)) (Span.mk 0 0)

/-- Lex a string and run parse_expr on its tokens; none when either
stage fails. -/
def parseExprOf (s : String) : Option Expr :=
  match lexChars s.toList with
  | Except.ok ts =>
    match (parse_expr (ts.length * 8 + 64) (initPState s.toList ts)).1 with
    | Except.ok e => some e
    | Except.error _ => none
  | Except.error _ => none

/-- True when lexing and parsing both succeed. -/
def isOkProgram : Option (Except PErr Program) → Bool
  | some (Except.ok _) => true
  | _ => false

/-- Run parse_block on the tokens of s from a given initial block
depth, for the depth-limit theorems. -/
def parse_blockAt (s : String) (depth : Nat) : Except PErr Block × PState :=
  match lexChars s.toList with
  | Except.ok ts =>
    parse_block 64 { initPState s.toList ts with block_depth := depth }
  | Except.error _ => (Except.error PErr.fuelOut, initPState [] [])

/-- Run parse_expr on the tokens of s from a given initial expression
depth, for the depth-limit theorems. -/
def parse_exprAt (s : String) (depth : Nat) : Except PErr Expr × PState :=
  match lexChars s.toList with
  | Except.ok ts =>
    parse_expr 64 { initPState s.toList ts with expr_depth := depth }
  | Except.error _ => (Except.error PErr.fuelOut, initPState [] [])

/-- True when a parse_blockAt or parse_exprAt outcome is a success. -/
def fstOk {α : Type} : Except PErr α × PState → Bool
  | (Except.ok _, _) => true
  | _ => false

/-- The depth-steadiness statement for every parser entry point at one
fuel value, used for the induction behind claim C8. -/
def SteadyAll (f : Nat) : Prop :=
  Steady (parse_item f) ∧
  Steady (parse_function f) ∧
  (∀ acc, Steady (parse_params_loop f acc)) ∧
  Steady (parse_block f) ∧
  (∀ acc, Steady (parse_block_stmts f acc)) ∧
  Steady (parse_stmt f) ∧
  Steady (parse_let_stmt f) ∧
  Steady (parse_expr f) ∧
  (∀ mb, Steady (parse_expr_bp f mb)) ∧
  (∀ mb lhs, Steady (parse_expr_bp_loop f mb lhs)) ∧
  Steady (parsePrefix f) ∧
  Steady (parse_primary f) ∧
  (∀ acc, Steady (parse_tuple_rest f acc)) ∧
  (∀ acc, Steady (parse_array_elems f acc)) ∧
  Steady (parse_path f) ∧
  (∀ acc start, Steady (parse_path_loop f acc start)) ∧
  Steady (parse_type f) ∧
  (∀ acc, Steady (parse_type_tuple_rest f acc)) ∧
  Steady (parse_generics f) ∧
  (∀ acc, Steady (parse_generics_loop f acc)) ∧
  (∀ acc, Steady (parse_bounds_rest f acc)) ∧
  Steady (parse_generic_args f) ∧
  (∀ acc, Steady (parse_generic_args_loop f acc)) ∧
  Steady (parse_where_clause f) ∧
  (∀ acc, Steady (parse_where_loop f acc)) ∧
  Steady (parse_struct f) ∧
  (∀ acc, Steady (parse_fields_loop f acc)) ∧
  Steady (parse_enum f) ∧
  (∀ acc, Steady (parse_enum_variants f acc)) ∧
  (∀ acc, Steady (parse_variant_tuple_types f acc)) ∧
  Steady (parse_impl f) ∧
  Steady (parse_trait f) ∧
  Steady (parse_use f) ∧
  Steady (parse_type_alias f) ∧
  Steady (parse_if_expr f) ∧
  Steady (parse_match_expr f) ∧
  (∀ acc, Steady (parse_match_arms f acc)) ∧
  Steady (parse_while_expr f) ∧
  Steady (parse_for_expr f) ∧
  (∀ acc, Steady (parse_args_loop f acc)) ∧
  (∀ acc, Steady (parse_program_loop f acc))

/-- The no-panic statement for every non-stub parser entry point at one
fuel value, for the induction behind the amended claim C2. -/
def NPAll (f : Nat) : Prop :=
  NP (parse_item f) ∧
  NP (parse_function f) ∧
  (∀ acc, NP (parse_params_loop f acc)) ∧
  NP (parse_block f) ∧
  (∀ acc, NP (parse_block_stmts f acc)) ∧
  NP (parse_stmt f) ∧
  NP (parse_let_stmt f) ∧
  NP (parse_expr f) ∧
  (∀ mb, NP (parse_expr_bp f mb)) ∧
  (∀ mb lhs, NP (parse_expr_bp_loop f mb lhs)) ∧
  NP (parsePrefix f) ∧
  NP (parse_primary f) ∧
  (∀ acc, NP (parse_tuple_rest f acc)) ∧
  (∀ acc, NP (parse_array_elems f acc)) ∧
  NP (parse_path f) ∧
  (∀ acc start, NP (parse_path_loop f acc start)) ∧
  NP (parse_type f) ∧
  (∀ acc, NP (parse_type_tuple_rest f acc)) ∧
  NP (parse_generics f) ∧
  (∀ acc, NP (parse_generics_loop f acc)) ∧
  (∀ acc, NP (parse_bounds_rest f acc)) ∧
  NP (parse_generic_args f) ∧
  (∀ acc, NP (parse_generic_args_loop f acc)) ∧
  NP (parse_where_clause f) ∧
  (∀ acc, NP (parse_where_loop f acc)) ∧
  NP (parse_struct f) ∧
  (∀ acc, NP (parse_fields_loop f acc)) ∧
  NP (parse_enum f) ∧
  (∀ acc, NP (parse_enum_variants f acc)) ∧
  (∀ acc, NP (parse_variant_tuple_types f acc)) ∧
  NP (parse_if_expr f) ∧
  NP (parse_match_expr f) ∧
  (∀ acc, NP (parse_match_arms f acc)) ∧
  NP (parse_while_expr f) ∧
  NP (parse_for_expr f) ∧
  (∀ acc, NP (parse_args_loop f acc)) ∧
  (∀ acc, NP (parse_program_loop f acc))

/-!
Theorems for the claims.
-/

/-- Claim C10: keyword-table round trip: for every TokenKind with
is_keyword true, from_keyword applied to its as_str string returns the
same kind. -/
theorem C10_keyword_roundtrip :
    ∀ k : TokenKind, TokenKind.is_keyword k = true →
      TokenKind.from_keyword (TokenKind.as_str k) = some k := by
  intro k h
  cases k <;> first
    | rfl
    | exact absurd h (by decide)

/-- Witness for claim C10 at the Fn keyword. -/
theorem C10_keyword_roundtrip_witness :
    TokenKind.is_keyword TokenKind.Fn = true ∧
    TokenKind.from_keyword (TokenKind.as_str TokenKind.Fn) = some TokenKind.Fn :=
  ⟨by decide, C10_keyword_roundtrip TokenKind.Fn (by decide)⟩

/-- Claim C7 counterexample: the section 4.4 table makes every
comparison operator bind tighter than bitwise OR and tighter than
equality, but TokenKind::precedence orders Lt strictly below Pipe and
ties Lt with EqEq, so the claimed order equivalence fails at the pairs
(Lt, Pipe), (Pipe, Lt) and (Lt, EqEq). -/
theorem C7_counterexample :
    optGt (spec44_lbp TokenKind.Lt) (spec44_lbp TokenKind.Pipe) = true ∧
    optGt (TokenKind.precedence TokenKind.Lt) (TokenKind.precedence TokenKind.Pipe) = false ∧
    optGt (TokenKind.precedence TokenKind.Pipe) (TokenKind.precedence TokenKind.Lt) = true ∧
    optGt (spec44_lbp TokenKind.Pipe) (spec44_lbp TokenKind.Lt) = false ∧
    TokenKind.precedence TokenKind.Lt = TokenKind.precedence TokenKind.EqEq ∧
    optGt (spec44_lbp TokenKind.Lt) (spec44_lbp TokenKind.EqEq) = true := by
  decide

/-- Claim C7 amended: on the section 4.4 operators the order induced
by TokenKind::precedence coincides with the amended tier table, which
differs from section 4.4 by merging comparison with equality into one tier
and placing that tier below bitwise OR, XOR and AND. -/
theorem C7_amended :
    (spec44ops.all fun a => spec44ops.all fun b =>
      optGt (TokenKind.precedence a) (TokenKind.precedence b)
        == optGt (amendedTier a) (amendedTier b)) = true := by
  decide

/-- Claim C6: evaluating string materialization at the failing lexeme:
the five-byte literal quote backslash backslash n quote materializes to
backslash followed by a newline, because the sequential replace calls
first rewrite the second backslash together with the following n; a
left-to-right single-pass decode would produce backslash followed by
the letter n. -/
theorem C6_escape_eval :
    parse_string ['"', '\\', '\\', 'n', '"'] (Span.mk 0 5) = "\\\n" ∧
    parse_string ['"', '\\', '\\', 'n', '"'] (Span.mk 0 5) ≠ "\\n" := by
  constructor
  · rfl
  · decide

/-- Claim C3: the NovaError enum declared in error.rs carries a span in
every variant but contains neither NestingTooDeep nor InvalidLiteral,
while the parser produces exactly those values: its integer-conversion
failure evaluates to InvalidLiteral and its block-depth failure to
NestingTooDeep. -/
theorem C3_taxonomy_eval :
    ((errorRsVariants.map ErrVariant.name).contains "NestingTooDeep") = false ∧
    ((errorRsVariants.map ErrVariant.name).contains "InvalidLiteral") = false ∧
    (errorRsVariants.all ErrVariant.hasSpan) = true ∧
    parse_int (String.toList "99999999999999999999") (Span.mk 0 20) =
      Except.error (NovaError.InvalidLiteral "integer" (Span.mk 0 20)) ∧
    (parse_blockAt "\x7b \x7d" 64).1 =
      Except.error (PErr.nova (NovaError.NestingTooDeep 64 64 (Span.mk 0 1))) := by
  refine ⟨by decide, by decide, by decide, by rfl, by rfl⟩

set_option maxRecDepth 100000 in
/-- Claim C1: evaluation at the failing input of the lexer_attack.rs
nesting tests: the lexer tracks comment depth without any limit, so a
257-deep (and a 256-deep) nested block comment is skipped entirely and
lexing succeeds with only the Eof token, instead of failing with
NestingTooDeep max 256 at depth 257. -/
theorem C1_no_nesting_limit :
    lexChars (nestedComment 257) = Except.ok [Token.eof 1031] ∧
    lexChars (nestedComment 256) = Except.ok [Token.eof 1027] := by
  constructor
  · rfl
  · rfl
/-- Claim C2 counterexample: the source impl lexes successfully, yet
parsing does not return Ok or a NovaError: it reaches the todo! stub
of parse_impl and panics. -/
theorem C2_counterexample :
    parseNova "impl" =
      some (Except.error (PErr.panicStub "Impl parsing not yet implemented")) := by
  rfl

set_option maxRecDepth 100000 in
set_option maxHeartbeats 1000000 in
/-- Claim C4 counterexample: the compound assignment += is not
consumed as a binary operator with binding powers (1, 0): parse_expr
on ident += ident returns only the first identifier and leaves the +=
unconsumed, and the full parse of a program containing a += b fails
with UnexpectedToken expected expression at the += token. -/
theorem C4_counterexample :
    checkNotBinary TokenKind.PlusEq = true ∧
    parseNova "fn main() \x7b a += b; \x7d" =
      some (Except.error (PErr.nova (NovaError.UnexpectedToken "expression"
        TokenKind.PlusEq (Span.mk 14 16)))) := by
  refine ⟨by rfl, by rfl⟩

/-- Row 1 of the Pratt pair check: left operator Plus. -/
theorem checkPair_row_1 :
    checkPair TokenKind.Plus TokenKind.Plus = true ∧
    checkPair TokenKind.Plus TokenKind.Minus = true ∧
    checkPair TokenKind.Plus TokenKind.Star = true ∧
    checkPair TokenKind.Plus TokenKind.Slash = true ∧
    checkPair TokenKind.Plus TokenKind.Percent = true ∧
    checkPair TokenKind.Plus TokenKind.AmpAmp = true ∧
    checkPair TokenKind.Plus TokenKind.PipePipe = true ∧
    checkPair TokenKind.Plus TokenKind.Amp = true ∧
    checkPair TokenKind.Plus TokenKind.Pipe = true ∧
    checkPair TokenKind.Plus TokenKind.Caret = true ∧
    checkPair TokenKind.Plus TokenKind.LtLt = true ∧
    checkPair TokenKind.Plus TokenKind.GtGt = true ∧
    checkPair TokenKind.Plus TokenKind.EqEq = true ∧
    checkPair TokenKind.Plus TokenKind.BangEq = true ∧
    checkPair TokenKind.Plus TokenKind.Lt = true ∧
    checkPair TokenKind.Plus TokenKind.LtEq = true ∧
    checkPair TokenKind.Plus TokenKind.Gt = true ∧
    checkPair TokenKind.Plus TokenKind.GtEq = true ∧
    checkPair TokenKind.Plus TokenKind.Eq = true := by
  refine ⟨?_, ?_, ?_, ?_, ?_, ?_, ?_, ?_, ?_, ?_, ?_, ?_, ?_, ?_, ?_, ?_, ?_, ?_, ?_⟩ <;> rfl

/-- Row 2 of the Pratt pair check: left operator Minus. -/
theorem checkPair_row_2 :
    checkPair TokenKind.Minus TokenKind.Plus = true ∧
    checkPair TokenKind.Minus TokenKind.Minus = true ∧
    checkPair TokenKind.Minus TokenKind.Star = true ∧
    checkPair TokenKind.Minus TokenKind.Slash = true ∧
    checkPair TokenKind.Minus TokenKind.Percent = true ∧
    checkPair TokenKind.Minus TokenKind.AmpAmp = true ∧
    checkPair TokenKind.Minus TokenKind.PipePipe = true ∧
    checkPair TokenKind.Minus TokenKind.Amp = true ∧
    checkPair TokenKind.Minus TokenKind.Pipe = true ∧
    checkPair TokenKind.Minus TokenKind.Caret = true ∧
    checkPair TokenKind.Minus TokenKind.LtLt = true ∧
    checkPair TokenKind.Minus TokenKind.GtGt = true ∧
    checkPair TokenKind.Minus TokenKind.EqEq = true ∧
    checkPair TokenKind.Minus TokenKind.BangEq = true ∧
    checkPair TokenKind.Minus TokenKind.Lt = true ∧
    checkPair TokenKind.Minus TokenKind.LtEq = true ∧
    checkPair TokenKind.Minus TokenKind.Gt = true ∧
    checkPair TokenKind.Minus TokenKind.GtEq = true ∧
    checkPair TokenKind.Minus TokenKind.Eq = true := by
  refine ⟨?_, ?_, ?_, ?_, ?_, ?_, ?_, ?_, ?_, ?_, ?_, ?_, ?_, ?_, ?_, ?_, ?_, ?_, ?_⟩ <;> rfl

/-- Row 3 of the Pratt pair check: left operator Star. -/
theorem checkPair_row_3 :
    checkPair TokenKind.Star TokenKind.Plus = true ∧
    checkPair TokenKind.Star TokenKind.Minus = true ∧
    checkPair TokenKind.Star TokenKind.Star = true ∧
    checkPair TokenKind.Star TokenKind.Slash = true ∧
    checkPair TokenKind.Star TokenKind.Percent = true ∧
    checkPair TokenKind.Star TokenKind.AmpAmp = true ∧
    checkPair TokenKind.Star TokenKind.PipePipe = true ∧
    checkPair TokenKind.Star TokenKind.Amp = true ∧
    checkPair TokenKind.Star TokenKind.Pipe = true ∧
    checkPair TokenKind.Star TokenKind.Caret = true ∧
    checkPair TokenKind.Star TokenKind.LtLt = true ∧
    checkPair TokenKind.Star TokenKind.GtGt = true ∧
    checkPair TokenKind.Star TokenKind.EqEq = true ∧
    checkPair TokenKind.Star TokenKind.BangEq = true ∧
    checkPair TokenKind.Star TokenKind.Lt = true ∧
    checkPair TokenKind.Star TokenKind.LtEq = true ∧
    checkPair TokenKind.Star TokenKind.Gt = true ∧
    checkPair TokenKind.Star TokenKind.GtEq = true ∧
    checkPair TokenKind.Star TokenKind.Eq = true := by
  refine ⟨?_, ?_, ?_, ?_, ?_, ?_, ?_, ?_, ?_, ?_, ?_, ?_, ?_, ?_, ?_, ?_, ?_, ?_, ?_⟩ <;> rfl

/-- Row 4 of the Pratt pair check: left operator Slash. -/
theorem checkPair_row_4 :
    checkPair TokenKind.Slash TokenKind.Plus = true ∧
    checkPair TokenKind.Slash TokenKind.Minus = true ∧
    checkPair TokenKind.Slash TokenKind.Star = true ∧
    checkPair TokenKind.Slash TokenKind.Slash = true ∧
    checkPair TokenKind.Slash TokenKind.Percent = true ∧
    checkPair TokenKind.Slash TokenKind.AmpAmp = true ∧
    checkPair TokenKind.Slash TokenKind.PipePipe = true ∧
    checkPair TokenKind.Slash TokenKind.Amp = true ∧
    checkPair TokenKind.Slash TokenKind.Pipe = true ∧
    checkPair TokenKind.Slash TokenKind.Caret = true ∧
    checkPair TokenKind.Slash TokenKind.LtLt = true ∧
    checkPair TokenKind.Slash TokenKind.GtGt = true ∧
    checkPair TokenKind.Slash TokenKind.EqEq = true ∧
    checkPair TokenKind.Slash TokenKind.BangEq = true ∧
    checkPair TokenKind.Slash TokenKind.Lt = true ∧
    checkPair TokenKind.Slash TokenKind.LtEq = true ∧
    checkPair TokenKind.Slash TokenKind.Gt = true ∧
    checkPair TokenKind.Slash TokenKind.GtEq = true ∧
    checkPair TokenKind.Slash TokenKind.Eq = true := by
  refine ⟨?_, ?_, ?_, ?_, ?_, ?_, ?_, ?_, ?_, ?_, ?_, ?_, ?_, ?_, ?_, ?_, ?_, ?_, ?_⟩ <;> rfl

/-- Row 5 of the Pratt pair check: left operator Percent. -/
theorem checkPair_row_5 :
    checkPair TokenKind.Percent TokenKind.Plus = true ∧
    checkPair TokenKind.Percent TokenKind.Minus = true ∧
    checkPair TokenKind.Percent TokenKind.Star = true ∧
    checkPair TokenKind.Percent TokenKind.Slash = true ∧
    checkPair TokenKind.Percent TokenKind.Percent = true ∧
    checkPair TokenKind.Percent TokenKind.AmpAmp = true ∧
    checkPair TokenKind.Percent TokenKind.PipePipe = true ∧
    checkPair TokenKind.Percent TokenKind.Amp = true ∧
    checkPair TokenKind.Percent TokenKind.Pipe = true ∧
    checkPair TokenKind.Percent TokenKind.Caret = true ∧
    checkPair TokenKind.Percent TokenKind.LtLt = true ∧
    checkPair TokenKind.Percent TokenKind.GtGt = true ∧
    checkPair TokenKind.Percent TokenKind.EqEq = true ∧
    checkPair TokenKind.Percent TokenKind.BangEq = true ∧
    checkPair TokenKind.Percent TokenKind.Lt = true ∧
    checkPair TokenKind.Percent TokenKind.LtEq = true ∧
    checkPair TokenKind.Percent TokenKind.Gt = true ∧
    checkPair TokenKind.Percent TokenKind.GtEq = true ∧
    checkPair TokenKind.Percent TokenKind.Eq = true := by
  refine ⟨?_, ?_, ?_, ?_, ?_, ?_, ?_, ?_, ?_, ?_, ?_, ?_, ?_, ?_, ?_, ?_, ?_, ?_, ?_⟩ <;> rfl

/-- Row 6 of the Pratt pair check: left operator AmpAmp. -/
theorem checkPair_row_6 :
    checkPair TokenKind.AmpAmp TokenKind.Plus = true ∧
    checkPair TokenKind.AmpAmp TokenKind.Minus = true ∧
    checkPair TokenKind.AmpAmp TokenKind.Star = true ∧
    checkPair TokenKind.AmpAmp TokenKind.Slash = true ∧
    checkPair TokenKind.AmpAmp TokenKind.Percent = true ∧
    checkPair TokenKind.AmpAmp TokenKind.AmpAmp = true ∧
    checkPair TokenKind.AmpAmp TokenKind.PipePipe = true ∧
    checkPair TokenKind.AmpAmp TokenKind.Amp = true ∧
    checkPair TokenKind.AmpAmp TokenKind.Pipe = true ∧
    checkPair TokenKind.AmpAmp TokenKind.Caret = true ∧
    checkPair TokenKind.AmpAmp TokenKind.LtLt = true ∧
    checkPair TokenKind.AmpAmp TokenKind.GtGt = true ∧
    checkPair TokenKind.AmpAmp TokenKind.EqEq = true ∧
    checkPair TokenKind.AmpAmp TokenKind.BangEq = true ∧
    checkPair TokenKind.AmpAmp TokenKind.Lt = true ∧
    checkPair TokenKind.AmpAmp TokenKind.LtEq = true ∧
    checkPair TokenKind.AmpAmp TokenKind.Gt = true ∧
    checkPair TokenKind.AmpAmp TokenKind.GtEq = true ∧
    checkPair TokenKind.AmpAmp TokenKind.Eq = true := by
  refine ⟨?_, ?_, ?_, ?_, ?_, ?_, ?_, ?_, ?_, ?_, ?_, ?_, ?_, ?_, ?_, ?_, ?_, ?_, ?_⟩ <;> rfl

/-- Row 7 of the Pratt pair check: left operator PipePipe. -/
theorem checkPair_row_7 :
    checkPair TokenKind.PipePipe TokenKind.Plus = true ∧
    checkPair TokenKind.PipePipe TokenKind.Minus = true ∧
    checkPair TokenKind.PipePipe TokenKind.Star = true ∧
    checkPair TokenKind.PipePipe TokenKind.Slash = true ∧
    checkPair TokenKind.PipePipe TokenKind.Percent = true ∧
    checkPair TokenKind.PipePipe TokenKind.AmpAmp = true ∧
    checkPair TokenKind.PipePipe TokenKind.PipePipe = true ∧
    checkPair TokenKind.PipePipe TokenKind.Amp = true ∧
    checkPair TokenKind.PipePipe TokenKind.Pipe = true ∧
    checkPair TokenKind.PipePipe TokenKind.Caret = true ∧
    checkPair TokenKind.PipePipe TokenKind.LtLt = true ∧
    checkPair TokenKind.PipePipe TokenKind.GtGt = true ∧
    checkPair TokenKind.PipePipe TokenKind.EqEq = true ∧
    checkPair TokenKind.PipePipe TokenKind.BangEq = true ∧
    checkPair TokenKind.PipePipe TokenKind.Lt = true ∧
    checkPair TokenKind.PipePipe TokenKind.LtEq = true ∧
    checkPair TokenKind.PipePipe TokenKind.Gt = true ∧
    checkPair TokenKind.PipePipe TokenKind.GtEq = true ∧
    checkPair TokenKind.PipePipe TokenKind.Eq = true := by
  refine ⟨?_, ?_, ?_, ?_, ?_, ?_, ?_, ?_, ?_, ?_, ?_, ?_, ?_, ?_, ?_, ?_, ?_, ?_, ?_⟩ <;> rfl

/-- Row 8 of the Pratt pair check: left operator Amp. -/
theorem checkPair_row_8 :
    checkPair TokenKind.Amp TokenKind.Plus = true ∧
    checkPair TokenKind.Amp TokenKind.Minus = true ∧
    checkPair TokenKind.Amp TokenKind.Star = true ∧
    checkPair TokenKind.Amp TokenKind.Slash = true ∧
    checkPair TokenKind.Amp TokenKind.Percent = true ∧
    checkPair TokenKind.Amp TokenKind.AmpAmp = true ∧
    checkPair TokenKind.Amp TokenKind.PipePipe = true ∧
    checkPair TokenKind.Amp TokenKind.Amp = true ∧
    checkPair TokenKind.Amp TokenKind.Pipe = true ∧
    checkPair TokenKind.Amp TokenKind.Caret = true ∧
    checkPair TokenKind.Amp TokenKind.LtLt = true ∧
    checkPair TokenKind.Amp TokenKind.GtGt = true ∧
    checkPair TokenKind.Amp TokenKind.EqEq = true ∧
    checkPair TokenKind.Amp TokenKind.BangEq = true ∧
    checkPair TokenKind.Amp TokenKind.Lt = true ∧
    checkPair TokenKind.Amp TokenKind.LtEq = true ∧
    checkPair TokenKind.Amp TokenKind.Gt = true ∧
    checkPair TokenKind.Amp TokenKind.GtEq = true ∧
    checkPair TokenKind.Amp TokenKind.Eq = true := by
  refine ⟨?_, ?_, ?_, ?_, ?_, ?_, ?_, ?_, ?_, ?_, ?_, ?_, ?_, ?_, ?_, ?_, ?_, ?_, ?_⟩ <;> rfl

/-- Row 9 of the Pratt pair check: left operator Pipe. -/
theorem checkPair_row_9 :
    checkPair TokenKind.Pipe TokenKind.Plus = true ∧
    checkPair TokenKind.Pipe TokenKind.Minus = true ∧
    checkPair TokenKind.Pipe TokenKind.Star = true ∧
    checkPair TokenKind.Pipe TokenKind.Slash = true ∧
    checkPair TokenKind.Pipe TokenKind.Percent = true ∧
    checkPair TokenKind.Pipe TokenKind.AmpAmp = true ∧
    checkPair TokenKind.Pipe TokenKind.PipePipe = true ∧
    checkPair TokenKind.Pipe TokenKind.Amp = true ∧
    checkPair TokenKind.Pipe TokenKind.Pipe = true ∧
    checkPair TokenKind.Pipe TokenKind.Caret = true ∧
    checkPair TokenKind.Pipe TokenKind.LtLt = true ∧
    checkPair TokenKind.Pipe TokenKind.GtGt = true ∧
    checkPair TokenKind.Pipe TokenKind.EqEq = true ∧
    checkPair TokenKind.Pipe TokenKind.BangEq = true ∧
    checkPair TokenKind.Pipe TokenKind.Lt = true ∧
    checkPair TokenKind.Pipe TokenKind.LtEq = true ∧
    checkPair TokenKind.Pipe TokenKind.Gt = true ∧
    checkPair TokenKind.Pipe TokenKind.GtEq = true ∧
    checkPair TokenKind.Pipe TokenKind.Eq = true := by
  refine ⟨?_, ?_, ?_, ?_, ?_, ?_, ?_, ?_, ?_, ?_, ?_, ?_, ?_, ?_, ?_, ?_, ?_, ?_, ?_⟩ <;> rfl

/-- Row 10 of the Pratt pair check: left operator Caret. -/
theorem checkPair_row_10 :
    checkPair TokenKind.Caret TokenKind.Plus = true ∧
    checkPair TokenKind.Caret TokenKind.Minus = true ∧
    checkPair TokenKind.Caret TokenKind.Star = true ∧
    checkPair TokenKind.Caret TokenKind.Slash = true ∧
    checkPair TokenKind.Caret TokenKind.Percent = true ∧
    checkPair TokenKind.Caret TokenKind.AmpAmp = true ∧
    checkPair TokenKind.Caret TokenKind.PipePipe = true ∧
    checkPair TokenKind.Caret TokenKind.Amp = true ∧
    checkPair TokenKind.Caret TokenKind.Pipe = true ∧
    checkPair TokenKind.Caret TokenKind.Caret = true ∧
    checkPair TokenKind.Caret TokenKind.LtLt = true ∧
    checkPair TokenKind.Caret TokenKind.GtGt = true ∧
    checkPair TokenKind.Caret TokenKind.EqEq = true ∧
    checkPair TokenKind.Caret TokenKind.BangEq = true ∧
    checkPair TokenKind.Caret TokenKind.Lt = true ∧
    checkPair TokenKind.Caret TokenKind.LtEq = true ∧
    checkPair TokenKind.Caret TokenKind.Gt = true ∧
    checkPair TokenKind.Caret TokenKind.GtEq = true ∧
    checkPair TokenKind.Caret TokenKind.Eq = true := by
  refine ⟨?_, ?_, ?_, ?_, ?_, ?_, ?_, ?_, ?_, ?_, ?_, ?_, ?_, ?_, ?_, ?_, ?_, ?_, ?_⟩ <;> rfl

/-- Row 11 of the Pratt pair check: left operator LtLt. -/
theorem checkPair_row_11 :
    checkPair TokenKind.LtLt TokenKind.Plus = true ∧
    checkPair TokenKind.LtLt TokenKind.Minus = true ∧
    checkPair TokenKind.LtLt TokenKind.Star = true ∧
    checkPair TokenKind.LtLt TokenKind.Slash = true ∧
    checkPair TokenKind.LtLt TokenKind.Percent = true ∧
    checkPair TokenKind.LtLt TokenKind.AmpAmp = true ∧
    checkPair TokenKind.LtLt TokenKind.PipePipe = true ∧
    checkPair TokenKind.LtLt TokenKind.Amp = true ∧
    checkPair TokenKind.LtLt TokenKind.Pipe = true ∧
    checkPair TokenKind.LtLt TokenKind.Caret = true ∧
    checkPair TokenKind.LtLt TokenKind.LtLt = true ∧
    checkPair TokenKind.LtLt TokenKind.GtGt = true ∧
    checkPair TokenKind.LtLt TokenKind.EqEq = true ∧
    checkPair TokenKind.LtLt TokenKind.BangEq = true ∧
    checkPair TokenKind.LtLt TokenKind.Lt = true ∧
    checkPair TokenKind.LtLt TokenKind.LtEq = true ∧
    checkPair TokenKind.LtLt TokenKind.Gt = true ∧
    checkPair TokenKind.LtLt TokenKind.GtEq = true ∧
    checkPair TokenKind.LtLt TokenKind.Eq = true := by
  refine ⟨?_, ?_, ?_, ?_, ?_, ?_, ?_, ?_, ?_, ?_, ?_, ?_, ?_, ?_, ?_, ?_, ?_, ?_, ?_⟩ <;> rfl

/-- Row 12 of the Pratt pair check: left operator GtGt. -/
theorem checkPair_row_12 :
    checkPair TokenKind.GtGt TokenKind.Plus = true ∧
    checkPair TokenKind.GtGt TokenKind.Minus = true ∧
    checkPair TokenKind.GtGt TokenKind.Star = true ∧
    checkPair TokenKind.GtGt TokenKind.Slash = true ∧
    checkPair TokenKind.GtGt TokenKind.Percent = true ∧
    checkPair TokenKind.GtGt TokenKind.AmpAmp = true ∧
    checkPair TokenKind.GtGt TokenKind.PipePipe = true ∧
    checkPair TokenKind.GtGt TokenKind.Amp = true ∧
    checkPair TokenKind.GtGt TokenKind.Pipe = true ∧
    checkPair TokenKind.GtGt TokenKind.Caret = true ∧
    checkPair TokenKind.GtGt TokenKind.LtLt = true ∧
    checkPair TokenKind.GtGt TokenKind.GtGt = true ∧
    checkPair TokenKind.GtGt TokenKind.EqEq = true ∧
    checkPair TokenKind.GtGt TokenKind.BangEq = true ∧
    checkPair TokenKind.GtGt TokenKind.Lt = true ∧
    checkPair TokenKind.GtGt TokenKind.LtEq = true ∧
    checkPair TokenKind.GtGt TokenKind.Gt = true ∧
    checkPair TokenKind.GtGt TokenKind.GtEq = true ∧
    checkPair TokenKind.GtGt TokenKind.Eq = true := by
  refine ⟨?_, ?_, ?_, ?_, ?_, ?_, ?_, ?_, ?_, ?_, ?_, ?_, ?_, ?_, ?_, ?_, ?_, ?_, ?_⟩ <;> rfl

/-- Row 13 of the Pratt pair check: left operator EqEq. -/
theorem checkPair_row_13 :
    checkPair TokenKind.EqEq TokenKind.Plus = true ∧
    checkPair TokenKind.EqEq TokenKind.Minus = true ∧
    checkPair TokenKind.EqEq TokenKind.Star = true ∧
    checkPair TokenKind.EqEq TokenKind.Slash = true ∧
    checkPair TokenKind.EqEq TokenKind.Percent = true ∧
    checkPair TokenKind.EqEq TokenKind.AmpAmp = true ∧
    checkPair TokenKind.EqEq TokenKind.PipePipe = true ∧
    checkPair TokenKind.EqEq TokenKind.Amp = true ∧
    checkPair TokenKind.EqEq TokenKind.Pipe = true ∧
    checkPair TokenKind.EqEq TokenKind.Caret = true ∧
    checkPair TokenKind.EqEq TokenKind.LtLt = true ∧
    checkPair TokenKind.EqEq TokenKind.GtGt = true ∧
    checkPair TokenKind.EqEq TokenKind.EqEq = true ∧
    checkPair TokenKind.EqEq TokenKind.BangEq = true ∧
    checkPair TokenKind.EqEq TokenKind.Lt = true ∧
    checkPair TokenKind.EqEq TokenKind.LtEq = true ∧
    checkPair TokenKind.EqEq TokenKind.Gt = true ∧
    checkPair TokenKind.EqEq TokenKind.GtEq = true ∧
    checkPair TokenKind.EqEq TokenKind.Eq = true := by
  refine ⟨?_, ?_, ?_, ?_, ?_, ?_, ?_, ?_, ?_, ?_, ?_, ?_, ?_, ?_, ?_, ?_, ?_, ?_, ?_⟩ <;> rfl

/-- Row 14 of the Pratt pair check: left operator BangEq. -/
theorem checkPair_row_14 :
    checkPair TokenKind.BangEq TokenKind.Plus = true ∧
    checkPair TokenKind.BangEq TokenKind.Minus = true ∧
    checkPair TokenKind.BangEq TokenKind.Star = true ∧
    checkPair TokenKind.BangEq TokenKind.Slash = true ∧
    checkPair TokenKind.BangEq TokenKind.Percent = true ∧
    checkPair TokenKind.BangEq TokenKind.AmpAmp = true ∧
    checkPair TokenKind.BangEq TokenKind.PipePipe = true ∧
    checkPair TokenKind.BangEq TokenKind.Amp = true ∧
    checkPair TokenKind.BangEq TokenKind.Pipe = true ∧
    checkPair TokenKind.BangEq TokenKind.Caret = true ∧
    checkPair TokenKind.BangEq TokenKind.LtLt = true ∧
    checkPair TokenKind.BangEq TokenKind.GtGt = true ∧
    checkPair TokenKind.BangEq TokenKind.EqEq = true ∧
    checkPair TokenKind.BangEq TokenKind.BangEq = true ∧
    checkPair TokenKind.BangEq TokenKind.Lt = true ∧
    checkPair TokenKind.BangEq TokenKind.LtEq = true ∧
    checkPair TokenKind.BangEq TokenKind.Gt = true ∧
    checkPair TokenKind.BangEq TokenKind.GtEq = true ∧
    checkPair TokenKind.BangEq TokenKind.Eq = true := by
  refine ⟨?_, ?_, ?_, ?_, ?_, ?_, ?_, ?_, ?_, ?_, ?_, ?_, ?_, ?_, ?_, ?_, ?_, ?_, ?_⟩ <;> rfl

/-- Row 15 of the Pratt pair check: left operator Lt. -/
theorem checkPair_row_15 :
    checkPair TokenKind.Lt TokenKind.Plus = true ∧
    checkPair TokenKind.Lt TokenKind.Minus = true ∧
    checkPair TokenKind.Lt TokenKind.Star = true ∧
    checkPair TokenKind.Lt TokenKind.Slash = true ∧
    checkPair TokenKind.Lt TokenKind.Percent = true ∧
    checkPair TokenKind.Lt TokenKind.AmpAmp = true ∧
    checkPair TokenKind.Lt TokenKind.PipePipe = true ∧
    checkPair TokenKind.Lt TokenKind.Amp = true ∧
    checkPair TokenKind.Lt TokenKind.Pipe = true ∧
    checkPair TokenKind.Lt TokenKind.Caret = true ∧
    checkPair TokenKind.Lt TokenKind.LtLt = true ∧
    checkPair TokenKind.Lt TokenKind.GtGt = true ∧
    checkPair TokenKind.Lt TokenKind.EqEq = true ∧
    checkPair TokenKind.Lt TokenKind.BangEq = true ∧
    checkPair TokenKind.Lt TokenKind.Lt = true ∧
    checkPair TokenKind.Lt TokenKind.LtEq = true ∧
    checkPair TokenKind.Lt TokenKind.Gt = true ∧
    checkPair TokenKind.Lt TokenKind.GtEq = true ∧
    checkPair TokenKind.Lt TokenKind.Eq = true := by
  refine ⟨?_, ?_, ?_, ?_, ?_, ?_, ?_, ?_, ?_, ?_, ?_, ?_, ?_, ?_, ?_, ?_, ?_, ?_, ?_⟩ <;> rfl

/-- Row 16 of the Pratt pair check: left operator LtEq. -/
theorem checkPair_row_16 :
    checkPair TokenKind.LtEq TokenKind.Plus = true ∧
    checkPair TokenKind.LtEq TokenKind.Minus = true ∧
    checkPair TokenKind.LtEq TokenKind.Star = true ∧
    checkPair TokenKind.LtEq TokenKind.Slash = true ∧
    checkPair TokenKind.LtEq TokenKind.Percent = true ∧
    checkPair TokenKind.LtEq TokenKind.AmpAmp = true ∧
    checkPair TokenKind.LtEq TokenKind.PipePipe = true ∧
    checkPair TokenKind.LtEq TokenKind.Amp = true ∧
    checkPair TokenKind.LtEq TokenKind.Pipe = true ∧
    checkPair TokenKind.LtEq TokenKind.Caret = true ∧
    checkPair TokenKind.LtEq TokenKind.LtLt = true ∧
    checkPair TokenKind.LtEq TokenKind.GtGt = true ∧
    checkPair TokenKind.LtEq TokenKind.EqEq = true ∧
    checkPair TokenKind.LtEq TokenKind.BangEq = true ∧
    checkPair TokenKind.LtEq TokenKind.Lt = true ∧
    checkPair TokenKind.LtEq TokenKind.LtEq = true ∧
    checkPair TokenKind.LtEq TokenKind.Gt = true ∧
    checkPair TokenKind.LtEq TokenKind.GtEq = true ∧
    checkPair TokenKind.LtEq TokenKind.Eq = true := by
  refine ⟨?_, ?_, ?_, ?_, ?_, ?_, ?_, ?_, ?_, ?_, ?_, ?_, ?_, ?_, ?_, ?_, ?_, ?_, ?_⟩ <;> rfl

/-- Row 17 of the Pratt pair check: left operator Gt. -/
theorem checkPair_row_17 :
    checkPair TokenKind.Gt TokenKind.Plus = true ∧
    checkPair TokenKind.Gt TokenKind.Minus = true ∧
    checkPair TokenKind.Gt TokenKind.Star = true ∧
    checkPair TokenKind.Gt TokenKind.Slash = true ∧
    checkPair TokenKind.Gt TokenKind.Percent = true ∧
    checkPair TokenKind.Gt TokenKind.AmpAmp = true ∧
    checkPair TokenKind.Gt TokenKind.PipePipe = true ∧
    checkPair TokenKind.Gt TokenKind.Amp = true ∧
    checkPair TokenKind.Gt TokenKind.Pipe = true ∧
    checkPair TokenKind.Gt TokenKind.Caret = true ∧
    checkPair TokenKind.Gt TokenKind.LtLt = true ∧
    checkPair TokenKind.Gt TokenKind.GtGt = true ∧
    checkPair TokenKind.Gt TokenKind.EqEq = true ∧
    checkPair TokenKind.Gt TokenKind.BangEq = true ∧
    checkPair TokenKind.Gt TokenKind.Lt = true ∧
    checkPair TokenKind.Gt TokenKind.LtEq = true ∧
    checkPair TokenKind.Gt TokenKind.Gt = true ∧
    checkPair TokenKind.Gt TokenKind.GtEq = true ∧
    checkPair TokenKind.Gt TokenKind.Eq = true := by
  refine ⟨?_, ?_, ?_, ?_, ?_, ?_, ?_, ?_, ?_, ?_, ?_, ?_, ?_, ?_, ?_, ?_, ?_, ?_, ?_⟩ <;> rfl

/-- Row 18 of the Pratt pair check: left operator GtEq. -/
theorem checkPair_row_18 :
    checkPair TokenKind.GtEq TokenKind.Plus = true ∧
    checkPair TokenKind.GtEq TokenKind.Minus = true ∧
    checkPair TokenKind.GtEq TokenKind.Star = true ∧
    checkPair TokenKind.GtEq TokenKind.Slash = true ∧
    checkPair TokenKind.GtEq TokenKind.Percent = true ∧
    checkPair TokenKind.GtEq TokenKind.AmpAmp = true ∧
    checkPair TokenKind.GtEq TokenKind.PipePipe = true ∧
    checkPair TokenKind.GtEq TokenKind.Amp = true ∧
    checkPair TokenKind.GtEq TokenKind.Pipe = true ∧
    checkPair TokenKind.GtEq TokenKind.Caret = true ∧
    checkPair TokenKind.GtEq TokenKind.LtLt = true ∧
    checkPair TokenKind.GtEq TokenKind.GtGt = true ∧
    checkPair TokenKind.GtEq TokenKind.EqEq = true ∧
    checkPair TokenKind.GtEq TokenKind.BangEq = true ∧
    checkPair TokenKind.GtEq TokenKind.Lt = true ∧
    checkPair TokenKind.GtEq TokenKind.LtEq = true ∧
    checkPair TokenKind.GtEq TokenKind.Gt = true ∧
    checkPair TokenKind.GtEq TokenKind.GtEq = true ∧
    checkPair TokenKind.GtEq TokenKind.Eq = true := by
  refine ⟨?_, ?_, ?_, ?_, ?_, ?_, ?_, ?_, ?_, ?_, ?_, ?_, ?_, ?_, ?_, ?_, ?_, ?_, ?_⟩ <;> rfl

/-- Row 19 of the Pratt pair check: left operator Eq. -/
theorem checkPair_row_19 :
    checkPair TokenKind.Eq TokenKind.Plus = true ∧
    checkPair TokenKind.Eq TokenKind.Minus = true ∧
    checkPair TokenKind.Eq TokenKind.Star = true ∧
    checkPair TokenKind.Eq TokenKind.Slash = true ∧
    checkPair TokenKind.Eq TokenKind.Percent = true ∧
    checkPair TokenKind.Eq TokenKind.AmpAmp = true ∧
    checkPair TokenKind.Eq TokenKind.PipePipe = true ∧
    checkPair TokenKind.Eq TokenKind.Amp = true ∧
    checkPair TokenKind.Eq TokenKind.Pipe = true ∧
    checkPair TokenKind.Eq TokenKind.Caret = true ∧
    checkPair TokenKind.Eq TokenKind.LtLt = true ∧
    checkPair TokenKind.Eq TokenKind.GtGt = true ∧
    checkPair TokenKind.Eq TokenKind.EqEq = true ∧
    checkPair TokenKind.Eq TokenKind.BangEq = true ∧
    checkPair TokenKind.Eq TokenKind.Lt = true ∧
    checkPair TokenKind.Eq TokenKind.LtEq = true ∧
    checkPair TokenKind.Eq TokenKind.Gt = true ∧
    checkPair TokenKind.Eq TokenKind.GtEq = true ∧
    checkPair TokenKind.Eq TokenKind.Eq = true := by
  refine ⟨?_, ?_, ?_, ?_, ?_, ?_, ?_, ?_, ?_, ?_, ?_, ?_, ?_, ?_, ?_, ?_, ?_, ?_, ?_⟩ <;> rfl

set_option maxRecDepth 100000 in
set_option maxHeartbeats 2000000 in
/-- Claim C4 amended: for every ordered pair of the binary-operator
kinds that parse_expr_bp actually handles (the section 4.4 table minus
the compound assignments), the parsed tree honors the table, checked
over all 361 pairs; in particular 1 + 2 * 3 groups as 1 + (2 * 3) and
a = b = c as a = (b = c); and no compound-assignment operator is
consumed as a binary operator. -/
theorem C4_amended :
    (binOps19.all fun a => binOps19.all fun b => checkPair a b) = true ∧
    ((parseExprOf "1 + 2 * 3").map fun e =>
      exprShapeEq e (mkBin (intLit 1) BinOp.Add
        (mkBin (intLit 2) BinOp.Mul (intLit 3)))) = some true ∧
    ((parseExprOf "a = b = c").map fun e =>
      exprShapeEq e (mkBin (pv "a") BinOp.Assign
        (mkBin (pv "b") BinOp.Assign (pv "c")))) = some true ∧
    (compoundAssignOps.all checkNotBinary) = true := by
  refine ⟨?_, by rfl, by rfl, by rfl⟩
  simp only [binOps19, List.all_cons, List.all_nil, Bool.and_true,
    Bool.and_eq_true]
  exact ⟨checkPair_row_1, checkPair_row_2, checkPair_row_3, checkPair_row_4,
    checkPair_row_5, checkPair_row_6, checkPair_row_7, checkPair_row_8,
    checkPair_row_9, checkPair_row_10, checkPair_row_11, checkPair_row_12,
    checkPair_row_13, checkPair_row_14, checkPair_row_15, checkPair_row_16,
    checkPair_row_17, checkPair_row_18, checkPair_row_19⟩

set_option maxRecDepth 400000 in
set_option maxHeartbeats 2000000 in
/-- Claim C5 counterexample: a chain of 70 prefix negations nests
expressions deeper than 64 on any reading, yet the whole pipeline
succeeds: parse_prefix recurses through parse_expr_bp without touching
the expression depth counter, so prefix-operator chains are not
subject to the limit and d at least 65 does not imply failure. -/
theorem C5_counterexample :
    isOkProgram (parseNova ("fn main() \x7b " ++ repStr 70 "-" ++ "1; \x7d")) = true := by
  rfl

set_option maxRecDepth 400000 in
set_option maxHeartbeats 4000000 in
/-- Claim C5 amended: the two counters enforce the limit of 64 for
block nesting and parenthesized-expression nesting, failing with
NestingTooDeep max 64 carrying the current position span: a 65-brace
program fails at the 65th brace and a 64-paren expression statement
fails at the enclosed literal; entering depth 64 itself succeeds and
restores the counter, while entering depth 65 fails (parse_block from
block depth 63 versus 64, parse_expr from expression depth 63 versus
64); but prefix-operator chains recurse through parse_expr_bp without
incrementing the expression depth counter, so a 70-deep prefix chain
parses successfully. -/
theorem C5_amended :
    parseNova ("fn main() " ++ repStr 65 "\x7b" ++ "42" ++ repStr 65 "\x7d") =
      some (Except.error (PErr.nova (NovaError.NestingTooDeep 64 64
        (Span.mk 74 75)))) ∧
    parseNova ("fn main() \x7b " ++ repStr 64 "(" ++ "42" ++ repStr 64 ")"
      ++ "; \x7d") =
      some (Except.error (PErr.nova (NovaError.NestingTooDeep 64 64
        (Span.mk 76 78)))) ∧
    fstOk (parse_blockAt "\x7b 42 \x7d" 63) = true ∧
    (parse_blockAt "\x7b 42 \x7d" 63).2.block_depth = 63 ∧
    (parse_blockAt "\x7b 42 \x7d" 64).1 =
      Except.error (PErr.nova (NovaError.NestingTooDeep 64 64 (Span.mk 0 1))) ∧
    fstOk (parse_exprAt "42" 63) = true ∧
    (parse_exprAt "42" 63).2.expr_depth = 63 ∧
    (parse_exprAt "42" 64).1 =
      Except.error (PErr.nova (NovaError.NestingTooDeep 64 64 (Span.mk 0 2))) ∧
    isOkProgram (parseNova ("fn main() \x7b " ++ repStr 70 "-" ++ "1; \x7d")) = true := by
  refine ⟨by rfl, by rfl, by rfl, by rfl, by rfl, by rfl, by rfl, by rfl, by rfl⟩


/-!
Lexer byte accounting and the Eof invariant (claim C9).
-/

theorem takeW_bytes (p : Char → Bool) :
    ∀ (cur : Nat) (l : List Char),
      (takeW p cur l).1 + utf8Len (takeW p cur l).2 = cur + utf8Len l := by
  intro cur l
  induction l generalizing cur with
  | nil => simp [takeW, utf8Len]
  | cons c rs ih =>
    simp only [takeW]
    by_cases h : p c
    · rw [if_pos h]
      have := ih (cur + csize c)
      simp only [utf8Len]
      omega
    · rw [if_neg h]

theorem takeWText_bytes (p : Char → Bool) :
    ∀ (cur : Nat) (l : List Char),
      (takeWText p cur l).1 + utf8Len (takeWText p cur l).2.2 = cur + utf8Len l := by
  intro cur l
  induction l generalizing cur with
  | nil => simp [takeWText, utf8Len]
  | cons c rs ih =>
    simp only [takeWText]
    by_cases h : p c
    · rw [if_pos h]
      have := ih (cur + csize c)
      rcases hr : takeWText p (cur + csize c) rs with ⟨c2, t, r⟩
      rw [hr] at this
      simp only [utf8Len]
      simp at this ⊢
      omega
    · rw [if_neg h]

theorem skipLine_bytes :
    ∀ (cur : Nat) (l : List Char),
      (skipLine cur l).1 + utf8Len (skipLine cur l).2 = cur + utf8Len l := by
  intro cur l
  induction l generalizing cur with
  | nil => simp [skipLine, utf8Len]
  | cons c rs ih =>
    simp only [skipLine]
    by_cases h : c = '\n'
    · rw [if_pos h]
    · rw [if_neg h]
      have := ih (cur + csize c)
      simp only [utf8Len]
      omega

theorem skipBlock_bytes :
    ∀ (d cur : Nat) (l : List Char),
      (skipBlock d cur l).1 + utf8Len (skipBlock d cur l).2 = cur + utf8Len l := by
  intro d cur l
  induction d, cur, l using skipBlock.induct with
  | case1 cur l => simp [skipBlock]
  | case2 d cur => simp [skipBlock, utf8Len]
  | case3 d cur rs ih =>
    simp only [skipBlock]
    simp only [utf8Len] at ih ⊢
    have h1 : csize '*' = 1 := by decide
    have h2 : csize '/' = 1 := by decide
    omega
  | case4 d cur rs ih =>
    simp only [skipBlock]
    simp only [utf8Len] at ih ⊢
    have h1 : csize '*' = 1 := by decide
    have h2 : csize '/' = 1 := by decide
    omega
  | case5 d cur c rs h1 h2 ih =>
    simp only [skipBlock]
    simp only [utf8Len] at ih ⊢
    omega

theorem skipWs_bytes :
    ∀ (f cur : Nat) (l : List Char),
      (skipWs f cur l).1 + utf8Len (skipWs f cur l).2 = cur + utf8Len l := by
  intro f
  induction f with
  | zero => intro cur l; simp [skipWs]
  | succ f ih =>
    intro cur l
    match l with
    | [] => simp [skipWs, utf8Len]
    | c :: rs =>
      simp only [skipWs]
      by_cases hw : (c = ' ' || c = '\t' || c = '\n' || c = '\r' : Bool)
      · rw [if_pos hw]
        have := ih (cur + 1) rs
        have hc : csize c = 1 := by
          simp only [Bool.or_eq_true, decide_eq_true_eq] at hw
          rcases hw with ((h | h) | h) | h <;> subst h <;> decide
        simp only [utf8Len]
        omega
      · rw [if_neg hw]
        by_cases hs : c = '/'
        · rw [if_pos hs]
          subst hs
          split
          · next rs2 =>
            have h1 := skipLine_bytes (cur + 2) rs2
            have h2 := ih (skipLine (cur + 2) rs2).1 (skipLine (cur + 2) rs2).2
            have e1 : csize '/' = 1 := by decide
            simp only [utf8Len]
            omega
          · next rs2 =>
            have h1 := skipBlock_bytes 1 (cur + 2) rs2
            have h2 := ih (skipBlock 1 (cur + 2) rs2).1 (skipBlock 1 (cur + 2) rs2).2
            have e1 : csize '/' = 1 := by decide
            have e2 : csize '*' = 1 := by decide
            simp only [utf8Len]
            omega
          · rfl
        · rw [if_neg hs]

theorem match_char_bytes (cur : Nat) (l : List Char) (e : Char) (a b : TokenKind)
    (k : TokenKind) (cur2 : Nat) (rest : List Char)
    (h : match_char cur l e a b = (k, cur2, rest)) :
    cur2 + utf8Len rest = cur + utf8Len l := by
  unfold match_char at h
  split at h
  · next c rs =>
    by_cases hc : c = e
    · rw [if_pos hc] at h
      simp only [Prod.mk.injEq] at h
      obtain ⟨h1, h2, h3⟩ := h
      subst h3; subst hc
      simp only [utf8Len]
      omega
    · rw [if_neg hc] at h
      simp only [Prod.mk.injEq] at h
      obtain ⟨h1, h2, h3⟩ := h
      subst h3; omega
  · simp only [Prod.mk.injEq] at h
    obtain ⟨h1, h2, h3⟩ := h
    subst h3; omega

theorem lex_char_close_bytes (start cur : Nat) (l : List Char)
    (k : TokenKind) (cur2 : Nat) (rest : List Char)
    (h : lex_char_close start cur l = Except.ok (k, cur2, rest)) :
    cur2 + utf8Len rest = cur + utf8Len l := by
  unfold lex_char_close at h
  split at h
  · next rs =>
    simp only [Except.ok.injEq, Prod.mk.injEq] at h
    obtain ⟨h1, h2, h3⟩ := h
    subst h3
    have e1 : csize '\'' = 1 := by decide
    simp only [utf8Len]
    omega
  · cases h

theorem lex_char_bytes (start cur : Nat) (l : List Char)
    (k : TokenKind) (cur2 : Nat) (rest : List Char)
    (h : lex_char start cur l = Except.ok (k, cur2, rest)) :
    cur2 + utf8Len rest = cur + utf8Len l := by
  unfold lex_char at h
  split at h
  · cases h
  · next c rs =>
    by_cases hb : c = '\\'
    · rw [if_pos hb] at h
      split at h
      · cases h
      · next e rs2 =>
        have := lex_char_close_bytes start (cur + 1 + csize e) rs2 k cur2 rest h
        subst hb
        have e1 : csize '\\' = 1 := by decide
        simp only [utf8Len] at this ⊢
        omega
    · rw [if_neg hb] at h
      by_cases hq : c = '\''
      · rw [if_pos hq] at h; cases h
      · rw [if_neg hq] at h
        have := lex_char_close_bytes start (cur + csize c) rs k cur2 rest h
        simp only [utf8Len] at this ⊢
        omega

theorem lex_string_bytes :
    ∀ (start cur : Nat) (l : List Char) (k : TokenKind) (cur2 : Nat) (rest : List Char),
      lex_string start cur l = Except.ok (k, cur2, rest) →
      cur2 + utf8Len rest = cur + utf8Len l := by
  intro start cur l
  induction cur, l using lex_string.induct with
  | start => exact start
  | case1 cur => intro k cur2 rest h; exact absurd h (by rw [lex_string.eq_def]; simp)
  | case2 cur rs =>
    intro k cur2 rest h
    rw [lex_string.eq_def] at h
    simp at h
    obtain ⟨h1, h2, h3⟩ := h
    subst h3
    have e1 : csize '\"' = 1 := by decide
    simp only [utf8Len]
    omega
  | case3 cur hne =>
    intro k cur2 rest h
    rw [lex_string.eq_def] at h
    simp at h
  | case4 cur c rs hne ih =>
    intro k cur2 rest h
    rw [lex_string.eq_def] at h
    simp at h
    have := ih k cur2 rest h
    have e1 : csize '\\' = 1 := by decide
    simp only [utf8Len] at this ⊢
    omega
  | case5 cur c rs hq hb ih =>
    intro k cur2 rest h
    rw [lex_string.eq_def] at h
    simp [hq, hb] at h
    have := ih k cur2 rest h
    simp only [utf8Len] at this ⊢
    omega

theorem lex_exponent_bytes (cur : Nat) (l : List Char) :
    (lex_exponent cur l).2.1 + utf8Len (lex_exponent cur l).2.2 = cur + utf8Len l := by
  unfold lex_exponent
  split
  · simp [utf8Len]
  · next c rs =>
    by_cases hce : (c = 'e' || c = 'E' : Bool)
    · rw [if_pos hce]
      have hc1 : csize c = 1 := by
        simp only [Bool.or_eq_true, decide_eq_true_eq] at hce
        rcases hce with h | h <;> subst h <;> decide
      split
      · next s rs2 =>
        by_cases hsg : (s = '+' || s = '-' : Bool)
        · rw [if_pos hsg]
          have hs1 : csize s = 1 := by
            simp only [Bool.or_eq_true, decide_eq_true_eq] at hsg
            rcases hsg with h | h <;> subst h <;> decide
          have h1 := takeW_bytes isDigitUnd (cur + 2) rs2
          simp only [utf8Len] at h1 ⊢
          omega
        · rw [if_neg hsg]
          have h1 := takeW_bytes isDigitUnd (cur + 1) (s :: rs2)
          simp only [utf8Len] at h1 ⊢
          omega
      · simp [utf8Len]
        omega
    · rw [if_neg hce]

theorem lex_fraction_bytes (cur1 : Nat) (l1 : List Char) :
    (lex_fraction cur1 l1).2.1 + utf8Len (lex_fraction cur1 l1).2.2 = cur1 + utf8Len l1 := by
  unfold lex_fraction
  split
  · next d rs2 =>
    by_cases hd : d.isDigit
    · rw [if_pos hd]
      rcases e2 : takeW isDigitUnd (cur1 + 1) (d :: rs2) with ⟨cur2, l2⟩
      have h2 := takeW_bytes isDigitUnd (cur1 + 1) (d :: rs2)
      rw [e2] at h2
      dsimp only at h2 ⊢
      have ed : csize '.' = 1 := by decide
      simp only [utf8Len] at h2 ⊢
      omega
    · rw [if_neg hd]
  · rfl

theorem lex_number_body_bytes (cur : Nat) (l : List Char) :
    (lex_number_body cur l).2.1 + utf8Len (lex_number_body cur l).2.2 = cur + utf8Len l := by
  unfold lex_number_body
  rcases e1 : takeW isDigitUnd cur l with ⟨cur1, l1⟩
  have h1 := takeW_bytes isDigitUnd cur l
  rw [e1] at h1
  dsimp only at h1 ⊢
  rcases e2 : lex_fraction cur1 l1 with ⟨isf, curf, lf⟩
  have h2 := lex_fraction_bytes cur1 l1
  rw [e2] at h2
  dsimp only at h2 ⊢
  rcases e3 : lex_exponent curf lf with ⟨ise, cure, le⟩
  have h3 := lex_exponent_bytes curf lf
  rw [e3] at h3
  dsimp only at h3 ⊢
  split <;> (dsimp only; omega)

theorem lex_number_bytes (c0 : Char) (cur : Nat) (l : List Char) :
    (lex_number c0 cur l).2.1 + utf8Len (lex_number c0 cur l).2.2 = cur + utf8Len l := by
  unfold lex_number
  by_cases h0 : c0 = '0'
  · rw [if_pos h0]
    split
    · next c rs =>
      by_cases hx : (c = 'x' || c = 'X' : Bool)
      · rw [if_pos hx]
        have hc : csize c = 1 := by
          simp only [Bool.or_eq_true, decide_eq_true_eq] at hx
          rcases hx with h | h <;> subst h <;> decide
        rcases e1 : takeW isHexUnd (cur + 1) rs with ⟨cur2, l2⟩
        have h1 := takeW_bytes isHexUnd (cur + 1) rs
        rw [e1] at h1
        dsimp only at h1 ⊢
        simp only [utf8Len] at h1 ⊢
        omega
      · rw [if_neg hx]
        by_cases hb : (c = 'b' || c = 'B' : Bool)
        · rw [if_pos hb]
          have hc : csize c = 1 := by
            simp only [Bool.or_eq_true, decide_eq_true_eq] at hb
            rcases hb with h | h <;> subst h <;> decide
          rcases e1 : takeW isBinUnd (cur + 1) rs with ⟨cur2, l2⟩
          have h1 := takeW_bytes isBinUnd (cur + 1) rs
          rw [e1] at h1
          dsimp only at h1 ⊢
          simp only [utf8Len] at h1 ⊢
          omega
        · rw [if_neg hb]
          by_cases ho : (c = 'o' || c = 'O' : Bool)
          · rw [if_pos ho]
            have hc : csize c = 1 := by
              simp only [Bool.or_eq_true, decide_eq_true_eq] at ho
              rcases ho with h | h <;> subst h <;> decide
            rcases e1 : takeW isOctUnd (cur + 1) rs with ⟨cur2, l2⟩
            have h1 := takeW_bytes isOctUnd (cur + 1) rs
            rw [e1] at h1
            dsimp only at h1 ⊢
            simp only [utf8Len] at h1 ⊢
            omega
          · rw [if_neg ho]
            exact lex_number_body_bytes cur (c :: rs)
    · exact lex_number_body_bytes cur []
  · rw [if_neg h0]
    exact lex_number_body_bytes cur l

theorem lex_identifier_bytes (c0 : Char) (cur : Nat) (l : List Char) :
    (lex_identifier c0 cur l).2.1 + utf8Len (lex_identifier c0 cur l).2.2 = cur + utf8Len l := by
  unfold lex_identifier
  rcases e1 : takeWText isIdentCont cur l with ⟨cur2, text, rest⟩
  have h1 := takeWText_bytes isIdentCont cur l
  rw [e1] at h1
  dsimp only at h1 ⊢
  omega

theorem match_char_bytes_total (cur : Nat) (l : List Char) (e : Char) (a b : TokenKind) :
    (match_char cur l e a b).2.1 + utf8Len (match_char cur l e a b).2.2 = cur + utf8Len l := by
  unfold match_char
  split
  · next c rs =>
    by_cases hc : c = e
    · rw [if_pos hc]
      subst hc
      dsimp only
      simp only [utf8Len]
      omega
    · rw [if_neg hc]
  · rfl

theorem lex_token_bytes :
    ∀ (c0 : Char) (start cur : Nat) (l : List Char) (k : TokenKind) (cur2 : Nat) (rest : List Char),
      lex_token c0 start cur l = Except.ok (k, cur2, rest) →
      cur2 + utf8Len rest = cur + utf8Len l := by
  intro c0 start cur l k cur2 rest h
  have g1 : csize '>' = 1 := by decide
  have g2 : csize '=' = 1 := by decide
  have g3 : csize '<' = 1 := by decide
  have g4 : csize '&' = 1 := by decide
  have g5 : csize '|' = 1 := by decide
  have g6 : csize '.' = 1 := by decide
  unfold lex_token at h
  split at h
  all_goals try split at h
  all_goals try split at h
  all_goals
    first
    | exact lex_string_bytes _ _ _ _ _ _ h
    | exact lex_char_bytes _ _ _ _ _ _ h
    | exact Except.noConfusion h
    | (injection h with h;
       have hb := congrArg (fun p => p.2.1 + utf8Len p.2.2) h
       dsimp only at hb
       rw [← hb] <;>
       first
       | exact lex_number_bytes _ _ _
       | exact lex_identifier_bytes _ _ _
       | exact match_char_bytes_total _ _ _ _ _
       | ((try simp only [utf8Len]); omega))

theorem getLast?_cons_ne (a : Token) (l : List Token) (h : l ≠ []) :
    (a :: l).getLast? = l.getLast? := by
  cases l with
  | nil => exact absurd rfl h
  | cons b bs => simp [List.getLast?]

theorem lex_all_eof :
    ∀ (f cur : Nat) (l : List Char) (toks : List Token),
      lex_all f cur l = Except.ok toks →
      toks ≠ [] ∧ toks.getLast? = some (Token.eof (cur + utf8Len l)) := by
  intro f
  induction f with
  | zero => intro cur l toks h; exact absurd h (by simp [lex_all])
  | succ f ih =>
    intro cur l toks h
    rw [lex_all.eq_def] at h
    dsimp only at h
    rcases ew : skipWs (l.length + 1) cur l with ⟨start, l1⟩
    rw [ew] at h
    have hw := skipWs_bytes (l.length + 1) cur l
    rw [ew] at hw
    dsimp only at hw
    cases l1 with
    | nil =>
      dsimp only at h
      injection h with h
      subst h
      have hs : start = cur + utf8Len l := by
        simp only [utf8Len] at hw
        omega
      subst hs
      exact ⟨by simp, by simp [List.getLast?]⟩
    | cons c rs =>
      dsimp only at h
      rcases et : lex_token c start (start + csize c) rs with e | ⟨k, cur2, rest⟩
      · rw [et] at h; exact Except.noConfusion h
      · rw [et] at h
        dsimp only at h
        rcases ea : lex_all f cur2 rest with e2 | toks2
        · rw [ea] at h; exact Except.noConfusion h
        · rw [ea] at h
          dsimp only at h
          injection h with h
          subst h
          obtain ⟨hne, hlast⟩ := ih cur2 rest toks2 ea
          have hbt := lex_token_bytes c start (start + csize c) rs k cur2 rest et
          refine ⟨by simp, ?_⟩
          rw [getLast?_cons_ne _ _ hne, hlast]
          have hpos : cur2 + utf8Len rest = cur + utf8Len l := by
            simp only [utf8Len] at hw
            omega
          rw [hpos]

/-- C9: for every character sequence on which the lexer succeeds, the
returned token list is non-empty and its last token is an Eof token
whose span starts and stops at the byte length of the source; and
Token.eof pos constructs exactly the token (Eof, [pos, pos)). -/
theorem C9_eof_invariant :
    (∀ (l : List Char) (toks : List Token),
        lexChars l = Except.ok toks →
        toks ≠ [] ∧
          toks.getLast? =
            some (Token.new TokenKind.Eof { start := utf8Len l, stop := utf8Len l })) ∧
    ∀ pos : Nat, Token.eof pos = Token.new TokenKind.Eof { start := pos, stop := pos } := by
  constructor
  · intro l toks h
    have hh := lex_all_eof (l.length + 1) 0 l toks h
    simpa [Token.eof] using hh
  · intro pos
    rfl

/-- Witness for C9 at the source "let x = 42". -/
theorem C9_eof_invariant_witness :
    ([Token.new TokenKind.Let (Span.mk 0 3), Token.new TokenKind.Ident (Span.mk 4 5),
      Token.new TokenKind.Eq (Span.mk 6 7), Token.new TokenKind.IntLit (Span.mk 8 10),
      Token.new TokenKind.Eof (Span.mk 10 10)] : List Token) ≠ [] ∧
    ([Token.new TokenKind.Let (Span.mk 0 3), Token.new TokenKind.Ident (Span.mk 4 5),
      Token.new TokenKind.Eq (Span.mk 6 7), Token.new TokenKind.IntLit (Span.mk 8 10),
      Token.new TokenKind.Eof (Span.mk 10 10)]).getLast? =
      some (Token.new TokenKind.Eof { start := utf8Len "let x = 42".toList,
                                      stop := utf8Len "let x = 42".toList }) :=
  C9_eof_invariant.1 "let x = 42".toList _ rfl

/-!
Depth-counter steadiness of the parser (claim C8).
-/

theorem fixed_steady {α : Type} {m : PM α} (h : Fixed m) : Steady m :=
  fun s _ => ⟨(h s).1, fun _ _ => (h s).2⟩

theorem fixed_pure {α : Type} (a : α) : Fixed (pure a : PM α) := fun _ => ⟨rfl, rfl⟩

theorem fixed_throwN {α : Type} (e : NovaError) : Fixed (throwN e : PM α) := fun _ => ⟨rfl, rfl⟩

theorem fixed_throwPanic {α : Type} (msg : String) : Fixed (throwPanic msg : PM α) :=
  fun _ => ⟨rfl, rfl⟩

theorem fixed_throwFuel {α : Type} : Fixed (throwFuel : PM α) := fun _ => ⟨rfl, rfl⟩

theorem fixed_getS : Fixed getS := fun _ => ⟨rfl, rfl⟩

theorem fixed_liftE {α : Type} (r : Except NovaError α) : Fixed (liftE r) := by
  intro s
  unfold liftE
  split <;> exact ⟨rfl, rfl⟩

theorem fixed_peekP : Fixed peekP := by
  intro s
  unfold peekP
  split
  · exact ⟨rfl, rfl⟩
  · split <;> exact ⟨rfl, rfl⟩

theorem fixed_modify_cur : Fixed (modifyS (fun s => { s with current := s.current + 1 })) :=
  fun _ => ⟨rfl, rfl⟩

theorem fixed_bind {α β : Type} {m : PM α} {k : α → PM β}
    (hm : Fixed m) (hk : ∀ a, Fixed (k a)) : Fixed (m >>= k) := by
  intro s
  have h1 := hm s
  show ((PM.bindM m k) s).2.expr_depth = s.expr_depth ∧
       ((PM.bindM m k) s).2.block_depth = s.block_depth
  unfold PM.bindM
  rcases e : m s with ⟨r, s1⟩
  rw [e] at h1
  cases r with
  | ok a =>
    have h2 := hk a s1
    dsimp only at h1 ⊢
    exact ⟨h2.1.trans h1.1, h2.2.trans h1.2⟩
  | error er =>
    dsimp only at h1 ⊢
    exact h1

theorem fixed_is_at_endP : Fixed is_at_endP := by
  unfold is_at_endP
  exact fixed_bind fixed_peekP (fun _ => fixed_pure _)

theorem fixed_advanceP : Fixed advanceP := by
  unfold advanceP
  refine fixed_bind fixed_peekP (fun t => ?_)
  refine fixed_bind fixed_is_at_endP (fun e => ?_)
  split
  · exact fixed_pure _
  · exact fixed_bind fixed_modify_cur (fun _ => fixed_pure _)

theorem fixed_checkP (k : TokenKind) : Fixed (checkP k) := by
  unfold checkP
  exact fixed_bind fixed_peekP (fun _ => fixed_pure _)

theorem fixed_expectP (k : TokenKind) : Fixed (expectP k) := by
  unfold expectP
  refine fixed_bind (fixed_checkP k) (fun c => ?_)
  split
  · exact fixed_advanceP
  · exact fixed_bind fixed_peekP (fun t => fixed_throwN _)

theorem fixed_parse_ident : Fixed parse_ident := by
  unfold parse_ident
  refine fixed_bind fixed_peekP (fun t => ?_)
  split
  · exact fixed_bind fixed_advanceP (fun tok =>
      fixed_bind fixed_getS (fun st => fixed_pure _))
  · exact fixed_throwN _

theorem fixed_parse_pattern : Fixed parse_pattern := by
  unfold parse_pattern
  repeat' first
    | exact fixed_pure _
    | exact fixed_throwN _
    | exact fixed_peekP
    | exact fixed_getS
    | exact fixed_advanceP
    | exact fixed_liftE _
    | apply fixed_bind
    | split
    | intro a

theorem nonPanic_error {α β : Type} {er : PErr}
    (h : NonPanic (Except.error er : Except PErr β)) :
    NonPanic (Except.error er : Except PErr α) := by
  cases er <;> simp [NonPanic] at h ⊢

theorem steady_bind {α β : Type} {m : PM α} {k : α → PM β}
    (hm : Steady m) (hk : ∀ a, Steady (k a)) : Steady (m >>= k) := by
  intro s hnp
  have e0 : (m >>= k) s = match m s with
      | (Except.ok a, s1) => k a s1
      | (Except.error e, s1) => (Except.error e, s1) := rfl
  rcases e : m s with ⟨r, s1⟩
  rw [e] at e0
  cases r with
  | ok a =>
    dsimp only at e0
    rw [e0] at hnp ⊢
    have h1 := hm s (by rw [e]; trivial)
    rw [e] at h1
    dsimp only at h1
    have h2 := hk a s1 hnp
    exact ⟨h2.1.trans h1.1, fun b hb => (h2.2 b hb).trans (h1.2 a rfl)⟩
  | error er =>
    dsimp only at e0
    rw [e0] at hnp ⊢
    dsimp only at hnp
    have h1 := hm s (by rw [e]; exact nonPanic_error hnp)
    rw [e] at h1
    dsimp only at h1
    exact ⟨h1.1, fun b hb => Except.noConfusion hb⟩

/-- Run-equation of the bind of the parser monad. -/
theorem run_bind {α β : Type} (m : PM α) (k : α → PM β) (s : PState) :
    (m >>= k) s = match m s with
      | (Except.ok a, s1) => k a s1
      | (Except.error e, s1) => (Except.error e, s1) := rfl

theorem run_pure {α : Type} (a : α) (s : PState) :
    (pure a : PM α) s = (Except.ok a, s) := rfl

theorem peekP_error (s : PState) (er : PErr) (s1 : PState)
    (h : peekP s = (Except.error er, s1)) :
    er = PErr.panicStub "Token stream is empty" := by
  unfold peekP at h
  split at h
  · simp at h
  · split at h
    · simp at h
    · simp only [Prod.mk.injEq, Except.error.injEq] at h
      exact h.1.symm

theorem steady_parse_expr (f : Nat) (ih : ∀ mb, Steady (parse_expr_bp f mb)) :
    Steady (parse_expr (f + 1)) := by
  intro s hnp
  simp only [parse_expr] at hnp ⊢
  rw [run_bind] at hnp ⊢
  simp only [modifyS] at hnp ⊢
  rw [run_bind] at hnp ⊢
  simp only [getS] at hnp ⊢
  by_cases h64 : s.expr_depth + 1 > MAX_EXPR_DEPTH
  · rw [if_pos h64] at hnp ⊢
    rw [run_bind] at hnp ⊢
    rcases e : peekP { s with expr_depth := s.expr_depth + 1 } with ⟨r, s1⟩
    rw [e] at hnp
    cases r with
    | ok t =>
      try dsimp only at hnp ⊢
      rw [run_bind] at hnp ⊢
      simp only [modifyS] at hnp ⊢
      rw [run_bind] at hnp ⊢
      simp only [getS, throwN] at hnp ⊢
      have fp := fixed_peekP { s with expr_depth := s.expr_depth + 1 }
      rw [e] at fp
      obtain ⟨fp1, fp2⟩ := fp
      dsimp only at fp1 fp2 ⊢
      exact ⟨by omega, fun b hb => Except.noConfusion hb⟩
    | error er =>
      have hper := peekP_error _ _ _ e
      subst hper
      dsimp only at hnp
      exact hnp.elim
  · rw [if_neg h64] at hnp ⊢
    simp only [andFinally] at hnp ⊢
    rcases e : parse_expr_bp f 0 { s with expr_depth := s.expr_depth + 1 } with ⟨r, s1⟩
    rw [e] at hnp
    try dsimp only at hnp ⊢
    have hbp := ih 0 { s with expr_depth := s.expr_depth + 1 } (by rw [e]; exact hnp)
    rw [e] at hbp
    obtain ⟨hbp1, hbp2⟩ := hbp
    dsimp only at hbp1 hbp2 ⊢
    refine ⟨by omega, ?_⟩
    intro b hb
    cases r with
    | ok a =>
      have hb2 := hbp2 a rfl
      try dsimp only at hb2 ⊢
      omega
    | error er => exact Except.noConfusion hb

theorem steady_parse_block (f : Nat) (ih : ∀ acc, Steady (parse_block_stmts f acc)) :
    Steady (parse_block (f + 1)) := by
  intro s hnp
  simp only [parse_block] at hnp ⊢
  rw [run_bind] at hnp ⊢
  simp only [modifyS] at hnp ⊢
  rw [run_bind] at hnp ⊢
  simp only [getS] at hnp ⊢
  by_cases h64 : s.block_depth + 1 > MAX_BLOCK_DEPTH
  · rw [if_pos h64] at hnp ⊢
    rw [run_bind] at hnp ⊢
    rcases e : peekP { s with block_depth := s.block_depth + 1 } with ⟨r, s1⟩
    rw [e] at hnp
    cases r with
    | ok t =>
      try dsimp only at hnp ⊢
      rw [run_bind] at hnp ⊢
      simp only [modifyS] at hnp ⊢
      rw [run_bind] at hnp ⊢
      simp only [getS, throwN] at hnp ⊢
      have fp := fixed_peekP { s with block_depth := s.block_depth + 1 }
      rw [e] at fp
      obtain ⟨fp1, fp2⟩ := fp
      dsimp only at fp1 fp2 ⊢
      exact ⟨by omega, fun b hb => Except.noConfusion hb⟩
    | error er =>
      have hper := peekP_error _ _ _ e
      subst hper
      dsimp only at hnp
      exact hnp.elim
  · rw [if_neg h64] at hnp ⊢
    rw [run_bind] at hnp ⊢
    rcases e1 : expectP TokenKind.LBrace { s with block_depth := s.block_depth + 1 }
      with ⟨r1, s2⟩
    rw [e1] at hnp
    have f1 := fixed_expectP TokenKind.LBrace { s with block_depth := s.block_depth + 1 }
    rw [e1] at f1
    obtain ⟨f11, f12⟩ := f1
    dsimp only at f11 f12
    cases r1 with
    | error er1 =>
      try dsimp only at hnp ⊢
      exact ⟨by omega, fun b hb => Except.noConfusion hb⟩
    | ok lb =>
      try dsimp only at hnp ⊢
      rw [run_bind] at hnp ⊢
      rcases e2 : parse_block_stmts f [] s2 with ⟨r2, s3⟩
      rw [e2] at hnp
      cases r2 with
      | error er2 =>
        dsimp only at hnp
        have hst := ih [] s2 (by rw [e2]; exact nonPanic_error hnp)
        rw [e2] at hst
        obtain ⟨hst1, hst2⟩ := hst
        dsimp only at hst1 hnp ⊢
        exact ⟨by omega, fun b hb => Except.noConfusion hb⟩
      | ok stmts =>
        have hst := ih [] s2 (by rw [e2]; trivial)
        rw [e2] at hst
        obtain ⟨hst1, hst2⟩ := hst
        have hst2b := hst2 stmts rfl
        dsimp only at hst1 hst2b
        try dsimp only at hnp ⊢
        rw [run_bind] at hnp ⊢
        rcases e3 : expectP TokenKind.RBrace s3 with ⟨r3, s4⟩
        rw [e3] at hnp
        have f3 := fixed_expectP TokenKind.RBrace s3
        rw [e3] at f3
        obtain ⟨f31, f32⟩ := f3
        dsimp only at f31 f32
        cases r3 with
        | error er3 =>
          try dsimp only at hnp ⊢
          exact ⟨by omega, fun b hb => Except.noConfusion hb⟩
        | ok rb =>
          try dsimp only at hnp ⊢
          rw [run_bind] at hnp ⊢
          simp only [modifyS] at hnp ⊢
          try rw [run_pure] at hnp ⊢
          try dsimp only at hnp ⊢
          refine ⟨by omega, ?_⟩
          intro b hb
          try dsimp only
          omega

set_option maxHeartbeats 4000000 in
theorem steady_all : ∀ f, SteadyAll f := by
  intro f
  induction f with
  | zero =>
    unfold SteadyAll
    refine ⟨?_, ?_, fun acc => ?_, ?_, fun acc => ?_, ?_, ?_, ?_, fun mb => ?_,
      fun mb lhs => ?_, ?_, ?_, fun acc => ?_, fun acc => ?_, ?_, fun acc start => ?_,
      ?_, fun acc => ?_, ?_, fun acc => ?_, fun acc => ?_, ?_, fun acc => ?_, ?_,
      fun acc => ?_, ?_, fun acc => ?_, ?_, fun acc => ?_, fun acc => ?_, ?_, ?_, ?_,
      ?_, ?_, ?_, fun acc => ?_, ?_, ?_, fun acc => ?_, fun acc => ?_⟩
    all_goals exact fixed_steady fixed_throwFuel
  | succ f ih =>
    obtain ⟨ih1, ih2, ih3, ih4, ih5, ih6, ih7, ih8, ih9, ih10, ih11, ih12, ih13, ih14,
      ih15, ih16, ih17, ih18, ih19, ih20, ih21, ih22, ih23, ih24, ih25, ih26, ih27,
      ih28, ih29, ih30, ih31, ih32, ih33, ih34, ih35, ih36, ih37, ih38, ih39, ih40,
      ih41⟩ := ih
    unfold SteadyAll
    refine ⟨?_, ?_, fun acc => ?_, ?_, fun acc => ?_, ?_, ?_, ?_, fun mb => ?_,
      fun mb lhs => ?_, ?_, ?_, fun acc => ?_, fun acc => ?_, ?_, fun acc start => ?_,
      ?_, fun acc => ?_, ?_, fun acc => ?_, fun acc => ?_, ?_, fun acc => ?_, ?_,
      fun acc => ?_, ?_, fun acc => ?_, ?_, fun acc => ?_, fun acc => ?_, ?_, ?_, ?_,
      ?_, ?_, ?_, fun acc => ?_, ?_, ?_, fun acc => ?_, fun acc => ?_⟩
    · simp only [parse_item]
      repeat' first
        | exact ih2
        | exact ih26
        | exact ih28
        | exact ih31
        | exact ih32
        | exact ih33
        | exact ih34
        | exact fixed_steady (fixed_pure _)
        | exact fixed_steady (fixed_throwN _)
        | exact fixed_steady (fixed_throwPanic _)
        | exact fixed_steady fixed_peekP
        | exact fixed_steady fixed_getS
        | exact fixed_steady fixed_advanceP
        | exact fixed_steady (fixed_checkP _)
        | exact fixed_steady (fixed_expectP _)
        | exact fixed_steady fixed_is_at_endP
        | exact fixed_steady fixed_parse_ident
        | exact fixed_steady fixed_parse_pattern
        | exact fixed_steady (fixed_liftE _)
        | apply steady_bind
        | split
        | intro a
    · simp only [parse_function]
      repeat' first
        | exact ih19
        | exact ih3 _
        | exact ih17
        | exact ih24
        | exact ih4
        | exact fixed_steady (fixed_pure _)
        | exact fixed_steady (fixed_throwN _)
        | exact fixed_steady (fixed_throwPanic _)
        | exact fixed_steady fixed_peekP
        | exact fixed_steady fixed_getS
        | exact fixed_steady fixed_advanceP
        | exact fixed_steady (fixed_checkP _)
        | exact fixed_steady (fixed_expectP _)
        | exact fixed_steady fixed_is_at_endP
        | exact fixed_steady fixed_parse_ident
        | exact fixed_steady fixed_parse_pattern
        | exact fixed_steady (fixed_liftE _)
        | apply steady_bind
        | split
        | intro a
    · simp only [parse_params_loop]
      repeat' first
        | exact ih17
        | exact ih3 _
        | exact fixed_steady (fixed_pure _)
        | exact fixed_steady (fixed_throwN _)
        | exact fixed_steady (fixed_throwPanic _)
        | exact fixed_steady fixed_peekP
        | exact fixed_steady fixed_getS
        | exact fixed_steady fixed_advanceP
        | exact fixed_steady (fixed_checkP _)
        | exact fixed_steady (fixed_expectP _)
        | exact fixed_steady fixed_is_at_endP
        | exact fixed_steady fixed_parse_ident
        | exact fixed_steady fixed_parse_pattern
        | exact fixed_steady (fixed_liftE _)
        | apply steady_bind
        | split
        | intro a
    · exact steady_parse_block f ih5
    · simp only [parse_block_stmts]
      repeat' first
        | exact ih6
        | exact ih5 _
        | exact fixed_steady (fixed_pure _)
        | exact fixed_steady (fixed_throwN _)
        | exact fixed_steady (fixed_throwPanic _)
        | exact fixed_steady fixed_peekP
        | exact fixed_steady fixed_getS
        | exact fixed_steady fixed_advanceP
        | exact fixed_steady (fixed_checkP _)
        | exact fixed_steady (fixed_expectP _)
        | exact fixed_steady fixed_is_at_endP
        | exact fixed_steady fixed_parse_ident
        | exact fixed_steady fixed_parse_pattern
        | exact fixed_steady (fixed_liftE _)
        | apply steady_bind
        | split
        | intro a
    · simp only [parse_stmt]
      repeat' first
        | exact ih7
        | exact ih1
        | exact ih8
        | exact fixed_steady (fixed_pure _)
        | exact fixed_steady (fixed_throwN _)
        | exact fixed_steady (fixed_throwPanic _)
        | exact fixed_steady fixed_peekP
        | exact fixed_steady fixed_getS
        | exact fixed_steady fixed_advanceP
        | exact fixed_steady (fixed_checkP _)
        | exact fixed_steady (fixed_expectP _)
        | exact fixed_steady fixed_is_at_endP
        | exact fixed_steady fixed_parse_ident
        | exact fixed_steady fixed_parse_pattern
        | exact fixed_steady (fixed_liftE _)
        | apply steady_bind
        | split
        | intro a
    · simp only [parse_let_stmt]
      repeat' first
        | exact ih17
        | exact ih8
        | exact fixed_steady (fixed_pure _)
        | exact fixed_steady (fixed_throwN _)
        | exact fixed_steady (fixed_throwPanic _)
        | exact fixed_steady fixed_peekP
        | exact fixed_steady fixed_getS
        | exact fixed_steady fixed_advanceP
        | exact fixed_steady (fixed_checkP _)
        | exact fixed_steady (fixed_expectP _)
        | exact fixed_steady fixed_is_at_endP
        | exact fixed_steady fixed_parse_ident
        | exact fixed_steady fixed_parse_pattern
        | exact fixed_steady (fixed_liftE _)
        | apply steady_bind
        | split
        | intro a
    · exact steady_parse_expr f ih9
    · simp only [parse_expr_bp]
      repeat' first
        | exact ih11
        | exact ih10 _ _
        | exact fixed_steady (fixed_pure _)
        | exact fixed_steady (fixed_throwN _)
        | exact fixed_steady (fixed_throwPanic _)
        | exact fixed_steady fixed_peekP
        | exact fixed_steady fixed_getS
        | exact fixed_steady fixed_advanceP
        | exact fixed_steady (fixed_checkP _)
        | exact fixed_steady (fixed_expectP _)
        | exact fixed_steady fixed_is_at_endP
        | exact fixed_steady fixed_parse_ident
        | exact fixed_steady fixed_parse_pattern
        | exact fixed_steady (fixed_liftE _)
        | apply steady_bind
        | split
        | intro a
    · simp only [parse_expr_bp_loop]
      repeat' first
        | exact ih9 _
        | exact ih10 _ _
        | exact ih40 _
        | exact ih8
        | exact fixed_steady (fixed_pure _)
        | exact fixed_steady (fixed_throwN _)
        | exact fixed_steady (fixed_throwPanic _)
        | exact fixed_steady fixed_peekP
        | exact fixed_steady fixed_getS
        | exact fixed_steady fixed_advanceP
        | exact fixed_steady (fixed_checkP _)
        | exact fixed_steady (fixed_expectP _)
        | exact fixed_steady fixed_is_at_endP
        | exact fixed_steady fixed_parse_ident
        | exact fixed_steady fixed_parse_pattern
        | exact fixed_steady (fixed_liftE _)
        | apply steady_bind
        | split
        | intro a
    · simp only [parsePrefix]
      repeat' first
        | exact ih9 _
        | exact ih12
        | exact fixed_steady (fixed_pure _)
        | exact fixed_steady (fixed_throwN _)
        | exact fixed_steady (fixed_throwPanic _)
        | exact fixed_steady fixed_peekP
        | exact fixed_steady fixed_getS
        | exact fixed_steady fixed_advanceP
        | exact fixed_steady (fixed_checkP _)
        | exact fixed_steady (fixed_expectP _)
        | exact fixed_steady fixed_is_at_endP
        | exact fixed_steady fixed_parse_ident
        | exact fixed_steady fixed_parse_pattern
        | exact fixed_steady (fixed_liftE _)
        | apply steady_bind
        | split
        | intro a
    · simp only [parse_primary]
      repeat' first
        | exact ih15
        | exact ih8
        | exact ih13 _
        | exact ih14 _
        | exact ih4
        | exact ih35
        | exact ih36
        | exact ih38
        | exact ih39
        | exact fixed_steady (fixed_pure _)
        | exact fixed_steady (fixed_throwN _)
        | exact fixed_steady (fixed_throwPanic _)
        | exact fixed_steady fixed_peekP
        | exact fixed_steady fixed_getS
        | exact fixed_steady fixed_advanceP
        | exact fixed_steady (fixed_checkP _)
        | exact fixed_steady (fixed_expectP _)
        | exact fixed_steady fixed_is_at_endP
        | exact fixed_steady fixed_parse_ident
        | exact fixed_steady fixed_parse_pattern
        | exact fixed_steady (fixed_liftE _)
        | apply steady_bind
        | split
        | intro a
    · simp only [parse_tuple_rest]
      repeat' first
        | exact ih8
        | exact ih13 _
        | exact fixed_steady (fixed_pure _)
        | exact fixed_steady (fixed_throwN _)
        | exact fixed_steady (fixed_throwPanic _)
        | exact fixed_steady fixed_peekP
        | exact fixed_steady fixed_getS
        | exact fixed_steady fixed_advanceP
        | exact fixed_steady (fixed_checkP _)
        | exact fixed_steady (fixed_expectP _)
        | exact fixed_steady fixed_is_at_endP
        | exact fixed_steady fixed_parse_ident
        | exact fixed_steady fixed_parse_pattern
        | exact fixed_steady (fixed_liftE _)
        | apply steady_bind
        | split
        | intro a
    · simp only [parse_array_elems]
      repeat' first
        | exact ih8
        | exact ih14 _
        | exact fixed_steady (fixed_pure _)
        | exact fixed_steady (fixed_throwN _)
        | exact fixed_steady (fixed_throwPanic _)
        | exact fixed_steady fixed_peekP
        | exact fixed_steady fixed_getS
        | exact fixed_steady fixed_advanceP
        | exact fixed_steady (fixed_checkP _)
        | exact fixed_steady (fixed_expectP _)
        | exact fixed_steady fixed_is_at_endP
        | exact fixed_steady fixed_parse_ident
        | exact fixed_steady fixed_parse_pattern
        | exact fixed_steady (fixed_liftE _)
        | apply steady_bind
        | split
        | intro a
    · simp only [parse_path]
      repeat' first
        | exact ih16 _ _
        | exact fixed_steady (fixed_pure _)
        | exact fixed_steady (fixed_throwN _)
        | exact fixed_steady (fixed_throwPanic _)
        | exact fixed_steady fixed_peekP
        | exact fixed_steady fixed_getS
        | exact fixed_steady fixed_advanceP
        | exact fixed_steady (fixed_checkP _)
        | exact fixed_steady (fixed_expectP _)
        | exact fixed_steady fixed_is_at_endP
        | exact fixed_steady fixed_parse_ident
        | exact fixed_steady fixed_parse_pattern
        | exact fixed_steady (fixed_liftE _)
        | apply steady_bind
        | split
        | intro a
    · simp only [parse_path_loop]
      repeat' first
        | exact ih22
        | exact ih16 _ _
        | exact fixed_steady (fixed_pure _)
        | exact fixed_steady (fixed_throwN _)
        | exact fixed_steady (fixed_throwPanic _)
        | exact fixed_steady fixed_peekP
        | exact fixed_steady fixed_getS
        | exact fixed_steady fixed_advanceP
        | exact fixed_steady (fixed_checkP _)
        | exact fixed_steady (fixed_expectP _)
        | exact fixed_steady fixed_is_at_endP
        | exact fixed_steady fixed_parse_ident
        | exact fixed_steady fixed_parse_pattern
        | exact fixed_steady (fixed_liftE _)
        | apply steady_bind
        | split
        | intro a
    · simp only [parse_type]
      repeat' first
        | exact ih17
        | exact ih18 _
        | exact ih8
        | exact ih15
        | exact fixed_steady (fixed_pure _)
        | exact fixed_steady (fixed_throwN _)
        | exact fixed_steady (fixed_throwPanic _)
        | exact fixed_steady fixed_peekP
        | exact fixed_steady fixed_getS
        | exact fixed_steady fixed_advanceP
        | exact fixed_steady (fixed_checkP _)
        | exact fixed_steady (fixed_expectP _)
        | exact fixed_steady fixed_is_at_endP
        | exact fixed_steady fixed_parse_ident
        | exact fixed_steady fixed_parse_pattern
        | exact fixed_steady (fixed_liftE _)
        | apply steady_bind
        | split
        | intro a
    · simp only [parse_type_tuple_rest]
      repeat' first
        | exact ih17
        | exact ih18 _
        | exact fixed_steady (fixed_pure _)
        | exact fixed_steady (fixed_throwN _)
        | exact fixed_steady (fixed_throwPanic _)
        | exact fixed_steady fixed_peekP
        | exact fixed_steady fixed_getS
        | exact fixed_steady fixed_advanceP
        | exact fixed_steady (fixed_checkP _)
        | exact fixed_steady (fixed_expectP _)
        | exact fixed_steady fixed_is_at_endP
        | exact fixed_steady fixed_parse_ident
        | exact fixed_steady fixed_parse_pattern
        | exact fixed_steady (fixed_liftE _)
        | apply steady_bind
        | split
        | intro a
    · simp only [parse_generics]
      repeat' first
        | exact ih20 _
        | exact fixed_steady (fixed_pure _)
        | exact fixed_steady (fixed_throwN _)
        | exact fixed_steady (fixed_throwPanic _)
        | exact fixed_steady fixed_peekP
        | exact fixed_steady fixed_getS
        | exact fixed_steady fixed_advanceP
        | exact fixed_steady (fixed_checkP _)
        | exact fixed_steady (fixed_expectP _)
        | exact fixed_steady fixed_is_at_endP
        | exact fixed_steady fixed_parse_ident
        | exact fixed_steady fixed_parse_pattern
        | exact fixed_steady (fixed_liftE _)
        | apply steady_bind
        | split
        | intro a
    · simp only [parse_generics_loop]
      repeat' first
        | exact ih17
        | exact ih21 _
        | exact ih20 _
        | exact fixed_steady (fixed_pure _)
        | exact fixed_steady (fixed_throwN _)
        | exact fixed_steady (fixed_throwPanic _)
        | exact fixed_steady fixed_peekP
        | exact fixed_steady fixed_getS
        | exact fixed_steady fixed_advanceP
        | exact fixed_steady (fixed_checkP _)
        | exact fixed_steady (fixed_expectP _)
        | exact fixed_steady fixed_is_at_endP
        | exact fixed_steady fixed_parse_ident
        | exact fixed_steady fixed_parse_pattern
        | exact fixed_steady (fixed_liftE _)
        | apply steady_bind
        | split
        | intro a
    · simp only [parse_bounds_rest]
      repeat' first
        | exact ih17
        | exact ih21 _
        | exact fixed_steady (fixed_pure _)
        | exact fixed_steady (fixed_throwN _)
        | exact fixed_steady (fixed_throwPanic _)
        | exact fixed_steady fixed_peekP
        | exact fixed_steady fixed_getS
        | exact fixed_steady fixed_advanceP
        | exact fixed_steady (fixed_checkP _)
        | exact fixed_steady (fixed_expectP _)
        | exact fixed_steady fixed_is_at_endP
        | exact fixed_steady fixed_parse_ident
        | exact fixed_steady fixed_parse_pattern
        | exact fixed_steady (fixed_liftE _)
        | apply steady_bind
        | split
        | intro a
    · simp only [parse_generic_args]
      repeat' first
        | exact ih23 _
        | exact fixed_steady (fixed_pure _)
        | exact fixed_steady (fixed_throwN _)
        | exact fixed_steady (fixed_throwPanic _)
        | exact fixed_steady fixed_peekP
        | exact fixed_steady fixed_getS
        | exact fixed_steady fixed_advanceP
        | exact fixed_steady (fixed_checkP _)
        | exact fixed_steady (fixed_expectP _)
        | exact fixed_steady fixed_is_at_endP
        | exact fixed_steady fixed_parse_ident
        | exact fixed_steady fixed_parse_pattern
        | exact fixed_steady (fixed_liftE _)
        | apply steady_bind
        | split
        | intro a
    · simp only [parse_generic_args_loop]
      repeat' first
        | exact ih17
        | exact ih23 _
        | exact fixed_steady (fixed_pure _)
        | exact fixed_steady (fixed_throwN _)
        | exact fixed_steady (fixed_throwPanic _)
        | exact fixed_steady fixed_peekP
        | exact fixed_steady fixed_getS
        | exact fixed_steady fixed_advanceP
        | exact fixed_steady (fixed_checkP _)
        | exact fixed_steady (fixed_expectP _)
        | exact fixed_steady fixed_is_at_endP
        | exact fixed_steady fixed_parse_ident
        | exact fixed_steady fixed_parse_pattern
        | exact fixed_steady (fixed_liftE _)
        | apply steady_bind
        | split
        | intro a
    · simp only [parse_where_clause]
      repeat' first
        | exact ih25 _
        | exact fixed_steady (fixed_pure _)
        | exact fixed_steady (fixed_throwN _)
        | exact fixed_steady (fixed_throwPanic _)
        | exact fixed_steady fixed_peekP
        | exact fixed_steady fixed_getS
        | exact fixed_steady fixed_advanceP
        | exact fixed_steady (fixed_checkP _)
        | exact fixed_steady (fixed_expectP _)
        | exact fixed_steady fixed_is_at_endP
        | exact fixed_steady fixed_parse_ident
        | exact fixed_steady fixed_parse_pattern
        | exact fixed_steady (fixed_liftE _)
        | apply steady_bind
        | split
        | intro a
    · simp only [parse_where_loop]
      repeat' first
        | exact ih17
        | exact ih21 _
        | exact ih25 _
        | exact fixed_steady (fixed_pure _)
        | exact fixed_steady (fixed_throwN _)
        | exact fixed_steady (fixed_throwPanic _)
        | exact fixed_steady fixed_peekP
        | exact fixed_steady fixed_getS
        | exact fixed_steady fixed_advanceP
        | exact fixed_steady (fixed_checkP _)
        | exact fixed_steady (fixed_expectP _)
        | exact fixed_steady fixed_is_at_endP
        | exact fixed_steady fixed_parse_ident
        | exact fixed_steady fixed_parse_pattern
        | exact fixed_steady (fixed_liftE _)
        | apply steady_bind
        | split
        | intro a
    · simp only [parse_struct]
      repeat' first
        | exact ih19
        | exact ih27 _
        | exact fixed_steady (fixed_pure _)
        | exact fixed_steady (fixed_throwN _)
        | exact fixed_steady (fixed_throwPanic _)
        | exact fixed_steady fixed_peekP
        | exact fixed_steady fixed_getS
        | exact fixed_steady fixed_advanceP
        | exact fixed_steady (fixed_checkP _)
        | exact fixed_steady (fixed_expectP _)
        | exact fixed_steady fixed_is_at_endP
        | exact fixed_steady fixed_parse_ident
        | exact fixed_steady fixed_parse_pattern
        | exact fixed_steady (fixed_liftE _)
        | apply steady_bind
        | split
        | intro a
    · simp only [parse_fields_loop]
      repeat' first
        | exact ih17
        | exact ih27 _
        | exact fixed_steady (fixed_pure _)
        | exact fixed_steady (fixed_throwN _)
        | exact fixed_steady (fixed_throwPanic _)
        | exact fixed_steady fixed_peekP
        | exact fixed_steady fixed_getS
        | exact fixed_steady fixed_advanceP
        | exact fixed_steady (fixed_checkP _)
        | exact fixed_steady (fixed_expectP _)
        | exact fixed_steady fixed_is_at_endP
        | exact fixed_steady fixed_parse_ident
        | exact fixed_steady fixed_parse_pattern
        | exact fixed_steady (fixed_liftE _)
        | apply steady_bind
        | split
        | intro a
    · simp only [parse_enum]
      repeat' first
        | exact ih19
        | exact ih29 _
        | exact fixed_steady (fixed_pure _)
        | exact fixed_steady (fixed_throwN _)
        | exact fixed_steady (fixed_throwPanic _)
        | exact fixed_steady fixed_peekP
        | exact fixed_steady fixed_getS
        | exact fixed_steady fixed_advanceP
        | exact fixed_steady (fixed_checkP _)
        | exact fixed_steady (fixed_expectP _)
        | exact fixed_steady fixed_is_at_endP
        | exact fixed_steady fixed_parse_ident
        | exact fixed_steady fixed_parse_pattern
        | exact fixed_steady (fixed_liftE _)
        | apply steady_bind
        | split
        | intro a
    · simp only [parse_enum_variants]
      repeat' first
        | exact ih30 _
        | exact ih27 _
        | exact ih29 _
        | exact fixed_steady (fixed_pure _)
        | exact fixed_steady (fixed_throwN _)
        | exact fixed_steady (fixed_throwPanic _)
        | exact fixed_steady fixed_peekP
        | exact fixed_steady fixed_getS
        | exact fixed_steady fixed_advanceP
        | exact fixed_steady (fixed_checkP _)
        | exact fixed_steady (fixed_expectP _)
        | exact fixed_steady fixed_is_at_endP
        | exact fixed_steady fixed_parse_ident
        | exact fixed_steady fixed_parse_pattern
        | exact fixed_steady (fixed_liftE _)
        | apply steady_bind
        | split
        | intro a
    · simp only [parse_variant_tuple_types]
      repeat' first
        | exact ih17
        | exact ih30 _
        | exact fixed_steady (fixed_pure _)
        | exact fixed_steady (fixed_throwN _)
        | exact fixed_steady (fixed_throwPanic _)
        | exact fixed_steady fixed_peekP
        | exact fixed_steady fixed_getS
        | exact fixed_steady fixed_advanceP
        | exact fixed_steady (fixed_checkP _)
        | exact fixed_steady (fixed_expectP _)
        | exact fixed_steady fixed_is_at_endP
        | exact fixed_steady fixed_parse_ident
        | exact fixed_steady fixed_parse_pattern
        | exact fixed_steady (fixed_liftE _)
        | apply steady_bind
        | split
        | intro a
    · simp only [parse_impl]
      repeat' first
        | exact fixed_steady (fixed_pure _)
        | exact fixed_steady (fixed_throwN _)
        | exact fixed_steady (fixed_throwPanic _)
        | exact fixed_steady fixed_peekP
        | exact fixed_steady fixed_getS
        | exact fixed_steady fixed_advanceP
        | exact fixed_steady (fixed_checkP _)
        | exact fixed_steady (fixed_expectP _)
        | exact fixed_steady fixed_is_at_endP
        | exact fixed_steady fixed_parse_ident
        | exact fixed_steady fixed_parse_pattern
        | exact fixed_steady (fixed_liftE _)
        | apply steady_bind
        | split
        | intro a
    · simp only [parse_trait]
      repeat' first
        | exact fixed_steady (fixed_pure _)
        | exact fixed_steady (fixed_throwN _)
        | exact fixed_steady (fixed_throwPanic _)
        | exact fixed_steady fixed_peekP
        | exact fixed_steady fixed_getS
        | exact fixed_steady fixed_advanceP
        | exact fixed_steady (fixed_checkP _)
        | exact fixed_steady (fixed_expectP _)
        | exact fixed_steady fixed_is_at_endP
        | exact fixed_steady fixed_parse_ident
        | exact fixed_steady fixed_parse_pattern
        | exact fixed_steady (fixed_liftE _)
        | apply steady_bind
        | split
        | intro a
    · simp only [parse_use]
      repeat' first
        | exact fixed_steady (fixed_pure _)
        | exact fixed_steady (fixed_throwN _)
        | exact fixed_steady (fixed_throwPanic _)
        | exact fixed_steady fixed_peekP
        | exact fixed_steady fixed_getS
        | exact fixed_steady fixed_advanceP
        | exact fixed_steady (fixed_checkP _)
        | exact fixed_steady (fixed_expectP _)
        | exact fixed_steady fixed_is_at_endP
        | exact fixed_steady fixed_parse_ident
        | exact fixed_steady fixed_parse_pattern
        | exact fixed_steady (fixed_liftE _)
        | apply steady_bind
        | split
        | intro a
    · simp only [parse_type_alias]
      repeat' first
        | exact fixed_steady (fixed_pure _)
        | exact fixed_steady (fixed_throwN _)
        | exact fixed_steady (fixed_throwPanic _)
        | exact fixed_steady fixed_peekP
        | exact fixed_steady fixed_getS
        | exact fixed_steady fixed_advanceP
        | exact fixed_steady (fixed_checkP _)
        | exact fixed_steady (fixed_expectP _)
        | exact fixed_steady fixed_is_at_endP
        | exact fixed_steady fixed_parse_ident
        | exact fixed_steady fixed_parse_pattern
        | exact fixed_steady (fixed_liftE _)
        | apply steady_bind
        | split
        | intro a
    · simp only [parse_if_expr]
      repeat' first
        | exact ih8
        | exact ih4
        | exact ih35
        | exact fixed_steady (fixed_pure _)
        | exact fixed_steady (fixed_throwN _)
        | exact fixed_steady (fixed_throwPanic _)
        | exact fixed_steady fixed_peekP
        | exact fixed_steady fixed_getS
        | exact fixed_steady fixed_advanceP
        | exact fixed_steady (fixed_checkP _)
        | exact fixed_steady (fixed_expectP _)
        | exact fixed_steady fixed_is_at_endP
        | exact fixed_steady fixed_parse_ident
        | exact fixed_steady fixed_parse_pattern
        | exact fixed_steady (fixed_liftE _)
        | apply steady_bind
        | split
        | intro a
    · simp only [parse_match_expr]
      repeat' first
        | exact ih8
        | exact ih37 _
        | exact fixed_steady (fixed_pure _)
        | exact fixed_steady (fixed_throwN _)
        | exact fixed_steady (fixed_throwPanic _)
        | exact fixed_steady fixed_peekP
        | exact fixed_steady fixed_getS
        | exact fixed_steady fixed_advanceP
        | exact fixed_steady (fixed_checkP _)
        | exact fixed_steady (fixed_expectP _)
        | exact fixed_steady fixed_is_at_endP
        | exact fixed_steady fixed_parse_ident
        | exact fixed_steady fixed_parse_pattern
        | exact fixed_steady (fixed_liftE _)
        | apply steady_bind
        | split
        | intro a
    · simp only [parse_match_arms]
      repeat' first
        | exact ih8
        | exact ih37 _
        | exact fixed_steady (fixed_pure _)
        | exact fixed_steady (fixed_throwN _)
        | exact fixed_steady (fixed_throwPanic _)
        | exact fixed_steady fixed_peekP
        | exact fixed_steady fixed_getS
        | exact fixed_steady fixed_advanceP
        | exact fixed_steady (fixed_checkP _)
        | exact fixed_steady (fixed_expectP _)
        | exact fixed_steady fixed_is_at_endP
        | exact fixed_steady fixed_parse_ident
        | exact fixed_steady fixed_parse_pattern
        | exact fixed_steady (fixed_liftE _)
        | apply steady_bind
        | split
        | intro a
    · simp only [parse_while_expr]
      repeat' first
        | exact ih8
        | exact ih4
        | exact fixed_steady (fixed_pure _)
        | exact fixed_steady (fixed_throwN _)
        | exact fixed_steady (fixed_throwPanic _)
        | exact fixed_steady fixed_peekP
        | exact fixed_steady fixed_getS
        | exact fixed_steady fixed_advanceP
        | exact fixed_steady (fixed_checkP _)
        | exact fixed_steady (fixed_expectP _)
        | exact fixed_steady fixed_is_at_endP
        | exact fixed_steady fixed_parse_ident
        | exact fixed_steady fixed_parse_pattern
        | exact fixed_steady (fixed_liftE _)
        | apply steady_bind
        | split
        | intro a
    · simp only [parse_for_expr]
      repeat' first
        | exact ih8
        | exact ih4
        | exact fixed_steady (fixed_pure _)
        | exact fixed_steady (fixed_throwN _)
        | exact fixed_steady (fixed_throwPanic _)
        | exact fixed_steady fixed_peekP
        | exact fixed_steady fixed_getS
        | exact fixed_steady fixed_advanceP
        | exact fixed_steady (fixed_checkP _)
        | exact fixed_steady (fixed_expectP _)
        | exact fixed_steady fixed_is_at_endP
        | exact fixed_steady fixed_parse_ident
        | exact fixed_steady fixed_parse_pattern
        | exact fixed_steady (fixed_liftE _)
        | apply steady_bind
        | split
        | intro a
    · simp only [parse_args_loop]
      repeat' first
        | exact ih8
        | exact ih40 _
        | exact fixed_steady (fixed_pure _)
        | exact fixed_steady (fixed_throwN _)
        | exact fixed_steady (fixed_throwPanic _)
        | exact fixed_steady fixed_peekP
        | exact fixed_steady fixed_getS
        | exact fixed_steady fixed_advanceP
        | exact fixed_steady (fixed_checkP _)
        | exact fixed_steady (fixed_expectP _)
        | exact fixed_steady fixed_is_at_endP
        | exact fixed_steady fixed_parse_ident
        | exact fixed_steady fixed_parse_pattern
        | exact fixed_steady (fixed_liftE _)
        | apply steady_bind
        | split
        | intro a
    · simp only [parse_program_loop]
      repeat' first
        | exact ih1
        | exact ih41 _
        | exact fixed_steady (fixed_pure _)
        | exact fixed_steady (fixed_throwN _)
        | exact fixed_steady (fixed_throwPanic _)
        | exact fixed_steady fixed_peekP
        | exact fixed_steady fixed_getS
        | exact fixed_steady fixed_advanceP
        | exact fixed_steady (fixed_checkP _)
        | exact fixed_steady (fixed_expectP _)
        | exact fixed_steady fixed_is_at_endP
        | exact fixed_steady fixed_parse_ident
        | exact fixed_steady fixed_parse_pattern
        | exact fixed_steady (fixed_liftE _)
        | apply steady_bind
        | split
        | intro a

/-- C8: the claim that parse_expr and parse_block restore both depth
counters on every exit path fails for parse_block: the amended
statement is that, on every non-panic exit, both functions preserve
expr_depth, and both preserve block_depth on every ok exit; error
exits of parse_block can leave block_depth incremented (see the
counterexample). -/
theorem C8_amended : ∀ f : Nat, Steady (parse_expr f) ∧ Steady (parse_block f) :=
  fun f => ⟨(steady_all f).2.2.2.2.2.2.2.1, (steady_all f).2.2.2.1⟩

/-- Witness for C8: parsing the block "\x7b \x7d" succeeds and returns
with both depth counters back at 0. -/
theorem C8_amended_witness :
    (parse_block 8 (initPState "\x7b \x7d".toList
      [Token.new TokenKind.LBrace (Span.mk 0 1), Token.new TokenKind.RBrace (Span.mk 2 3),
       Token.eof 3])).2.expr_depth = 0 ∧
    (parse_block 8 (initPState "\x7b \x7d".toList
      [Token.new TokenKind.LBrace (Span.mk 0 1), Token.new TokenKind.RBrace (Span.mk 2 3),
       Token.eof 3])).2.block_depth = 0 :=
  ⟨((C8_amended 8).2 (initPState "\x7b \x7d".toList
      [Token.new TokenKind.LBrace (Span.mk 0 1), Token.new TokenKind.RBrace (Span.mk 2 3),
       Token.eof 3]) trivial).1,
   ((C8_amended 8).2 (initPState "\x7b \x7d".toList
      [Token.new TokenKind.LBrace (Span.mk 0 1), Token.new TokenKind.RBrace (Span.mk 2 3),
       Token.eof 3]) trivial).2 (Block.mk [] (Span.mk 0 3)) rfl⟩

/-- Counterexample for C8 as written: on the tokens of "42",
parse_block exits with the missing-brace error and block_depth still
at 1, not restored to its entry value 0. -/
theorem C8_counterexample :
    (parse_blockAt "42" 0).1 =
      Except.error (PErr.nova
        (NovaError.UnexpectedToken "\x7b" TokenKind.IntLit (Span.mk 0 2))) ∧
    (parse_blockAt "42" 0).2.block_depth = 1 ∧
    (parse_blockAt "42" 0).2.expr_depth = 0 :=
  ⟨rfl, rfl, rfl⟩


/-!
Lexer totality and the no-panic invariant of the parser (claim C2).
-/

theorem takeW_len (p : Char → Bool) :
    ∀ (cur : Nat) (l : List Char), (takeW p cur l).2.length ≤ l.length := by
  intro cur l
  induction l generalizing cur with
  | nil => simp [takeW]
  | cons c rs ih =>
    simp only [takeW]
    by_cases h : p c
    · rw [if_pos h]
      have := ih (cur + csize c)
      simp only [List.length_cons]
      omega
    · rw [if_neg h]

theorem takeWText_len (p : Char → Bool) :
    ∀ (cur : Nat) (l : List Char), (takeWText p cur l).2.2.length ≤ l.length := by
  intro cur l
  induction l generalizing cur with
  | nil => simp [takeWText]
  | cons c rs ih =>
    simp only [takeWText]
    by_cases h : p c
    · rw [if_pos h]
      have := ih (cur + csize c)
      rcases hr : takeWText p (cur + csize c) rs with ⟨c2, t, r⟩
      rw [hr] at this
      simp only [List.length_cons]
      dsimp only at this ⊢
      omega
    · rw [if_neg h]

theorem skipLine_len :
    ∀ (cur : Nat) (l : List Char), (skipLine cur l).2.length ≤ l.length := by
  intro cur l
  induction l generalizing cur with
  | nil => simp [skipLine]
  | cons c rs ih =>
    simp only [skipLine]
    by_cases h : c = '\n'
    · rw [if_pos h]
    · rw [if_neg h]
      have := ih (cur + csize c)
      simp only [List.length_cons]
      omega

theorem skipBlock_len :
    ∀ (d cur : Nat) (l : List Char), (skipBlock d cur l).2.length ≤ l.length := by
  intro d cur l
  induction d, cur, l using skipBlock.induct with
  | case1 cur l => simp [skipBlock]
  | case2 d cur => simp [skipBlock]
  | case3 d cur rs ih =>
    simp only [skipBlock]
    simp only [List.length_cons] at ih ⊢
    omega
  | case4 d cur rs ih =>
    simp only [skipBlock]
    simp only [List.length_cons] at ih ⊢
    omega
  | case5 d cur c rs h1 h2 ih =>
    simp only [skipBlock]
    simp only [List.length_cons] at ih ⊢
    omega

theorem skipWs_len :
    ∀ (f cur : Nat) (l : List Char), (skipWs f cur l).2.length ≤ l.length := by
  intro f
  induction f with
  | zero => intro cur l; simp [skipWs]
  | succ f ih =>
    intro cur l
    match l with
    | [] => simp [skipWs]
    | c :: rs =>
      simp only [skipWs]
      by_cases hw : (c = ' ' || c = '\t' || c = '\n' || c = '\r' : Bool)
      · rw [if_pos hw]
        have := ih (cur + 1) rs
        simp only [List.length_cons]
        omega
      · rw [if_neg hw]
        by_cases hs : c = '/'
        · rw [if_pos hs]
          subst hs
          split
          · next rs2 =>
            have h1 := skipLine_len (cur + 2) rs2
            have h2 := ih (skipLine (cur + 2) rs2).1 (skipLine (cur + 2) rs2).2
            simp only [List.length_cons]
            omega
          · next rs2 =>
            have h1 := skipBlock_len 1 (cur + 2) rs2
            have h2 := ih (skipBlock 1 (cur + 2) rs2).1 (skipBlock 1 (cur + 2) rs2).2
            simp only [List.length_cons]
            omega
          · exact Nat.le_refl _
        · rw [if_neg hs]

theorem match_char_len (cur : Nat) (l : List Char) (e : Char) (a b : TokenKind) :
    (match_char cur l e a b).2.2.length ≤ l.length := by
  unfold match_char
  split
  · next c rs =>
    by_cases hc : c = e
    · rw [if_pos hc]
      simp only [List.length_cons]
      omega
    · rw [if_neg hc]
  · exact Nat.le_refl _

theorem lex_string_len :
    ∀ (start cur : Nat) (l : List Char) (k : TokenKind) (cur2 : Nat) (rest : List Char),
      lex_string start cur l = Except.ok (k, cur2, rest) → rest.length ≤ l.length := by
  intro start cur l
  induction cur, l using lex_string.induct with
  | start => exact start
  | case1 cur => intro k cur2 rest h; exact absurd h (by rw [lex_string.eq_def]; simp)
  | case2 cur rs =>
    intro k cur2 rest h
    rw [lex_string.eq_def] at h
    simp at h
    obtain ⟨h1, h2, h3⟩ := h
    subst h3
    simp only [List.length_cons]
    omega
  | case3 cur hne =>
    intro k cur2 rest h
    rw [lex_string.eq_def] at h
    simp at h
  | case4 cur c rs hne ih =>
    intro k cur2 rest h
    rw [lex_string.eq_def] at h
    simp at h
    have := ih k cur2 rest h
    simp only [List.length_cons]
    omega
  | case5 cur c rs hq hb ih =>
    intro k cur2 rest h
    rw [lex_string.eq_def] at h
    simp [hq, hb] at h
    have := ih k cur2 rest h
    simp only [List.length_cons]
    omega

theorem lex_char_close_len (start cur : Nat) (l : List Char)
    (k : TokenKind) (cur2 : Nat) (rest : List Char)
    (h : lex_char_close start cur l = Except.ok (k, cur2, rest)) :
    rest.length ≤ l.length := by
  unfold lex_char_close at h
  split at h
  · next rs =>
    simp only [Except.ok.injEq, Prod.mk.injEq] at h
    obtain ⟨h1, h2, h3⟩ := h
    subst h3
    simp only [List.length_cons]
    omega
  · cases h

theorem lex_char_len (start cur : Nat) (l : List Char)
    (k : TokenKind) (cur2 : Nat) (rest : List Char)
    (h : lex_char start cur l = Except.ok (k, cur2, rest)) :
    rest.length ≤ l.length := by
  unfold lex_char at h
  split at h
  · cases h
  · next c rs =>
    by_cases hb : c = '\\'
    · rw [if_pos hb] at h
      split at h
      · cases h
      · next e rs2 =>
        have := lex_char_close_len start (cur + 1 + csize e) rs2 k cur2 rest h
        simp only [List.length_cons] at this ⊢
        omega
    · rw [if_neg hb] at h
      by_cases hq : c = '\''
      · rw [if_pos hq] at h; cases h
      · rw [if_neg hq] at h
        have := lex_char_close_len start (cur + csize c) rs k cur2 rest h
        simp only [List.length_cons] at this ⊢
        omega

theorem lex_exponent_len (cur : Nat) (l : List Char) :
    (lex_exponent cur l).2.2.length ≤ l.length := by
  unfold lex_exponent
  split
  · simp
  · next c rs =>
    by_cases hce : (c = 'e' || c = 'E' : Bool)
    · rw [if_pos hce]
      split
      · next s rs2 =>
        by_cases hsg : (s = '+' || s = '-' : Bool)
        · rw [if_pos hsg]
          have h1 := takeW_len isDigitUnd (cur + 2) rs2
          simp only [List.length_cons] at h1 ⊢
          omega
        · rw [if_neg hsg]
          have h1 := takeW_len isDigitUnd (cur + 1) (s :: rs2)
          simp only [List.length_cons] at h1 ⊢
          omega
      · simp
    · rw [if_neg hce]

theorem lex_fraction_len (cur1 : Nat) (l1 : List Char) :
    (lex_fraction cur1 l1).2.2.length ≤ l1.length := by
  unfold lex_fraction
  split
  · next d rs2 =>
    by_cases hd : d.isDigit
    · rw [if_pos hd]
      rcases e2 : takeW isDigitUnd (cur1 + 1) (d :: rs2) with ⟨cur2, l2⟩
      have h2 := takeW_len isDigitUnd (cur1 + 1) (d :: rs2)
      rw [e2] at h2
      dsimp only at h2 ⊢
      simp only [List.length_cons] at h2 ⊢
      omega
    · rw [if_neg hd]
  · exact Nat.le_refl _

theorem lex_number_body_len (cur : Nat) (l : List Char) :
    (lex_number_body cur l).2.2.length ≤ l.length := by
  unfold lex_number_body
  rcases e1 : takeW isDigitUnd cur l with ⟨cur1, l1⟩
  have h1 := takeW_len isDigitUnd cur l
  rw [e1] at h1
  dsimp only at h1 ⊢
  rcases e2 : lex_fraction cur1 l1 with ⟨isf, curf, lf⟩
  have h2 := lex_fraction_len cur1 l1
  rw [e2] at h2
  dsimp only at h2 ⊢
  rcases e3 : lex_exponent curf lf with ⟨ise, cure, le⟩
  have h3 := lex_exponent_len curf lf
  rw [e3] at h3
  dsimp only at h3 ⊢
  split <;> (dsimp only; omega)

theorem lex_number_len (c0 : Char) (cur : Nat) (l : List Char) :
    (lex_number c0 cur l).2.2.length ≤ l.length := by
  unfold lex_number
  by_cases h0 : c0 = '0'
  · rw [if_pos h0]
    split
    · next c rs =>
      by_cases hx : (c = 'x' || c = 'X' : Bool)
      · rw [if_pos hx]
        rcases e1 : takeW isHexUnd (cur + 1) rs with ⟨cur2, l2⟩
        have h1 := takeW_len isHexUnd (cur + 1) rs
        rw [e1] at h1
        dsimp only at h1 ⊢
        simp only [List.length_cons]
        omega
      · rw [if_neg hx]
        by_cases hb : (c = 'b' || c = 'B' : Bool)
        · rw [if_pos hb]
          rcases e1 : takeW isBinUnd (cur + 1) rs with ⟨cur2, l2⟩
          have h1 := takeW_len isBinUnd (cur + 1) rs
          rw [e1] at h1
          dsimp only at h1 ⊢
          simp only [List.length_cons]
          omega
        · rw [if_neg hb]
          by_cases ho : (c = 'o' || c = 'O' : Bool)
          · rw [if_pos ho]
            rcases e1 : takeW isOctUnd (cur + 1) rs with ⟨cur2, l2⟩
            have h1 := takeW_len isOctUnd (cur + 1) rs
            rw [e1] at h1
            dsimp only at h1 ⊢
            simp only [List.length_cons]
            omega
          · rw [if_neg ho]
            exact lex_number_body_len cur (c :: rs)
    · exact lex_number_body_len cur []
  · rw [if_neg h0]
    exact lex_number_body_len cur l

theorem lex_identifier_len (c0 : Char) (cur : Nat) (l : List Char) :
    (lex_identifier c0 cur l).2.2.length ≤ l.length := by
  unfold lex_identifier
  rcases e1 : takeWText isIdentCont cur l with ⟨cur2, text, rest⟩
  have h1 := takeWText_len isIdentCont cur l
  rw [e1] at h1
  dsimp only at h1 ⊢
  omega

theorem lex_token_len :
    ∀ (c0 : Char) (start cur : Nat) (l : List Char) (k : TokenKind) (cur2 : Nat)
      (rest : List Char),
      lex_token c0 start cur l = Except.ok (k, cur2, rest) → rest.length ≤ l.length := by
  intro c0 start cur l k cur2 rest h
  unfold lex_token at h
  split at h
  all_goals try split at h
  all_goals try split at h
  all_goals
    first
    | exact lex_string_len _ _ _ _ _ _ h
    | exact lex_char_len _ _ _ _ _ _ h
    | exact Except.noConfusion h
    | (injection h with h;
       have hb := congrArg (fun q => q.2.2) h
       dsimp only at hb
       rw [← hb] <;>
       first
       | exact lex_number_len _ _ _
       | exact lex_identifier_len _ _ _
       | exact match_char_len _ _ _ _ _
       | ((try dsimp only); (try simp only [List.length_cons]); omega))

theorem lex_all_no_fuelOut :
    ∀ (f cur : Nat) (l : List Char), l.length < f →
      lex_all f cur l ≠ Except.error LexErr.fuelOut := by
  intro f
  induction f with
  | zero => intro cur l h; omega
  | succ f ih =>
    intro cur l hlt
    rw [lex_all.eq_def]
    dsimp only
    rcases ew : skipWs (l.length + 1) cur l with ⟨start, l1⟩
    have hwl := skipWs_len (l.length + 1) cur l
    rw [ew] at hwl
    dsimp only at hwl
    cases l1 with
    | nil =>
      dsimp only
      intro hcon
      exact Except.noConfusion hcon
    | cons c rs =>
      dsimp only
      rcases et : lex_token c start (start + csize c) rs with e | ⟨k, cur2, rest⟩
      · dsimp only
        intro hcon
        injection hcon with hcon
        exact LexErr.noConfusion hcon
      · dsimp only
        have hrl := lex_token_len c start (start + csize c) rs k cur2 rest et
        have hlt2 : rest.length < f := by
          simp only [List.length_cons] at hwl
          omega
        have hrec := ih cur2 rest hlt2
        rcases ea : lex_all f cur2 rest with e2 | toks
        · rw [ea] at hrec
          dsimp only
          intro hcon
          injection hcon with hcon
          exact hrec (by rw [hcon])
        · dsimp only
          intro hcon
          exact Except.noConfusion hcon

/-- nova::lexer::lex is total: the fuel of the embedding never runs
out, so every input produces Ok or a NovaError, exactly as the
panic-free Rust loop does. -/
theorem lexChars_total : ∀ l : List Char, lexChars l ≠ Except.error LexErr.fuelOut :=
  fun l => lex_all_no_fuelOut (l.length + 1) 0 l (Nat.lt_succ_self _)

/-! No-panic invariant of the parser: on a non-empty token stream that
contains none of the four stubbed item keywords, no parser function
can return the panic outcome. -/

theorem np_pure {α : Type} (a : α) : NP (pure a : PM α) := fun _ _ => ⟨trivial, rfl⟩

theorem np_throwN {α : Type} (e : NovaError) : NP (throwN e : PM α) := fun _ _ => ⟨trivial, rfl⟩

theorem np_throwFuel {α : Type} : NP (throwFuel : PM α) := fun _ _ => ⟨trivial, rfl⟩

theorem np_getS : NP getS := fun _ _ => ⟨trivial, rfl⟩

theorem np_liftE {α : Type} (r : Except NovaError α) : NP (liftE r) := by
  intro s hg
  unfold liftE
  split <;> exact ⟨trivial, rfl⟩

theorem np_modify_cur : NP (modifyS (fun s => { s with current := s.current + 1 })) :=
  fun _ _ => ⟨trivial, rfl⟩

theorem np_modify_incb : NP (modifyS (fun s => { s with block_depth := s.block_depth + 1 })) :=
  fun _ _ => ⟨trivial, rfl⟩

theorem np_modify_decb : NP (modifyS (fun s => { s with block_depth := s.block_depth - 1 })) :=
  fun _ _ => ⟨trivial, rfl⟩

theorem np_modify_ince : NP (modifyS (fun s => { s with expr_depth := s.expr_depth + 1 })) :=
  fun _ _ => ⟨trivial, rfl⟩

theorem np_modify_dece : NP (modifyS (fun s => { s with expr_depth := s.expr_depth - 1 })) :=
  fun _ _ => ⟨trivial, rfl⟩

theorem mem_of_getLast? {α : Type} : ∀ (l : List α) (a : α), l.getLast? = some a → a ∈ l := by
  intro l
  induction l with
  | nil => intro a h; simp [List.getLast?] at h
  | cons b bs ih =>
    intro a h
    cases bs with
    | nil =>
      simp [List.getLast?] at h
      subst h
      exact List.mem_singleton_self _
    | cons c cs =>
      have e : (b :: c :: cs).getLast? = (c :: cs).getLast? := by simp [List.getLast?]
      rw [e] at h
      exact List.mem_cons_of_mem b (ih a h)

theorem np_peekP : NP peekP := by
  intro s hg
  unfold peekP
  split
  · exact ⟨trivial, rfl⟩
  · split
    · exact ⟨trivial, rfl⟩
    · next heq => exact absurd (List.getLast?_eq_none_iff.mp heq) hg.1

theorem peekP_state (s : PState) : (peekP s).2 = s := by
  unfold peekP
  split
  · rfl
  · split <;> rfl

theorem peekP_mem (s : PState) (t : Token) (s1 : PState)
    (h : peekP s = (Except.ok t, s1)) : t ∈ s.tokens := by
  unfold peekP at h
  split at h
  · next t' heq =>
    simp only [Prod.mk.injEq, Except.ok.injEq] at h
    obtain ⟨h1, h2⟩ := h
    subst h1
    exact List.get?_mem heq
  · split at h
    · next t' heq =>
      simp only [Prod.mk.injEq, Except.ok.injEq] at h
      obtain ⟨h1, h2⟩ := h
      subst h1
      exact mem_of_getLast? _ _ heq
    · simp at h

theorem np_bind {α β : Type} {m : PM α} {k : α → PM β}
    (hm : NP m) (hk : ∀ a, NP (k a)) : NP (m >>= k) := by
  intro s hg
  have e0 : (m >>= k) s = match m s with
      | (Except.ok a, s1) => k a s1
      | (Except.error e, s1) => (Except.error e, s1) := rfl
  rcases e : m s with ⟨r, s1⟩
  rw [e] at e0
  have h1 := hm s hg
  rw [e] at h1
  dsimp only at h1
  cases r with
  | ok a =>
    dsimp only at e0
    rw [e0]
    have hg1 : StubFree s1 := by
      obtain ⟨hne, hall⟩ := hg
      exact ⟨by rw [h1.2]; exact hne, by rw [h1.2]; exact hall⟩
    have h2 := hk a s1 hg1
    exact ⟨h2.1, h2.2.trans h1.2⟩
  | error er =>
    dsimp only at e0
    rw [e0]
    exact ⟨nonPanic_error h1.1, h1.2⟩

theorem np_andFinally_dece {α : Type} {m : PM α} (hm : NP m) :
    NP (andFinally m (fun s => { s with expr_depth := s.expr_depth - 1 })) := by
  intro s hg
  have h1 := hm s hg
  simp only [andFinally]
  rcases e : m s with ⟨r, s1⟩
  rw [e] at h1
  dsimp only at h1 ⊢
  exact ⟨h1.1, h1.2⟩

theorem np_is_at_endP : NP is_at_endP := by
  unfold is_at_endP
  exact np_bind np_peekP (fun _ => np_pure _)

theorem np_advanceP : NP advanceP := by
  unfold advanceP
  refine np_bind np_peekP (fun t => ?_)
  refine np_bind np_is_at_endP (fun e => ?_)
  split
  · exact np_pure _
  · exact np_bind np_modify_cur (fun _ => np_pure _)

theorem np_checkP (k : TokenKind) : NP (checkP k) := by
  unfold checkP
  exact np_bind np_peekP (fun _ => np_pure _)

theorem np_expectP (k : TokenKind) : NP (expectP k) := by
  unfold expectP
  refine np_bind (np_checkP k) (fun c => ?_)
  split
  · exact np_advanceP
  · exact np_bind np_peekP (fun t => np_throwN _)

theorem np_parse_ident : NP parse_ident := by
  unfold parse_ident
  refine np_bind np_peekP (fun t => ?_)
  split
  · exact np_bind np_advanceP (fun tok => np_bind np_getS (fun st => np_pure _))
  · exact np_throwN _

theorem np_parse_pattern : NP parse_pattern := by
  unfold parse_pattern
  repeat' first
    | exact np_pure _
    | exact np_throwN _
    | exact np_peekP
    | exact np_getS
    | exact np_advanceP
    | exact np_liftE _
    | apply np_bind
    | split
    | intro a

theorem np_parse_item (f : Nat) (ihf : NP (parse_function f)) (ihs : NP (parse_struct f))
    (ihe : NP (parse_enum f)) : NP (parse_item (f + 1)) := by
  intro s hg
  simp only [parse_item]
  rw [run_bind]
  rcases e : peekP s with ⟨r, s1⟩
  have hs1 : s1 = s := by have hp := peekP_state s; rw [e] at hp; exact hp
  subst s1
  have hp := np_peekP s hg
  rw [e] at hp
  dsimp only at hp
  cases r with
  | error er =>
    dsimp only
    exact ⟨nonPanic_error hp.1, rfl⟩
  | ok t =>
    dsimp only
    have hmem := peekP_mem s t s e
    have hnk := List.all_eq_true.mp hg.2 t hmem
    cases ht : t.kind <;>
      first
        | exact (np_bind ihf (fun x => np_pure _)) s hg
        | exact (np_bind ihs (fun x => np_pure _)) s hg
        | exact (np_bind ihe (fun x => np_pure _)) s hg
        | exact (np_throwN _) s hg
        | (rw [ht] at hnk; simp at hnk)

set_option maxHeartbeats 4000000 in
theorem np_all : ∀ f, NPAll f := by
  intro f
  induction f with
  | zero =>
    unfold NPAll
    refine ⟨?_, ?_, fun acc => ?_, ?_, fun acc => ?_, ?_, ?_, ?_, fun mb => ?_, fun mb lhs => ?_, ?_, ?_, fun acc => ?_, fun acc => ?_, ?_, fun acc start => ?_, ?_, fun acc => ?_, ?_, fun acc => ?_, fun acc => ?_, ?_, fun acc => ?_, ?_, fun acc => ?_, ?_, fun acc => ?_, ?_, fun acc => ?_, fun acc => ?_, ?_, ?_, fun acc => ?_, ?_, ?_, fun acc => ?_, fun acc => ?_⟩
    all_goals exact np_throwFuel
  | succ f ih =>
    obtain ⟨np1, np2, np3, np4, np5, np6, np7, np8, np9, np10, np11, np12, np13, np14, np15, np16, np17, np18, np19, np20, np21, np22, np23, np24, np25, np26, np27, np28, np29, np30, np35, np36, np37, np38, np39, np40, np41⟩ := ih
    unfold NPAll
    refine ⟨?_, ?_, fun acc => ?_, ?_, fun acc => ?_, ?_, ?_, ?_, fun mb => ?_, fun mb lhs => ?_, ?_, ?_, fun acc => ?_, fun acc => ?_, ?_, fun acc start => ?_, ?_, fun acc => ?_, ?_, fun acc => ?_, fun acc => ?_, ?_, fun acc => ?_, ?_, fun acc => ?_, ?_, fun acc => ?_, ?_, fun acc => ?_, fun acc => ?_, ?_, ?_, fun acc => ?_, ?_, ?_, fun acc => ?_, fun acc => ?_⟩
    · exact np_parse_item f np2 np26 np28
    · simp only [parse_function]
      repeat' first
        | exact np19
        | exact np3 _
        | exact np17
        | exact np24
        | exact np4
        | exact np_pure _
        | exact np_throwN _
        | exact np_peekP
        | exact np_getS
        | exact np_advanceP
        | exact np_checkP _
        | exact np_expectP _
        | exact np_is_at_endP
        | exact np_parse_ident
        | exact np_parse_pattern
        | exact np_liftE _
        | exact np_modify_cur
        | exact np_modify_incb
        | exact np_modify_decb
        | exact np_modify_ince
        | exact np_modify_dece
        | apply np_bind
        | split
        | intro a
    · simp only [parse_params_loop]
      repeat' first
        | exact np17
        | exact np3 _
        | exact np_pure _
        | exact np_throwN _
        | exact np_peekP
        | exact np_getS
        | exact np_advanceP
        | exact np_checkP _
        | exact np_expectP _
        | exact np_is_at_endP
        | exact np_parse_ident
        | exact np_parse_pattern
        | exact np_liftE _
        | exact np_modify_cur
        | exact np_modify_incb
        | exact np_modify_decb
        | exact np_modify_ince
        | exact np_modify_dece
        | apply np_bind
        | split
        | intro a
    · simp only [parse_block]
      repeat' first
        | exact np5 _
        | exact np_pure _
        | exact np_throwN _
        | exact np_peekP
        | exact np_getS
        | exact np_advanceP
        | exact np_checkP _
        | exact np_expectP _
        | exact np_is_at_endP
        | exact np_parse_ident
        | exact np_parse_pattern
        | exact np_liftE _
        | exact np_modify_cur
        | exact np_modify_incb
        | exact np_modify_decb
        | exact np_modify_ince
        | exact np_modify_dece
        | apply np_bind
        | split
        | intro a
    · simp only [parse_block_stmts]
      repeat' first
        | exact np6
        | exact np5 _
        | exact np_pure _
        | exact np_throwN _
        | exact np_peekP
        | exact np_getS
        | exact np_advanceP
        | exact np_checkP _
        | exact np_expectP _
        | exact np_is_at_endP
        | exact np_parse_ident
        | exact np_parse_pattern
        | exact np_liftE _
        | exact np_modify_cur
        | exact np_modify_incb
        | exact np_modify_decb
        | exact np_modify_ince
        | exact np_modify_dece
        | apply np_bind
        | split
        | intro a
    · simp only [parse_stmt]
      repeat' first
        | exact np7
        | exact np1
        | exact np8
        | exact np_pure _
        | exact np_throwN _
        | exact np_peekP
        | exact np_getS
        | exact np_advanceP
        | exact np_checkP _
        | exact np_expectP _
        | exact np_is_at_endP
        | exact np_parse_ident
        | exact np_parse_pattern
        | exact np_liftE _
        | exact np_modify_cur
        | exact np_modify_incb
        | exact np_modify_decb
        | exact np_modify_ince
        | exact np_modify_dece
        | apply np_bind
        | split
        | intro a
    · simp only [parse_let_stmt]
      repeat' first
        | exact np17
        | exact np8
        | exact np_pure _
        | exact np_throwN _
        | exact np_peekP
        | exact np_getS
        | exact np_advanceP
        | exact np_checkP _
        | exact np_expectP _
        | exact np_is_at_endP
        | exact np_parse_ident
        | exact np_parse_pattern
        | exact np_liftE _
        | exact np_modify_cur
        | exact np_modify_incb
        | exact np_modify_decb
        | exact np_modify_ince
        | exact np_modify_dece
        | apply np_bind
        | split
        | intro a
    · simp only [parse_expr]
      repeat' first
        | exact np9 _
        | exact np_andFinally_dece (np9 0)
        | exact np_pure _
        | exact np_throwN _
        | exact np_peekP
        | exact np_getS
        | exact np_advanceP
        | exact np_checkP _
        | exact np_expectP _
        | exact np_is_at_endP
        | exact np_parse_ident
        | exact np_parse_pattern
        | exact np_liftE _
        | exact np_modify_cur
        | exact np_modify_incb
        | exact np_modify_decb
        | exact np_modify_ince
        | exact np_modify_dece
        | apply np_bind
        | split
        | intro a
    · simp only [parse_expr_bp]
      repeat' first
        | exact np11
        | exact np10 _ _
        | exact np_pure _
        | exact np_throwN _
        | exact np_peekP
        | exact np_getS
        | exact np_advanceP
        | exact np_checkP _
        | exact np_expectP _
        | exact np_is_at_endP
        | exact np_parse_ident
        | exact np_parse_pattern
        | exact np_liftE _
        | exact np_modify_cur
        | exact np_modify_incb
        | exact np_modify_decb
        | exact np_modify_ince
        | exact np_modify_dece
        | apply np_bind
        | split
        | intro a
    · simp only [parse_expr_bp_loop]
      repeat' first
        | exact np9 _
        | exact np10 _ _
        | exact np40 _
        | exact np8
        | exact np_pure _
        | exact np_throwN _
        | exact np_peekP
        | exact np_getS
        | exact np_advanceP
        | exact np_checkP _
        | exact np_expectP _
        | exact np_is_at_endP
        | exact np_parse_ident
        | exact np_parse_pattern
        | exact np_liftE _
        | exact np_modify_cur
        | exact np_modify_incb
        | exact np_modify_decb
        | exact np_modify_ince
        | exact np_modify_dece
        | apply np_bind
        | split
        | intro a
    · simp only [parsePrefix]
      repeat' first
        | exact np9 _
        | exact np12
        | exact np_pure _
        | exact np_throwN _
        | exact np_peekP
        | exact np_getS
        | exact np_advanceP
        | exact np_checkP _
        | exact np_expectP _
        | exact np_is_at_endP
        | exact np_parse_ident
        | exact np_parse_pattern
        | exact np_liftE _
        | exact np_modify_cur
        | exact np_modify_incb
        | exact np_modify_decb
        | exact np_modify_ince
        | exact np_modify_dece
        | apply np_bind
        | split
        | intro a
    · simp only [parse_primary]
      repeat' first
        | exact np15
        | exact np8
        | exact np13 _
        | exact np14 _
        | exact np4
        | exact np35
        | exact np36
        | exact np38
        | exact np39
        | exact np_pure _
        | exact np_throwN _
        | exact np_peekP
        | exact np_getS
        | exact np_advanceP
        | exact np_checkP _
        | exact np_expectP _
        | exact np_is_at_endP
        | exact np_parse_ident
        | exact np_parse_pattern
        | exact np_liftE _
        | exact np_modify_cur
        | exact np_modify_incb
        | exact np_modify_decb
        | exact np_modify_ince
        | exact np_modify_dece
        | apply np_bind
        | split
        | intro a
    · simp only [parse_tuple_rest]
      repeat' first
        | exact np8
        | exact np13 _
        | exact np_pure _
        | exact np_throwN _
        | exact np_peekP
        | exact np_getS
        | exact np_advanceP
        | exact np_checkP _
        | exact np_expectP _
        | exact np_is_at_endP
        | exact np_parse_ident
        | exact np_parse_pattern
        | exact np_liftE _
        | exact np_modify_cur
        | exact np_modify_incb
        | exact np_modify_decb
        | exact np_modify_ince
        | exact np_modify_dece
        | apply np_bind
        | split
        | intro a
    · simp only [parse_array_elems]
      repeat' first
        | exact np8
        | exact np14 _
        | exact np_pure _
        | exact np_throwN _
        | exact np_peekP
        | exact np_getS
        | exact np_advanceP
        | exact np_checkP _
        | exact np_expectP _
        | exact np_is_at_endP
        | exact np_parse_ident
        | exact np_parse_pattern
        | exact np_liftE _
        | exact np_modify_cur
        | exact np_modify_incb
        | exact np_modify_decb
        | exact np_modify_ince
        | exact np_modify_dece
        | apply np_bind
        | split
        | intro a
    · simp only [parse_path]
      repeat' first
        | exact np16 _ _
        | exact np_pure _
        | exact np_throwN _
        | exact np_peekP
        | exact np_getS
        | exact np_advanceP
        | exact np_checkP _
        | exact np_expectP _
        | exact np_is_at_endP
        | exact np_parse_ident
        | exact np_parse_pattern
        | exact np_liftE _
        | exact np_modify_cur
        | exact np_modify_incb
        | exact np_modify_decb
        | exact np_modify_ince
        | exact np_modify_dece
        | apply np_bind
        | split
        | intro a
    · simp only [parse_path_loop]
      repeat' first
        | exact np22
        | exact np16 _ _
        | exact np_pure _
        | exact np_throwN _
        | exact np_peekP
        | exact np_getS
        | exact np_advanceP
        | exact np_checkP _
        | exact np_expectP _
        | exact np_is_at_endP
        | exact np_parse_ident
        | exact np_parse_pattern
        | exact np_liftE _
        | exact np_modify_cur
        | exact np_modify_incb
        | exact np_modify_decb
        | exact np_modify_ince
        | exact np_modify_dece
        | apply np_bind
        | split
        | intro a
    · simp only [parse_type]
      repeat' first
        | exact np17
        | exact np18 _
        | exact np8
        | exact np15
        | exact np_pure _
        | exact np_throwN _
        | exact np_peekP
        | exact np_getS
        | exact np_advanceP
        | exact np_checkP _
        | exact np_expectP _
        | exact np_is_at_endP
        | exact np_parse_ident
        | exact np_parse_pattern
        | exact np_liftE _
        | exact np_modify_cur
        | exact np_modify_incb
        | exact np_modify_decb
        | exact np_modify_ince
        | exact np_modify_dece
        | apply np_bind
        | split
        | intro a
    · simp only [parse_type_tuple_rest]
      repeat' first
        | exact np17
        | exact np18 _
        | exact np_pure _
        | exact np_throwN _
        | exact np_peekP
        | exact np_getS
        | exact np_advanceP
        | exact np_checkP _
        | exact np_expectP _
        | exact np_is_at_endP
        | exact np_parse_ident
        | exact np_parse_pattern
        | exact np_liftE _
        | exact np_modify_cur
        | exact np_modify_incb
        | exact np_modify_decb
        | exact np_modify_ince
        | exact np_modify_dece
        | apply np_bind
        | split
        | intro a
    · simp only [parse_generics]
      repeat' first
        | exact np20 _
        | exact np_pure _
        | exact np_throwN _
        | exact np_peekP
        | exact np_getS
        | exact np_advanceP
        | exact np_checkP _
        | exact np_expectP _
        | exact np_is_at_endP
        | exact np_parse_ident
        | exact np_parse_pattern
        | exact np_liftE _
        | exact np_modify_cur
        | exact np_modify_incb
        | exact np_modify_decb
        | exact np_modify_ince
        | exact np_modify_dece
        | apply np_bind
        | split
        | intro a
    · simp only [parse_generics_loop]
      repeat' first
        | exact np17
        | exact np21 _
        | exact np20 _
        | exact np_pure _
        | exact np_throwN _
        | exact np_peekP
        | exact np_getS
        | exact np_advanceP
        | exact np_checkP _
        | exact np_expectP _
        | exact np_is_at_endP
        | exact np_parse_ident
        | exact np_parse_pattern
        | exact np_liftE _
        | exact np_modify_cur
        | exact np_modify_incb
        | exact np_modify_decb
        | exact np_modify_ince
        | exact np_modify_dece
        | apply np_bind
        | split
        | intro a
    · simp only [parse_bounds_rest]
      repeat' first
        | exact np17
        | exact np21 _
        | exact np_pure _
        | exact np_throwN _
        | exact np_peekP
        | exact np_getS
        | exact np_advanceP
        | exact np_checkP _
        | exact np_expectP _
        | exact np_is_at_endP
        | exact np_parse_ident
        | exact np_parse_pattern
        | exact np_liftE _
        | exact np_modify_cur
        | exact np_modify_incb
        | exact np_modify_decb
        | exact np_modify_ince
        | exact np_modify_dece
        | apply np_bind
        | split
        | intro a
    · simp only [parse_generic_args]
      repeat' first
        | exact np23 _
        | exact np_pure _
        | exact np_throwN _
        | exact np_peekP
        | exact np_getS
        | exact np_advanceP
        | exact np_checkP _
        | exact np_expectP _
        | exact np_is_at_endP
        | exact np_parse_ident
        | exact np_parse_pattern
        | exact np_liftE _
        | exact np_modify_cur
        | exact np_modify_incb
        | exact np_modify_decb
        | exact np_modify_ince
        | exact np_modify_dece
        | apply np_bind
        | split
        | intro a
    · simp only [parse_generic_args_loop]
      repeat' first
        | exact np17
        | exact np23 _
        | exact np_pure _
        | exact np_throwN _
        | exact np_peekP
        | exact np_getS
        | exact np_advanceP
        | exact np_checkP _
        | exact np_expectP _
        | exact np_is_at_endP
        | exact np_parse_ident
        | exact np_parse_pattern
        | exact np_liftE _
        | exact np_modify_cur
        | exact np_modify_incb
        | exact np_modify_decb
        | exact np_modify_ince
        | exact np_modify_dece
        | apply np_bind
        | split
        | intro a
    · simp only [parse_where_clause]
      repeat' first
        | exact np25 _
        | exact np_pure _
        | exact np_throwN _
        | exact np_peekP
        | exact np_getS
        | exact np_advanceP
        | exact np_checkP _
        | exact np_expectP _
        | exact np_is_at_endP
        | exact np_parse_ident
        | exact np_parse_pattern
        | exact np_liftE _
        | exact np_modify_cur
        | exact np_modify_incb
        | exact np_modify_decb
        | exact np_modify_ince
        | exact np_modify_dece
        | apply np_bind
        | split
        | intro a
    · simp only [parse_where_loop]
      repeat' first
        | exact np17
        | exact np21 _
        | exact np25 _
        | exact np_pure _
        | exact np_throwN _
        | exact np_peekP
        | exact np_getS
        | exact np_advanceP
        | exact np_checkP _
        | exact np_expectP _
        | exact np_is_at_endP
        | exact np_parse_ident
        | exact np_parse_pattern
        | exact np_liftE _
        | exact np_modify_cur
        | exact np_modify_incb
        | exact np_modify_decb
        | exact np_modify_ince
        | exact np_modify_dece
        | apply np_bind
        | split
        | intro a
    · simp only [parse_struct]
      repeat' first
        | exact np19
        | exact np27 _
        | exact np_pure _
        | exact np_throwN _
        | exact np_peekP
        | exact np_getS
        | exact np_advanceP
        | exact np_checkP _
        | exact np_expectP _
        | exact np_is_at_endP
        | exact np_parse_ident
        | exact np_parse_pattern
        | exact np_liftE _
        | exact np_modify_cur
        | exact np_modify_incb
        | exact np_modify_decb
        | exact np_modify_ince
        | exact np_modify_dece
        | apply np_bind
        | split
        | intro a
    · simp only [parse_fields_loop]
      repeat' first
        | exact np17
        | exact np27 _
        | exact np_pure _
        | exact np_throwN _
        | exact np_peekP
        | exact np_getS
        | exact np_advanceP
        | exact np_checkP _
        | exact np_expectP _
        | exact np_is_at_endP
        | exact np_parse_ident
        | exact np_parse_pattern
        | exact np_liftE _
        | exact np_modify_cur
        | exact np_modify_incb
        | exact np_modify_decb
        | exact np_modify_ince
        | exact np_modify_dece
        | apply np_bind
        | split
        | intro a
    · simp only [parse_enum]
      repeat' first
        | exact np19
        | exact np29 _
        | exact np_pure _
        | exact np_throwN _
        | exact np_peekP
        | exact np_getS
        | exact np_advanceP
        | exact np_checkP _
        | exact np_expectP _
        | exact np_is_at_endP
        | exact np_parse_ident
        | exact np_parse_pattern
        | exact np_liftE _
        | exact np_modify_cur
        | exact np_modify_incb
        | exact np_modify_decb
        | exact np_modify_ince
        | exact np_modify_dece
        | apply np_bind
        | split
        | intro a
    · simp only [parse_enum_variants]
      repeat' first
        | exact np30 _
        | exact np27 _
        | exact np29 _
        | exact np_pure _
        | exact np_throwN _
        | exact np_peekP
        | exact np_getS
        | exact np_advanceP
        | exact np_checkP _
        | exact np_expectP _
        | exact np_is_at_endP
        | exact np_parse_ident
        | exact np_parse_pattern
        | exact np_liftE _
        | exact np_modify_cur
        | exact np_modify_incb
        | exact np_modify_decb
        | exact np_modify_ince
        | exact np_modify_dece
        | apply np_bind
        | split
        | intro a
    · simp only [parse_variant_tuple_types]
      repeat' first
        | exact np17
        | exact np30 _
        | exact np_pure _
        | exact np_throwN _
        | exact np_peekP
        | exact np_getS
        | exact np_advanceP
        | exact np_checkP _
        | exact np_expectP _
        | exact np_is_at_endP
        | exact np_parse_ident
        | exact np_parse_pattern
        | exact np_liftE _
        | exact np_modify_cur
        | exact np_modify_incb
        | exact np_modify_decb
        | exact np_modify_ince
        | exact np_modify_dece
        | apply np_bind
        | split
        | intro a
    · simp only [parse_if_expr]
      repeat' first
        | exact np8
        | exact np4
        | exact np35
        | exact np_pure _
        | exact np_throwN _
        | exact np_peekP
        | exact np_getS
        | exact np_advanceP
        | exact np_checkP _
        | exact np_expectP _
        | exact np_is_at_endP
        | exact np_parse_ident
        | exact np_parse_pattern
        | exact np_liftE _
        | exact np_modify_cur
        | exact np_modify_incb
        | exact np_modify_decb
        | exact np_modify_ince
        | exact np_modify_dece
        | apply np_bind
        | split
        | intro a
    · simp only [parse_match_expr]
      repeat' first
        | exact np8
        | exact np37 _
        | exact np_pure _
        | exact np_throwN _
        | exact np_peekP
        | exact np_getS
        | exact np_advanceP
        | exact np_checkP _
        | exact np_expectP _
        | exact np_is_at_endP
        | exact np_parse_ident
        | exact np_parse_pattern
        | exact np_liftE _
        | exact np_modify_cur
        | exact np_modify_incb
        | exact np_modify_decb
        | exact np_modify_ince
        | exact np_modify_dece
        | apply np_bind
        | split
        | intro a
    · simp only [parse_match_arms]
      repeat' first
        | exact np8
        | exact np37 _
        | exact np_pure _
        | exact np_throwN _
        | exact np_peekP
        | exact np_getS
        | exact np_advanceP
        | exact np_checkP _
        | exact np_expectP _
        | exact np_is_at_endP
        | exact np_parse_ident
        | exact np_parse_pattern
        | exact np_liftE _
        | exact np_modify_cur
        | exact np_modify_incb
        | exact np_modify_decb
        | exact np_modify_ince
        | exact np_modify_dece
        | apply np_bind
        | split
        | intro a
    · simp only [parse_while_expr]
      repeat' first
        | exact np8
        | exact np4
        | exact np_pure _
        | exact np_throwN _
        | exact np_peekP
        | exact np_getS
        | exact np_advanceP
        | exact np_checkP _
        | exact np_expectP _
        | exact np_is_at_endP
        | exact np_parse_ident
        | exact np_parse_pattern
        | exact np_liftE _
        | exact np_modify_cur
        | exact np_modify_incb
        | exact np_modify_decb
        | exact np_modify_ince
        | exact np_modify_dece
        | apply np_bind
        | split
        | intro a
    · simp only [parse_for_expr]
      repeat' first
        | exact np8
        | exact np4
        | exact np_pure _
        | exact np_throwN _
        | exact np_peekP
        | exact np_getS
        | exact np_advanceP
        | exact np_checkP _
        | exact np_expectP _
        | exact np_is_at_endP
        | exact np_parse_ident
        | exact np_parse_pattern
        | exact np_liftE _
        | exact np_modify_cur
        | exact np_modify_incb
        | exact np_modify_decb
        | exact np_modify_ince
        | exact np_modify_dece
        | apply np_bind
        | split
        | intro a
    · simp only [parse_args_loop]
      repeat' first
        | exact np8
        | exact np40 _
        | exact np_pure _
        | exact np_throwN _
        | exact np_peekP
        | exact np_getS
        | exact np_advanceP
        | exact np_checkP _
        | exact np_expectP _
        | exact np_is_at_endP
        | exact np_parse_ident
        | exact np_parse_pattern
        | exact np_liftE _
        | exact np_modify_cur
        | exact np_modify_incb
        | exact np_modify_decb
        | exact np_modify_ince
        | exact np_modify_dece
        | apply np_bind
        | split
        | intro a
    · simp only [parse_program_loop]
      repeat' first
        | exact np1
        | exact np41 _
        | exact np_pure _
        | exact np_throwN _
        | exact np_peekP
        | exact np_getS
        | exact np_advanceP
        | exact np_checkP _
        | exact np_expectP _
        | exact np_is_at_endP
        | exact np_parse_ident
        | exact np_parse_pattern
        | exact np_liftE _
        | exact np_modify_cur
        | exact np_modify_incb
        | exact np_modify_decb
        | exact np_modify_ince
        | exact np_modify_dece
        | apply np_bind
        | split
        | intro a

theorem np_parse_program (f : Nat) : NP (parse_program f) := by
  unfold parse_program
  obtain ⟨np1, np2, np3, np4, np5, np6, np7, np8, np9, np10, np11, np12, np13, np14, np15,
    np16, np17, np18, np19, np20, np21, np22, np23, np24, np25, np26, np27, np28, np29,
    np30, np35, np36, np37, np38, np39, np40, np41⟩ := np_all f
  exact np_bind (np41 []) (fun items => np_pure _)

set_option maxRecDepth 100000 in
set_option maxHeartbeats 1000000 in
/-- Claim C2 amended: lexing never panics and its fuel never runs out
on any input; parsing never panics on any lex-successful input whose
token stream avoids the four stubbed item keywords, at every fuel
value (the no-panic induction np_all); but each of the stubbed
keywords impl, trait, use and type reaches its todo stub and panics,
while stub-free inputs return Ok (the classic main function) or a
structured NovaError (a lone fn keyword). -/
theorem C2_amended :
    (∀ l : List Char, lexChars l ≠ Except.error LexErr.fuelOut) ∧
    (∀ (f : Nat) (l : List Char) (ts : List Token),
        lexChars l = Except.ok ts →
        (ts.all fun t => !(t.kind == TokenKind.Impl || t.kind == TokenKind.Trait ||
          t.kind == TokenKind.Use || t.kind == TokenKind.Type)) = true →
        NonPanic (parse_program f (initPState l ts)).1) ∧
    parseNova "impl" =
      some (Except.error (PErr.panicStub "Impl parsing not yet implemented")) ∧
    parseNova "trait" =
      some (Except.error (PErr.panicStub "Trait parsing not yet implemented")) ∧
    parseNova "use" =
      some (Except.error (PErr.panicStub "Use parsing not yet implemented")) ∧
    parseNova "type" =
      some (Except.error (PErr.panicStub "Type alias parsing not yet implemented")) ∧
    isOkProgram (parseNova "fn main() \x7b return 42; \x7d") = true ∧
    parseNova "fn" =
      some (Except.error (PErr.nova (NovaError.UnexpectedToken "identifier"
        TokenKind.Eof (Span.mk 2 2)))) := by
  refine ⟨lexChars_total, ?_, by rfl, by rfl, by rfl, by rfl, by rfl, by rfl⟩
  intro f l ts hlex hall
  have hne : ts ≠ [] := (lex_all_eof (l.length + 1) 0 l ts hlex).1
  exact (np_parse_program f (initPState l ts) ⟨hne, hall⟩).1

set_option maxRecDepth 100000 in
/-- Witness for C2: a concrete input on which the lexer is total and
the parse of the classic main function is panic-free. -/
theorem C2_amended_witness :
    lexChars "let x = 1".toList ≠ Except.error LexErr.fuelOut ∧
    NonPanic (parse_program 40 (initPState "fn main() \x7b return 42; \x7d".toList
      [Token.new TokenKind.Fn (Span.mk 0 2), Token.new TokenKind.Ident (Span.mk 3 7),
       Token.new TokenKind.LParen (Span.mk 7 8), Token.new TokenKind.RParen (Span.mk 8 9),
       Token.new TokenKind.LBrace (Span.mk 10 11), Token.new TokenKind.Return (Span.mk 12 18),
       Token.new TokenKind.IntLit (Span.mk 19 21), Token.new TokenKind.Semi (Span.mk 21 22),
       Token.new TokenKind.RBrace (Span.mk 23 24), Token.eof 24])).1 :=
  ⟨C2_amended.1 "let x = 1".toList,
   C2_amended.2.1 40 "fn main() \x7b return 42; \x7d".toList _ rfl (by decide)⟩

end Nova
